import Mathlib

/-! # ChiraEngine: render backend, window pool, engine core and resource manager

A shallow embedding of

* `engine/render/backend/api/BackendDX11.{h,cpp}`: the handle types, the
  render-mode state controller (`initStates`, `pushState`, `popState`,
  `changeRenderMode`), the framebuffer stack (`pushFrameBuffer`,
  `popFrameBuffer`, `destroyFrameBuffer`) and the mesh operations
  (`createMesh`, `drawMesh`, `destroyMesh`);
* `engine/render/backend/device/DeviceDX11.cpp`: the window pool
  (`findFreeWindow`, `createWindow`, `getWindowCount`, `destroyWindow`,
  `queueDestroyWindow`, `setWindowVisibility`) and `Device::refreshWindows`;
* `engine/core/engine.cpp`: the input callbacks, `preInit`, `init`, `run`,
  `render`, `stop`, the singleton accessors and `setSettingsLoaderDefaults`;
* `src/resource/resourceManager.cpp`: resource identifiers, providers and the
  resource cache.

The global variables of the backend become the fields of `State`.  Every call
that leaves the modelled functions (Direct3D, OpenGL) and every entry into
`changeRenderMode`, `pushState` and `popState` is appended to `State.trace`, so
that call counts can be stated.  A failed `runtime_assert` ends the run with
`Outcome.fatal`, which keeps the state reached when the assertion fired.
-/

namespace chira

/-! ## Handles (BackendDX11.h) -/

/-- Native pointers are natural numbers, `0` being `nullptr`. -/
abbrev Ptr := Nat

/-- The `enum class RenderMode` of BackendDX11.cpp. -/
inductive RenderMode where
  | CULL_FACE
  | DEPTH_TEST
  | TEXTURE_CUBE_MAP_SEAMLESS
  deriving DecidableEq, Repr

/-- Value of `D3D11_CULL_NONE` in d3d11.h. -/
def D3D11_CULL_NONE : Nat := 1

/-- Value of `D3D11_CULL_FRONT` in d3d11.h. -/
def D3D11_CULL_FRONT : Nat := 2

/-- Value of `D3D11_CULL_BACK` in d3d11.h. -/
def D3D11_CULL_BACK : Nat := 3

/-- The two fields of `D3D11_RASTERIZER_DESC` the backend writes. -/
structure RasterizerDesc where
  CullMode : Nat
  DepthClipEnable : Bool
  deriving DecidableEq, Repr

/-- The `struct FrameBufferHandle`, with its default member initialisers. -/
structure FrameBufferHandle where
  renderTargetView : Ptr := 0
  depthStencilView : Ptr := 0
  renderTargetBuffer : Ptr := 0
  depthStencilBuffer : Ptr := 0
  hasDepth : Bool := true
  width : Int := -1
  height : Int := -1
  deriving DecidableEq, Repr

/-- The `explicit operator bool` of `FrameBufferHandle`:
`renderTargetView && (!hasDepth || depthStencilView)`. -/
def FrameBufferHandle.operatorBool (h : FrameBufferHandle) : Bool :=
  h.renderTargetView != 0 && (!h.hasDepth || h.depthStencilView != 0)

/-- The `operator!` of `FrameBufferHandle`:
`!renderTargetView && (hasDepth || !depthStencilView)`. -/
def FrameBufferHandle.operatorNot (h : FrameBufferHandle) : Bool :=
  h.renderTargetView == 0 && (h.hasDepth || h.depthStencilView == 0)

/-- The `struct MeshHandle`, with its default member initialisers. -/
structure MeshHandle where
  vertexBuffer : Ptr := 0
  indexBuffer : Ptr := 0
  eboHandle : Nat := 0
  numIndices : Int := 0
  deriving DecidableEq, Repr

/-- The `explicit operator bool` of `MeshHandle`: `vertexBuffer && indexBuffer`. -/
def MeshHandle.operatorBool (h : MeshHandle) : Bool :=
  h.vertexBuffer != 0 && h.indexBuffer != 0

/-- The `operator!` of `MeshHandle`: `!vertexBuffer || !indexBuffer`. -/
def MeshHandle.operatorNot (h : MeshHandle) : Bool :=
  h.vertexBuffer == 0 || h.indexBuffer == 0

/-! ## Backend state, call trace and outcomes -/

/-- One entry of the call trace: a Direct3D or OpenGL call, or the entry into
one of the static helpers of the state controller. -/
inductive Call where
  | changeRenderMode (mode : RenderMode) (enable : Bool)
  | pushState (mode : RenderMode) (enable : Bool)
  | popState (mode : RenderMode)
  | RSGetState
  | CreateRasterizerState (desc : RasterizerDesc)
  | RSSetState (desc : RasterizerDesc)
  | RSSetViewports (w h : Int) (hasDepth : Bool)
  | OMSetRenderTargets (rtv dsv : Ptr)
  | ClearDepthStencilView (dsv : Ptr)
  | ClearRenderTargetView (rtv : Ptr)
  | CreateBuffer (byteWidth : Nat) (created : Ptr)
  | Release (p : Ptr)
  | glDepthFunc (depthFunction : Nat)
  | glCullFace (cullType : Nat)
  | glBindVertexArray
  | glDrawElements (numIndices : Int)
  | glDeleteVertexArrays
  | glDeleteBuffers
  deriving DecidableEq, Repr

/-- The globals of BackendDX11.cpp together with the part of the device
context they drive.  Stacks are lists whose head is the top. -/
structure State where
  /-- The global `rasterizerDesc`. -/
  rasterizerDesc : RasterizerDesc
  /-- The stack `g_DXStates[RenderMode::CULL_FACE]`. -/
  cullFace : List Bool
  /-- The stack `g_DXStates[RenderMode::DEPTH_TEST]`. -/
  depthTest : List Bool
  /-- The stack `g_DXStates[RenderMode::TEXTURE_CUBE_MAP_SEAMLESS]`. -/
  seamless : List Bool
  /-- The function-local `static bool initedStates` of `pushState`. -/
  initedStates : Bool
  /-- The stack `g_DXFramebuffers`. -/
  framebuffers : List FrameBufferHandle
  /-- Rasterizer state currently set on the device context. -/
  deviceRasterizer : RasterizerDesc
  /-- Render-target view currently bound on the device context. -/
  boundRTV : Ptr
  /-- Depth-stencil view currently bound on the device context. -/
  boundDSV : Ptr
  /-- Calls made so far, oldest first. -/
  trace : List Call
  deriving DecidableEq, Repr

/-- Which assertion (or undefined operation) ended a run. -/
inductive Fault where
  /-- The message "This render mode was not added to initStates()!!". -/
  | renderModeNotAdded
  /-- The message "Attempted to pop render state without a corresponding push!". -/
  | popStateWithoutPush
  /-- The message "Attempted to pop framebuffer without a corresponding push!". -/
  | popFrameBufferWithoutPush
  /-- The message "Invalid mesh handle given to DX11 renderer!". -/
  | invalidMeshHandle
  /-- A call of `std::stack::top` on an empty stack. -/
  | emptyStackTop
  deriving DecidableEq, Repr

/-- Result of running a backend function: it returned, or the run was aborted
in the given state. -/
inductive Outcome where
  | ok (s : State)
  | fatal (f : Fault) (s : State)
  deriving DecidableEq, Repr

/-- The state an outcome ended in. -/
def Outcome.state : Outcome → State
  | .ok s => s
  | .fatal _ s => s

/-- Sequencing: continue with `k` unless the run was aborted. -/
def Outcome.andThen (o : Outcome) (k : State → Outcome) : Outcome :=
  match o with
  | .ok s => k s
  | .fatal f s => .fatal f s

/-- Modelled from the spec: the macro `runtime_assert` of core/Assertions.h,
which is not part of the sources at hand.  A failed assertion is fatal: the run
stops at the assertion, nothing after it is executed. -/
def runtime_assert (cond : Bool) (f : Fault) (s : State) (k : State → Outcome) : Outcome :=
  if cond then k s else .fatal f s

/-- Append a call to the trace. -/
def State.log (s : State) (c : Call) : State :=
  { s with trace := s.trace ++ [c] }

/-- The stack `g_DXStates[mode]`. -/
def State.stack (s : State) : RenderMode → List Bool
  | .CULL_FACE => s.cullFace
  | .DEPTH_TEST => s.depthTest
  | .TEXTURE_CUBE_MAP_SEAMLESS => s.seamless

/-- Assignment to the stack `g_DXStates[mode]`. -/
def State.setStack (s : State) (mode : RenderMode) (st : List Bool) : State :=
  match mode with
  | .CULL_FACE => { s with cullFace := st }
  | .DEPTH_TEST => { s with depthTest := st }
  | .TEXTURE_CUBE_MAP_SEAMLESS => { s with seamless := st }

/-- The test `g_DXStates.contains(mode)`: the map is created with the three
render modes as keys and no key is ever erased. -/
def dxStatesContains (_mode : RenderMode) : Bool := true

/-! ## The state controller (BackendDX11.cpp, lines 54-120) -/

/-- The static function `changeRenderMode`. -/
def changeRenderMode (mode : RenderMode) (enable : Bool) (s : State) : State :=
  let s := s.log (.changeRenderMode mode enable)
  match mode with
  | .TEXTURE_CUBE_MAP_SEAMLESS => s
  | .CULL_FACE =>
    let desc : RasterizerDesc :=
      { s.rasterizerDesc with CullMode := if enable then D3D11_CULL_FRONT else D3D11_CULL_NONE }
    let s := { s with rasterizerDesc := desc }
    let s := s.log (.CreateRasterizerState desc)
    { s.log (.RSSetState desc) with deviceRasterizer := desc }
  | .DEPTH_TEST =>
    let desc : RasterizerDesc := { s.rasterizerDesc with DepthClipEnable := enable }
    let s := { s with rasterizerDesc := desc }
    let s := s.log (.CreateRasterizerState desc)
    { s.log (.RSSetState desc) with deviceRasterizer := desc }

/-- The static function `initStates`: reads the device rasterizer state, pushes
`true` on every stack, then applies every top in the key order of the map. -/
def initStates (s : State) : State :=
  let s := s.log .RSGetState
  let s := { s with rasterizerDesc := s.deviceRasterizer }
  let s := s.setStack .CULL_FACE (true :: s.stack .CULL_FACE)
  let s := s.setStack .DEPTH_TEST (true :: s.stack .DEPTH_TEST)
  let s := s.setStack .TEXTURE_CUBE_MAP_SEAMLESS (true :: s.stack .TEXTURE_CUBE_MAP_SEAMLESS)
  let s := changeRenderMode .CULL_FACE true s
  let s := changeRenderMode .DEPTH_TEST true s
  changeRenderMode .TEXTURE_CUBE_MAP_SEAMLESS true s

/-- The static function `pushState`. -/
def pushState (mode : RenderMode) (enable : Bool) (s : State) : Outcome :=
  let s := s.log (.pushState mode enable)
  let s := if !s.initedStates then { initStates s with initedStates := true } else s
  runtime_assert (dxStatesContains mode) .renderModeNotAdded s fun s =>
    match s.stack mode with
    | [] => .fatal .emptyStackTop s
    | current :: below =>
      let s := s.setStack mode (enable :: current :: below)
      if enable != current then .ok (changeRenderMode mode enable s) else .ok s

/-- The static function `popState`. -/
def popState (mode : RenderMode) (s : State) : Outcome :=
  let s := s.log (.popState mode)
  if !dxStatesContains mode || decide ((s.stack mode).length ≤ 1) then
    .fatal .popStateWithoutPush s
  else
    match s.stack mode with
    | old :: top :: below =>
      let s := s.setStack mode (top :: below)
      if top != old then .ok (changeRenderMode mode top s) else .ok s
    | _ => .fatal .emptyStackTop s

/-- One call of the state controller, for runs over call sequences. -/
inductive StateOp where
  | push (mode : RenderMode) (enable : Bool)
  | pop (mode : RenderMode)
  deriving DecidableEq, Repr

/-- Execute one call of the state controller. -/
def StateOp.run : StateOp → State → Outcome
  | .push mode enable, s => pushState mode enable s
  | .pop mode, s => popState mode s

/-- Execute a sequence of calls, stopping at the first fatal assertion. -/
def runStateOps : List StateOp → State → Outcome
  | [], s => .ok s
  | op :: ops, s => (op.run s).andThen (runStateOps ops)

/-- Whether the call is a `pushState` on the given mode. -/
def StateOp.isPush (m : RenderMode) : StateOp → Bool
  | .push mode _ => decide (mode = m)
  | .pop _ => false

/-- Whether the call is a `popState` on the given mode. -/
def StateOp.isPop (m : RenderMode) : StateOp → Bool
  | .push _ _ => false
  | .pop mode => decide (mode = m)

/-- Whether a trace entry is an entry into `changeRenderMode` for the mode. -/
def Call.isChangeOf (m : RenderMode) : Call → Bool
  | .changeRenderMode mode _ => decide (mode = m)
  | _ => false

/-- Whether a trace entry is a call into Direct3D or OpenGL (as opposed to an
entry into one of the static helpers). -/
def Call.isDeviceCall : Call → Bool
  | .changeRenderMode _ _ => false
  | .pushState _ _ => false
  | .popState _ => false
  | _ => true

/-! ## The framebuffer stack (BackendDX11.cpp, lines 140-279) -/

/-- The expression `g_DXFramebuffers.empty() ? nullptr :
g_DXFramebuffers.top().renderTargetView`. -/
def topView : List FrameBufferHandle → Ptr
  | [] => 0
  | top :: _ => top.renderTargetView

/-- The static function `dxViewport`, always called with `x = y = 0`. -/
def dxViewport (w h : Int) (hasDepth : Bool) (s : State) : State :=
  s.log (.RSSetViewports w h hasDepth)

/-- The device call `OMSetRenderTargets(1, &rtv, dsv)`. -/
def OMSetRenderTargets (rtv dsv : Ptr) (s : State) : State :=
  { s.log (.OMSetRenderTargets rtv dsv) with boundRTV := rtv, boundDSV := dsv }

/-- The block shared by `pushFrameBuffer` (lines 205-215) and `popFrameBuffer`
(lines 235-245): set the viewport of the top framebuffer and bind its views,
the depth view only when the framebuffer has depth. -/
def bindTop (top : FrameBufferHandle) (s : State) : State :=
  let s := dxViewport top.width top.height top.hasDepth s
  if top.hasDepth then
    OMSetRenderTargets top.renderTargetView top.depthStencilView s
  else
    OMSetRenderTargets top.renderTargetView 0 s

/-- The function `Renderer::pushFrameBuffer`. -/
def pushFrameBuffer (handle : FrameBufferHandle) (s : State) : Outcome :=
  let old := topView s.framebuffers
  let s := { s with framebuffers := handle :: s.framebuffers }
  match s.framebuffers with
  | [] => .fatal .emptyStackTop s
  | top :: _ =>
    let o := if old != topView s.framebuffers then
        pushState .DEPTH_TEST top.hasDepth (bindTop top s)
      else .ok s
    o.andThen fun s =>
      if top.hasDepth then
        .ok ((s.log (.ClearDepthStencilView handle.depthStencilView)).log
          (.ClearRenderTargetView handle.renderTargetView))
      else
        .ok (s.log (.ClearRenderTargetView handle.renderTargetView))

/-- The function `Renderer::popFrameBuffer`. -/
def popFrameBuffer (s : State) : Outcome :=
  runtime_assert (!s.framebuffers.isEmpty) .popFrameBufferWithoutPush s fun s =>
    let old := topView s.framebuffers
    let s := { s with framebuffers := s.framebuffers.tail }
    if old != topView s.framebuffers then
      let s := match s.framebuffers with
        | top :: _ => bindTop top s
        | [] => OMSetRenderTargets 0 0 s
      popState .DEPTH_TEST s
    else .ok s

/-- The macro `dxRelease(x)` of DXShared.h applied to a by-value handle field:
`Release` is called when the pointer is not null. -/
def dxRelease (p : Ptr) (s : State) : State :=
  if p != 0 then s.log (.Release p) else s

/-- The function `Renderer::destroyFrameBuffer`. -/
def destroyFrameBuffer (handle : FrameBufferHandle) (s : State) : Outcome :=
  if handle.operatorNot then .ok s
  else
    let s := if handle.hasDepth then
        dxRelease handle.depthStencilBuffer (dxRelease handle.depthStencilView s)
      else s
    .ok (dxRelease handle.renderTargetBuffer (dxRelease handle.renderTargetView s))

/-- Whether a trace entry is one of the calls by which the framebuffer stack
rebinds: the viewport call, the render-target binding, or the entry into
`pushState` or `popState` for `DEPTH_TEST`. -/
def Call.isRebind : Call → Bool
  | .RSSetViewports _ _ _ => true
  | .OMSetRenderTargets _ _ => true
  | .pushState mode _ => decide (mode = .DEPTH_TEST)
  | .popState mode => decide (mode = .DEPTH_TEST)
  | _ => false

/-! ## Meshes (BackendDX11.cpp, lines 296-372) -/

/-- Size of a pointer, which is what `sizeof(dxVertices.data())` and
`sizeof(indices.data())` evaluate to. -/
def sizeofPointer : Nat := 8

/-- The function `Renderer::createMesh`.  The arguments `vb` and `ib` are the
buffers the device hands back from the two `CreateBuffer` calls (`nullptr`
when a creation fails). -/
def createMesh {V I : Type} (_vertices : List V) (indices : List I) (_drawMode : Nat)
    (vb ib : Ptr) (s : State) : MeshHandle × State :=
  let handle : MeshHandle := { numIndices := (indices.length : Int) }
  let s := s.log (.CreateBuffer sizeofPointer vb)
  let handle := { handle with vertexBuffer := vb }
  let s := s.log (.CreateBuffer sizeofPointer ib)
  let handle := { handle with indexBuffer := ib }
  (handle, s)

/-- The function `Renderer::drawMesh`; the two enumerations are passed as their
numeric values. -/
def drawMesh (handle : MeshHandle) (depthFunction cullType : Nat) (s : State) : Outcome :=
  runtime_assert handle.operatorBool .invalidMeshHandle s fun s =>
    (pushState .CULL_FACE true s).andThen fun s =>
      let s := s.log (.glDepthFunc depthFunction)
      let s := s.log (.glCullFace cullType)
      let s := s.log .glBindVertexArray
      let s := s.log (.glDrawElements handle.numIndices)
      popState .CULL_FACE s

/-- The function `Renderer::destroyMesh`. -/
def destroyMesh (handle : MeshHandle) (s : State) : Outcome :=
  runtime_assert handle.operatorBool .invalidMeshHandle s fun s =>
    let s := s.log .glDeleteVertexArrays
    let s := s.log .glDeleteBuffers
    .ok (s.log .glDeleteBuffers)

/-- The backend right after process start: nothing pushed, the state
controller not initialised, the zero-initialised global `rasterizerDesc`,
the default render target bound and an empty trace.  The rasterizer state
of the device is a parameter. -/
def State.fresh (deviceRasterizer : RasterizerDesc) : State :=
  { rasterizerDesc := { CullMode := 0, DepthClipEnable := false }
    cullFace := []
    depthTest := []
    seamless := []
    initedStates := false
    framebuffers := []
    deviceRasterizer := deviceRasterizer
    boundRTV := 0
    boundDSV := 0
    trace := [] }

/-! ## Input dispatch -/

/-- Value of `GLFW_RELEASE` in glfw3.h. -/
def GLFW_RELEASE : Int := 0

/-- Value of `GLFW_PRESS` in glfw3.h. -/
def GLFW_PRESS : Int := 1

/-- Value of `GLFW_REPEAT` in glfw3.h. -/
def GLFW_REPEAT : Int := 2

/-- A registered key binding of `Engine::keybinds`: what `getButton`,
`getAction` and `isMouse` return, and the identity of the callback that `run`
invokes. -/
structure Keybind where
  button : Int
  action : Int
  mouse : Bool
  callback : Nat
  deriving DecidableEq, Repr

/-- The loop `for (Keybind& k : *Engine::getKeybinds())` of
`Engine::keyboardCallback`: bindings are visited front to back and `k.run()`
is recorded by appending `k` to the list of bindings run so far. -/
def keyboardCallbackLoop (key action : Int) : List Keybind → List Keybind → List Keybind
  | [], ran => ran
  | k :: ks, ran =>
    if k.button == key && k.action == action then
      keyboardCallbackLoop key action ks (ran ++ [k])
    else
      keyboardCallbackLoop key action ks ran

/-- The function `Engine::keyboardCallback`, returning the bindings it ran in
the order it ran them. -/
def keyboardCallback (keybinds : List Keybind) (key _scancode action _mods : Int) :
    List Keybind :=
  if action == GLFW_REPEAT then []
  else keyboardCallbackLoop key action keybinds []

/-- The `enum class Input::KeyEventType` as used by DeviceDX11.cpp. -/
inductive KeyEventType where
  | PRESSED
  | RELEASED
  | REPEATED
  deriving DecidableEq, Repr

/-- A registered `Input::KeyEvent`: what `getEvent` and `getEventType` return,
and the identity of the callback its call operator invokes. -/
structure KeyEvent where
  event : Int
  eventType : KeyEventType
  callback : Nat
  deriving DecidableEq, Repr

/-- The keyboard events SDL delivers: `SDL_KEYDOWN` and `SDL_KEYUP` carry
`key.keysym.sym` and `key.repeat`, which SDL sets to non-zero on a key-down
generated by auto-repeat. -/
inductive SDLKeyboardEvent where
  | SDL_KEYDOWN (sym : Int) (keyRepeat : Nat)
  | SDL_KEYUP (sym : Int) (keyRepeat : Nat)
  deriving DecidableEq, Repr

/-- The loops of the `SDL_KEYDOWN` and `SDL_KEYUP` cases of
`Device::refreshWindows`: events are visited front to back and those with the
given key and type are invoked (appended to the list of events run). -/
def keyEventLoop (sym : Int) (type : KeyEventType) : List KeyEvent → List KeyEvent → List KeyEvent
  | [], ran => ran
  | e :: es, ran =>
    if e.event == sym && e.eventType == type then
      keyEventLoop sym type es (ran ++ [e])
    else
      keyEventLoop sym type es ran

/-- The cases `SDL_KEYDOWN` and `SDL_KEYUP` of the event switch of
`Device::refreshWindows`, returning the key events invoked in order. -/
def refreshWindowsKey (events : List KeyEvent) : SDLKeyboardEvent → List KeyEvent
  | .SDL_KEYDOWN sym _ => keyEventLoop sym .PRESSED events []
  | .SDL_KEYUP sym _ => keyEventLoop sym .RELEASED events []


/-- The invariant of an initialised state controller: `initStates` has run
and every stack holds at least one entry. -/
def State.Initialised (s : State) : Prop :=
  s.initedStates = true ∧ ∀ m, s.stack m ≠ []

/-- The state the first `pushState` call works on once it has run
`initStates`, for a backend started on the given device rasterizer state. -/
def State.initialised (deviceRasterizer : RasterizerDesc) : State :=
  { initStates (State.fresh deviceRasterizer) with initedStates := true }


/-- The `enum class MouseActions` values used by the mouse callbacks. -/
inductive MouseActions where
  | MOVE
  | SCROLL
  deriving DecidableEq, Repr

/-- A registered mouse binding of `Engine::mousebinds`: what `getType` returns
and the identity of the callback that `run` invokes. -/
structure Mousebind where
  type : MouseActions
  callback : Nat
  deriving DecidableEq, Repr

/-- The `LogType` levels the engine logs with. -/
inductive LogType where
  | INFO
  | INFO_IMPORTANT
  | WARNING
  | ERROR
  deriving DecidableEq, Repr

/-- The source strings of the logged messages. -/
inductive LogSource where
  | Engine
  | getAngelscriptProvider
  | getSoundManager
  | getSettingsLoader
  | getPhysicsProvider
  | ResourceManager
  | splitResourceIdentifier
  | GLFW
  | OpenGL
  | ImGui
  deriving DecidableEq, Repr

/-- One call of `Logger::log`. -/
structure LogEntry where
  type : LogType
  source : LogSource
  deriving DecidableEq, Repr

/-- The calls `Engine::init` makes that no other modelled function makes. -/
inductive InitCall where
  | newConsole
  | glfwInit
  | glfwSetErrorCallback
  | glfwWindowHint
  | glfwCreateWindow (width height : Int)
  | glfwSetWindowMonitor
  | glfwMakeContextCurrent
  | glfwMaximizeWindow
  | setIcon (path : String)
  | glfwGetVersion
  | gladLoadGL
  | glfwGetFramebufferSize
  | glViewport
  | glfwSetFramebufferSizeCallback
  | setBackgroundColor
  | addMeshLoader (name : String)
  | displaySplashScreen
  | glfwSwapInterval (interval : Int)
  | glEnable_DEPTH_TEST
  | glEnable_TEXTURE_CUBE_MAP_SEAMLESS
  | glfwSetInputMode_STICKY_KEYS
  | glfwSetInputMode_STICKY_MOUSE_BUTTONS
  | glfwSetInputMode_RAW_MOUSE_MOTION
  | glfwSetKeyCallback
  | glfwSetMouseButtonCallback
  | glfwSetCursorPosCallback
  | glfwSetScrollCallback
  | glfwSetWindowIconifyCallback
  | ImGui_CreateContext
  | ImGui_StyleColorsDark
  | ImGui_ImplGlfw_InitForOpenGL
  | fontsClear
  | ImGui_ImplOpenGL3_Init
  | newALSoundManager
  | soundManagerInit
  | addPreprocessorSymbol (name : String) (value : Int)
  | newBulletPhysicsProvider
  | newAngelscriptProvider
  | angelscriptInitProvider
  | fontsAddFontDefault
  | consolePrecacheResource
  | getDefaultFont
  | newRoot
  | rootAddChildConsole
  | angelscriptInitScripts
  | fontsBuild
  deriving DecidableEq, Repr

/-- The calls the engine core makes, and the entries into its input callbacks. -/
inductive Action where
  | updatePhysics (delta : ℚ)
  | glClear
  | glfwGetTime (sample : ℚ)
  | uboUpdate
  | ImGui_ImplOpenGL3_NewFrame
  | ImGui_ImplGlfw_NewFrame
  | ImGui_NewFrame
  | call (func : Nat)
  | angelscriptRender (delta : ℚ)
  | rootRender
  | ImGui_Render
  | ImGui_ImplOpenGL3_RenderDrawData
  | setListenerPosition
  | setListenerRotation
  | soundManagerUpdate
  | glfwSwapBuffers
  | glfwPollEvents
  | keyboardCallback (key action : Int)
  | mouseButtonCallback (button action : Int)
  | mouseMovementCallback (xPos yPos : ℚ)
  | mouseScrollCallback (xPos yPos : ℚ)
  | keyboardRepeatingCallback
  | mouseButtonRepeatingCallback
  | runKeybind (k : Keybind)
  | runMousebind (b : Mousebind) (x y : ℚ)
  | discordUpdatePresence
  | eventsUpdate
  | resourceCleanup
  | angelscriptStop
  | discordShutdown
  | soundManagerStop
  | deleteRoot
  | physicsProviderStop
  | resourceDiscardAll
  | ImGui_ImplOpenGL3_Shutdown
  | ImGui_ImplGlfw_Shutdown
  | ImGui_DestroyContext
  | glfwDestroyWindow
  | glfwTerminate
  | exit (status : Int)
  | init (c : InitCall)
  deriving DecidableEq, Repr

/-- The static members of `Engine` the modelled functions use.  The members
held in a `std::unique_ptr` are the pointer `get()` returns, `0` when empty. -/
structure Engine where
  window : Ptr
  root : Ptr
  angelscript : Ptr
  soundManager : Ptr
  settingsLoader : Ptr
  physicsProvider : Ptr
  keybinds : List Keybind
  mousebinds : List Mousebind
  initFunctions : List Nat
  renderFunctions : List Nat
  stopFunctions : List Nat
  lastTime : ℚ
  currentTime : ℚ
  lastMouseX : ℚ
  lastMouseY : ℚ
  /-- Number of `glfwGetTime` calls made so far. -/
  samples : Nat
  /-- Messages logged so far, oldest first. -/
  log : List LogEntry
  /-- Calls made so far, oldest first. -/
  actions : List Action
  deriving DecidableEq, Repr

/-- An event the platform delivers to the callbacks installed by `init`. -/
inductive PlatformEvent where
  | key (key scancode action mods : Int)
  | mouseButton (button action mods : Int)
  | cursorPos (xPos yPos : ℚ)
  | scroll (xPos yPos : ℚ)
  deriving DecidableEq, Repr

/-- What the frame loop reads from outside the engine. -/
structure Env where
  /-- Result of the `k`-th call of `glfwGetTime`. -/
  glfwGetTime : Nat → ℚ
  /-- Result of `glfwWindowShouldClose` at the `i`-th test of the loop. -/
  glfwWindowShouldClose : Nat → Bool
  /-- Events delivered by `glfwPollEvents` in iteration `i`. -/
  events : Nat → List PlatformEvent
  /-- Whether `glfwGetKey` reports the key as held in iteration `i`. -/
  glfwGetKey : Nat → Int → Bool
  /-- Whether `glfwGetMouseButton` reports the button as held in iteration `i`. -/
  glfwGetMouseButton : Nat → Int → Bool
  /-- Result of `DiscordRPC::initialized` in iteration `i`. -/
  discordInitialized : Nat → Bool

/-- Value of `EXIT_SUCCESS`. -/
def EXIT_SUCCESS : Int := 0

/-- Append a call to the actions. -/
def Engine.act (e : Engine) (a : Action) : Engine :=
  { e with actions := e.actions ++ [a] }

/-- Append several calls to the actions. -/
def Engine.acts (e : Engine) (l : List Action) : Engine :=
  { e with actions := e.actions ++ l }

/-- A call of `Logger::log`. -/
def Engine.logMessage (e : Engine) (type : LogType) (source : LogSource) : Engine :=
  { e with log := e.log ++ [⟨type, source⟩] }

/-! ### Input callbacks (engine.cpp, lines 58-118) -/

/-- The callback `Engine::mouseButtonCallback`, returning the bindings it ran:
its loop is the loop of `keyboardCallback`, without the test for
`GLFW_REPEAT` in front. -/
def mouseButtonCallback (keybinds : List Keybind) (button action _mods : Int) :
    List Keybind :=
  keyboardCallbackLoop button action keybinds []

/-- The loop of `Engine::keyboardRepeatingCallback`; `held` is what
`glfwGetKey` reports. -/
def keyboardRepeatingCallbackLoop (held : Int → Bool) :
    List Keybind → List Keybind → List Keybind
  | [], ran => ran
  | k :: ks, ran =>
    if held k.button && k.action == GLFW_REPEAT then
      keyboardRepeatingCallbackLoop held ks (ran ++ [k])
    else
      keyboardRepeatingCallbackLoop held ks ran

/-- The function `Engine::keyboardRepeatingCallback`, returning the bindings it
ran in the order it ran them. -/
def keyboardRepeatingCallback (keybinds : List Keybind) (held : Int → Bool) : List Keybind :=
  keyboardRepeatingCallbackLoop held keybinds []

/-- The loop of `Engine::mouseButtonRepeatingCallback`; `held` is what
`glfwGetMouseButton` reports. -/
def mouseButtonRepeatingCallbackLoop (held : Int → Bool) :
    List Keybind → List Keybind → List Keybind
  | [], ran => ran
  | k :: ks, ran =>
    if k.mouse && (held k.button && k.action == GLFW_REPEAT) then
      mouseButtonRepeatingCallbackLoop held ks (ran ++ [k])
    else
      mouseButtonRepeatingCallbackLoop held ks ran

/-- The function `Engine::mouseButtonRepeatingCallback`, returning the bindings
it ran in the order it ran them. -/
def mouseButtonRepeatingCallback (keybinds : List Keybind) (held : Int → Bool) :
    List Keybind :=
  mouseButtonRepeatingCallbackLoop held keybinds []

/-- The loops of `mouseMovementCallback` and `mouseScrollCallback`: every
binding of the given type is run with the two arguments. -/
def mousebindLoop (type : MouseActions) (x y : ℚ) : List Mousebind → List Action → List Action
  | [], ran => ran
  | b :: bs, ran =>
    if b.type == type then
      mousebindLoop type x y bs (ran ++ [.runMousebind b x y])
    else
      mousebindLoop type x y bs ran

/-- The callback `Engine::keyboardCallback` on the engine state. -/
def Engine.keyboardCallback (key scancode action mods : Int) (e : Engine) : Engine :=
  (e.act (.keyboardCallback key action)).acts
    ((chira.keyboardCallback e.keybinds key scancode action mods).map .runKeybind)

/-- The callback `Engine::mouseButtonCallback` on the engine state. -/
def Engine.mouseButtonCallback (button action mods : Int) (e : Engine) : Engine :=
  (e.act (.mouseButtonCallback button action)).acts
    ((chira.mouseButtonCallback e.keybinds button action mods).map .runKeybind)

/-- The callback `Engine::mouseMovementCallback`. -/
def Engine.mouseMovementCallback (xPos yPos : ℚ) (e : Engine) : Engine :=
  let e := e.act (.mouseMovementCallback xPos yPos)
  let e := if e.lastMouseX == -1 then { e with lastMouseX := xPos } else e
  let e := if e.lastMouseY == -1 then { e with lastMouseY := yPos } else e
  let xOffset := xPos - e.lastMouseX
  let yOffset := yPos - e.lastMouseY
  let e := e.acts (mousebindLoop .MOVE xOffset yOffset e.mousebinds [])
  { e with lastMouseX := xPos, lastMouseY := yPos }

/-- The callback `Engine::mouseScrollCallback`. -/
def Engine.mouseScrollCallback (xPos yPos : ℚ) (e : Engine) : Engine :=
  let e := e.act (.mouseScrollCallback xPos yPos)
  e.acts (mousebindLoop .SCROLL xPos yPos e.mousebinds [])

/-- The function `Engine::keyboardRepeatingCallback` on the engine state. -/
def Engine.keyboardRepeatingCallback (held : Int → Bool) (e : Engine) : Engine :=
  (e.act .keyboardRepeatingCallback).acts
    ((chira.keyboardRepeatingCallback e.keybinds held).map .runKeybind)

/-- The function `Engine::mouseButtonRepeatingCallback` on the engine state. -/
def Engine.mouseButtonRepeatingCallback (held : Int → Bool) (e : Engine) : Engine :=
  (e.act .mouseButtonRepeatingCallback).acts
    ((chira.mouseButtonRepeatingCallback e.keybinds held).map .runKeybind)

/-- Delivery of one platform event to the callback installed for it. -/
def PlatformEvent.deliver : PlatformEvent → Engine → Engine
  | .key k scancode action mods, e => Engine.keyboardCallback k scancode action mods e
  | .mouseButton button action mods, e => Engine.mouseButtonCallback button action mods e
  | .cursorPos xPos yPos, e => Engine.mouseMovementCallback xPos yPos e
  | .scroll xPos yPos, e => Engine.mouseScrollCallback xPos yPos e

/-- The call `glfwPollEvents()`: the queued events are delivered in order. -/
def glfwPollEvents : List PlatformEvent → Engine → Engine
  | [], e => e
  | ev :: evs, e => glfwPollEvents evs (ev.deliver e)

/-- The end of `Engine::preInit` (lines 133-141): the settings loader is
installed (`loader` is the new `JSONSettingsLoader`) and the timing state and
the previous cursor position get their start values. -/
def Engine.preInit (loader : Ptr) (e : Engine) : Engine :=
  { e with
    settingsLoader := loader,
    lastTime := 0,
    currentTime := 0,
    lastMouseX := -1,
    lastMouseY := -1 }

/-! ### The frame loop (engine.cpp, lines 381-445) -/

/-- How a run of the engine stands: the function returned, an absent (null)
subsystem was dereferenced, the process exited, or the loop was still running
when the iteration budget was used up. -/
inductive Run where
  | ok (e : Engine)
  | nullDereference (e : Engine)
  | exited (status : Int) (e : Engine)
  | unfinished (e : Engine)
  deriving DecidableEq, Repr

/-- The engine state a run stands in. -/
def Run.engine : Run → Engine
  | .ok e => e
  | .nullDereference e => e
  | .exited _ e => e
  | .unfinished e => e

/-- Sequencing: continue with `k` when the function returned. -/
def Run.andThen (r : Run) (k : Engine → Run) : Run :=
  match r with
  | .ok e => k e
  | .nullDereference e => .nullDereference e
  | .exited status e => .exited status e
  | .unfinished e => .unfinished e

/-- A member call through a pointer: the run stops when the pointer is null. -/
def deref (p : Ptr) (e : Engine) (k : Engine → Run) : Run :=
  if p != 0 then k e else .nullDereference e

/-- The function `Engine::getDeltaTime`. -/
def Engine.getDeltaTime (e : Engine) : ℚ :=
  e.currentTime - e.lastTime

/-- The function `Engine::callRegisteredFunctions`: the functions of the list
are called front to back. -/
def callRegisteredFunctions : List Nat → Engine → Engine
  | [], e => e
  | func :: funcs, e => callRegisteredFunctions funcs (e.act (.call func))

/-- The two assignments `lastTime = currentTime; currentTime = glfwGetTime();`
that `run` and `render` both make. -/
def Engine.sampleTime (env : Env) (e : Engine) : Engine :=
  let e := { e with lastTime := e.currentTime }
  { e.act (.glfwGetTime (env.glfwGetTime e.samples)) with
    currentTime := env.glfwGetTime e.samples,
    samples := e.samples + 1 }

/-- The function `Engine::render`. -/
def Engine.render (env : Env) (e : Engine) : Run :=
  let e := e.act .glClear
  let e := e.sampleTime env
  deref e.root e fun e =>
    let e := e.act .uboUpdate
    let e := e.act .ImGui_ImplOpenGL3_NewFrame
    let e := e.act .ImGui_ImplGlfw_NewFrame
    let e := e.act .ImGui_NewFrame
    let e := callRegisteredFunctions e.renderFunctions e
    deref e.angelscript e fun e =>
      let e := e.act (.angelscriptRender e.getDeltaTime)
      deref e.root e fun e =>
        let e := e.act .rootRender
        let e := e.act .ImGui_Render
        .ok (e.act .ImGui_ImplOpenGL3_RenderDrawData)

/-- The body of the `while` loop of `Engine::run`, in iteration `i`. -/
def Engine.iteration (env : Env) (i : Nat) (e : Engine) : Run :=
  deref e.physicsProvider e fun e =>
    let e := e.act (.updatePhysics e.getDeltaTime)
    (e.render env).andThen fun e =>
      deref e.soundManager e fun e =>
        deref e.root e fun e =>
          let e := e.act .setListenerPosition
          let e := e.act .setListenerRotation
          let e := e.act .soundManagerUpdate
          let e := e.act .glfwSwapBuffers
          let e := e.act .glfwPollEvents
          let e := glfwPollEvents (env.events i) e
          let e := e.keyboardRepeatingCallback (env.glfwGetKey i)
          let e := e.mouseButtonRepeatingCallback (env.glfwGetMouseButton i)
          let e := if env.discordInitialized i then e.act .discordUpdatePresence else e
          let e := e.act .eventsUpdate
          .ok (e.act .resourceCleanup)

/-- The function `Engine::stop`, called when the loop test of iteration `i`
found the close flag set. -/
def Engine.stop (env : Env) (i : Nat) (e : Engine) : Run :=
  let e := e.logMessage .INFO_IMPORTANT .Engine
  let e := callRegisteredFunctions e.stopFunctions e
  deref e.angelscript e fun e =>
    let e := e.act .angelscriptStop
    let e := if env.discordInitialized i then e.act .discordShutdown else e
    deref e.soundManager e fun e =>
      let e := e.act .soundManagerStop
      let e := e.act .deleteRoot
      deref e.physicsProvider e fun e =>
        let e := e.act .physicsProviderStop
        let e := e.act .resourceDiscardAll
        let e := e.act .ImGui_ImplOpenGL3_Shutdown
        let e := e.act .ImGui_ImplGlfw_Shutdown
        let e := e.act .ImGui_DestroyContext
        let e := e.act .glfwDestroyWindow
        let e := e.act .glfwTerminate
        .exited EXIT_SUCCESS (e.act (.exit EXIT_SUCCESS))

/-- The `while` loop of `Engine::run` followed by the call of `stop`, from
the loop test of iteration `i`, for at most `fuel` iterations. -/
def Engine.runLoop (env : Env) : Nat → Nat → Engine → Run
  | 0, _, e => .unfinished e
  | fuel + 1, i, e =>
    if env.glfwWindowShouldClose i then e.stop env i
    else (e.iteration env i).andThen (Engine.runLoop env fuel (i + 1))

/-- The function `Engine::run`, for at most `fuel` iterations of its loop. -/
def Engine.run (env : Env) (fuel : Nat) (e : Engine) : Run :=
  Engine.runLoop env fuel 0 (e.sampleTime env)

/-! ### Singleton accessors (engine.cpp, lines 501-584) -/

/-- The function `Engine::getWindow`. -/
def Engine.getWindow (e : Engine) : Ptr × Engine :=
  (e.window, e)

/-- The function `Engine::getRoot`. -/
def Engine.getRoot (e : Engine) : Ptr × Engine :=
  (e.root, e)

/-- The function `Engine::getAngelscriptProvider`. -/
def Engine.getAngelscriptProvider (e : Engine) : Ptr × Engine :=
  let e := if e.angelscript == 0 then e.logMessage .ERROR .getAngelscriptProvider else e
  (e.angelscript, e)

/-- The function `Engine::getSoundManager`. -/
def Engine.getSoundManager (e : Engine) : Ptr × Engine :=
  if e.soundManager == 0 then (0, e.logMessage .WARNING .getSoundManager)
  else (e.soundManager, e)

/-- The function `Engine::getSettingsLoader`. -/
def Engine.getSettingsLoader (e : Engine) : Ptr × Engine :=
  if e.settingsLoader == 0 then (0, e.logMessage .WARNING .getSettingsLoader)
  else (e.settingsLoader, e)

/-- The function `Engine::getPhysicsProvider`. -/
def Engine.getPhysicsProvider (e : Engine) : Ptr × Engine :=
  if e.physicsProvider == 0 then (0, e.logMessage .WARNING .getPhysicsProvider)
  else (e.physicsProvider, e)

/-- The function `Engine::setSoundManager`. -/
def Engine.setSoundManager (newSoundManager : Ptr) (e : Engine) : Engine :=
  { e with soundManager := newSoundManager }

/-- The function `Engine::setPhysicsProvider`. -/
def Engine.setPhysicsProvider (newPhysicsProvider : Ptr) (e : Engine) : Engine :=
  { e with physicsProvider := newPhysicsProvider }

/-- The engine before `preInit`: every static member zero-initialised,
nothing registered, nothing logged or called. -/
def Engine.start : Engine :=
  { window := 0, root := 0, angelscript := 0, soundManager := 0, settingsLoader := 0,
    physicsProvider := 0, keybinds := [], mousebinds := [], initFunctions := [],
    renderFunctions := [], stopFunctions := [], lastTime := 0, currentTime := 0,
    lastMouseX := 0, lastMouseY := 0, samples := 0, log := [], actions := [] }

/-! ## Resource manager (src/resource/resourceManager.cpp)

Strings are lists of characters.  The constant `RESOURCE_ID_SEPARATOR` is
declared in resourceManager.h; the functions that use it take it as their
first argument `sep`. -/

/-- The call `haystack.find(sep)` of `std::string`: the position of the first
occurrence of `sep`, or nothing for `npos`. -/
def stringFind (sep : List Char) : List Char → Option Nat
  | [] => if sep.isPrefixOf [] then some 0 else none
  | c :: cs =>
    if sep.isPrefixOf (c :: cs) then some 0
    else (stringFind sep cs).map (· + 1)

/-- The function `resourceManager::splitResourceIdentifier`, with the log it
appends to. -/
def splitResourceIdentifier (sep identifier : List Char) (log : List LogEntry) :
    (List Char × List Char) × List LogEntry :=
  match stringFind sep identifier with
  | some pos => ((identifier.take pos, identifier.drop (pos + sep.length)), log)
  | none => (([], []), log ++ [⟨.ERROR, .splitResourceIdentifier⟩])

/-- A `std::map` with string keys: an association list with distinct keys. -/
abbrev StdMap (V : Type) := List (List Char × V)

/-- The lookup `m.find(k)`. -/
def StdMap.find? {V : Type} (m : StdMap V) (k : List Char) : Option V :=
  List.lookup k m

/-- The insertion that `m[k]` performs: a value-initialised entry is added when
the key is absent. -/
def StdMap.index {V : Type} (m : StdMap V) (k : List Char) (dflt : V) : StdMap V :=
  if (m.find? k).isSome then m else m ++ [(k, dflt)]

/-- Assignment through the reference `m[k]` of a present key. -/
def StdMap.set {V : Type} (m : StdMap V) (k : List Char) (v : V) : StdMap V :=
  m.map fun kv => if kv.1 == k then (k, v) else kv

/-- The call `m.erase(k)`. -/
def StdMap.erase {V : Type} (m : StdMap V) (k : List Char) : StdMap V :=
  m.filter fun kv => kv.1 != k

/-- An `abstractResourceProvider`: its identity and what its virtual
`hasResource` answers. -/
structure ResourceProvider where
  id : Nat
  hasResource : List Char → Bool

/-- A `std::shared_ptr` to a resource: the pointer and what `use_count()`
returns.  The value-initialised pointer is null with use count zero. -/
structure SharedPtr where
  ptr : Ptr := 0
  useCount : Nat := 0
  deriving DecidableEq, Repr

/-- The static members of `resourceManager`, and the log. -/
structure ResourceManager where
  providers : StdMap (List ResourceProvider)
  resources : StdMap (StdMap SharedPtr)
  log : List LogEntry

/-- The cache entry stored under a provider name and a resource name. -/
def ResourceManager.entry (rm : ResourceManager) (provider name : List Char) :
    Option SharedPtr :=
  (rm.resources.find? provider).bind fun inner => inner.find? name

/-- The providers registered under a name, oldest first. -/
def ResourceManager.providersOf (rm : ResourceManager) (name : List Char) :
    List ResourceProvider :=
  (rm.providers.find? name).getD []

/-- The function `resourceManager::addResourceProvider`. -/
def addResourceProvider (name : List Char) (provider : ResourceProvider)
    (rm : ResourceManager) : ResourceManager :=
  let providers :=
    if (rm.providers.find? name).isNone then rm.providers ++ [(name, [])] else rm.providers
  let providers := providers.index name []
  { rm with providers := providers.set name (((providers.find? name).getD []) ++ [provider]) }

/-- The loop of `getResourceProviderWithResource` over the reversed vector. -/
def providerLoop (name : List Char) : List ResourceProvider → Option ResourceProvider
  | [] => none
  | p :: ps => if p.hasResource name then some p else providerLoop name ps

/-- The function `resourceManager::getResourceProviderWithResource`; nothing
stands for `nullptr`. -/
def getResourceProviderWithResource (sep identifier : List Char) (rm : ResourceManager) :
    Option ResourceProvider × ResourceManager :=
  let id := splitResourceIdentifier sep identifier rm.log
  let rm := { rm with log := id.2 }
  let provider := id.1.1
  let name := id.1.2
  let rm := { rm with providers := rm.providers.index provider [] }
  match providerLoop name ((rm.providers.find? provider).getD []).reverse with
  | some p => (some p, rm)
  | none => (none, { rm with log := rm.log ++ [⟨.ERROR, .ResourceManager⟩] })

/-- The function `resourceManager::removeResource`. -/
def removeResource (sep identifier : List Char) (rm : ResourceManager) : ResourceManager :=
  let id := splitResourceIdentifier sep identifier rm.log
  let rm := { rm with log := id.2 }
  let provider := id.1.1
  let name := id.1.2
  let resources := rm.resources.index provider []
  let inner := ((resources.find? provider).getD []).index name {}
  let resources := resources.set provider inner
  if ((inner.find? name).getD {}).useCount ≤ 2 then
    { rm with resources := resources.set provider (inner.erase name) }
  else
    { rm with resources := resources }

/-- Modelled from the spec: the constant `RESOURCE_ID_SEPARATOR` of
resourceManager.h, identifiers being written `<scheme>://<path>`. -/
def RESOURCE_ID_SEPARATOR : List Char := [':', '/', '/']

/-- Whether an action is the entry into one of the two repeat passes. -/
def Action.isRepeatPass : Action → Bool
  | .keyboardRepeatingCallback => true
  | .mouseButtonRepeatingCallback => true
  | _ => false

/-- Whether an action belongs to the delivery of a platform event: the entry
into one of the four input callbacks or a binding they run. -/
def Action.isEventDelivery : Action → Bool
  | .keyboardCallback _ _ => true
  | .mouseButtonCallback _ _ => true
  | .mouseMovementCallback _ _ => true
  | .mouseScrollCallback _ _ => true
  | .runKeybind _ => true
  | .runMousebind _ _ _ => true
  | _ => false

/-- Whether an action reads the clock or is handed a frame delta. -/
def Action.isTiming : Action → Bool
  | .updatePhysics _ => true
  | .glfwGetTime _ => true
  | .angelscriptRender _ => true
  | _ => false

/-- Whether an action is a call of `glfwGetTime`. -/
def Action.isSample : Action → Bool
  | .glfwGetTime _ => true
  | _ => false

/-- The frame delta an action is handed, if it is handed one. -/
def Action.delta? : Action → Option ℚ
  | .updatePhysics d => some d
  | .angelscriptRender d => some d
  | _ => none

/-- The first `n` iterations of the loop of `Engine::run`, from iteration `i`,
without the loop test. -/
def Engine.iterations (env : Env) : Nat → Nat → Engine → Run
  | 0, _, e => .ok e
  | n + 1, i, e => (e.iteration env i).andThen (Engine.iterations env n (i + 1))

/-- The order of one frame as the specification lists it: physics step with the
elapsed delta, the frame rendering (clear, clock sample, camera upload, new UI
frame, render hooks, scripted render, scene traversal, UI submission), audio
listener position and rotation, audio update, buffer swap, event poll with the
deliveries `delivered` it makes, keyboard then mouse-button repeat dispatch,
rich-presence update when initialised, pending-event queue update, resource
cleanup. -/
def frameOrder (env : Env) (i : Nat) (e : Engine) (delivered : List Action) : List Action :=
  [Action.updatePhysics (e.currentTime - e.lastTime),
    .glClear, .glfwGetTime (env.glfwGetTime e.samples), .uboUpdate,
    .ImGui_ImplOpenGL3_NewFrame, .ImGui_ImplGlfw_NewFrame, .ImGui_NewFrame] ++
  e.renderFunctions.map Action.call ++
  [Action.angelscriptRender (env.glfwGetTime e.samples - e.currentTime),
    .rootRender, .ImGui_Render, .ImGui_ImplOpenGL3_RenderDrawData,
    .setListenerPosition, .setListenerRotation, .soundManagerUpdate,
    .glfwSwapBuffers, .glfwPollEvents] ++
  delivered ++
  Action.keyboardRepeatingCallback ::
    (keyboardRepeatingCallback e.keybinds (env.glfwGetKey i)).map Action.runKeybind ++
  Action.mouseButtonRepeatingCallback ::
    (mouseButtonRepeatingCallback e.keybinds (env.glfwGetMouseButton i)).map Action.runKeybind ++
  (if env.discordInitialized i then [Action.discordUpdatePresence] else []) ++
  [Action.eventsUpdate, .resourceCleanup]

/-- The timing invariant of the frame loop: the last sample is not after the
current one, the current one is not after the next reading of the clock, and
no action so far was handed a negative delta. -/
def Engine.TimingOk (env : Env) (e : Engine) : Prop :=
  e.lastTime ≤ e.currentTime ∧ e.currentTime ≤ env.glfwGetTime e.samples ∧
    ∀ a ∈ e.actions, ∀ d, a.delta? = some d → 0 ≤ d

/-- The timing state `(lastTime, currentTime)`. -/
def Engine.timing (e : Engine) : ℚ × ℚ :=
  (e.lastTime, e.currentTime)

/-- An environment for examples: the clock reads 0, 1, 2, ..., the close flag is
set from the third loop test on, every poll delivers a key press and a cursor
move, key 65 is held, the rich-presence hook is not initialised. -/
def Env.demo : Env :=
  { glfwGetTime := fun k => (k : ℚ)
    glfwWindowShouldClose := fun i => decide (2 ≤ i)
    events := fun _ => [.key 65 0 1 0, .cursorPos 3 4]
    glfwGetKey := fun _ key => key == 65
    glfwGetMouseButton := fun _ _ => false
    discordInitialized := fun _ => false }

/-- An engine for examples: all subsystems constructed, two key bindings, one
mouse binding, one render function and two stop functions registered. -/
def Engine.demo : Engine :=
  { Engine.start with
    window := 5, root := 3, angelscript := 4, soundManager := 2, settingsLoader := 6,
    physicsProvider := 1,
    keybinds := [⟨65, 2, false, 0⟩, ⟨65, 1, false, 1⟩],
    mousebinds := [⟨.MOVE, 2⟩],
    renderFunctions := [10],
    stopFunctions := [20, 21] }

/-- A resource manager for examples: three providers registered under `file`
(the first has `a`, the second `a` and `b`, the third `b`), and the cache
entries `a` with use count 2 and `b` with use count 3 under `file`. -/
def ResourceManager.demo : ResourceManager :=
  { providers := [(['f', 'i', 'l', 'e'],
      [⟨0, fun n => n == ['a']⟩, ⟨1, fun n => n == ['a'] || n == ['b']⟩,
        ⟨2, fun n => n == ['b']⟩])]
    resources := [(['f', 'i', 'l', 'e'], [(['a'], ⟨1, 2⟩), (['b'], ⟨2, 3⟩)])]
    log := [] }

/-! ## The remaining handle types (BackendDX11.h) -/

/-- The `struct TextureHandle`, with its default member initialisers; `type`
is the `TextureType` enumerator, `TWO_DIMENSIONAL` being `0`. -/
structure TextureHandle where
  texture : Ptr := 0
  type : Nat := 0
  deriving DecidableEq, Repr

/-- The `explicit operator bool` of `TextureHandle`: `texture`. -/
def TextureHandle.operatorBool (h : TextureHandle) : Bool :=
  h.texture != 0

/-- The `operator!` of `TextureHandle`: `!texture`. -/
def TextureHandle.operatorNot (h : TextureHandle) : Bool :=
  h.texture == 0

/-- The `struct ShaderModuleHandle`. -/
structure ShaderModuleHandle where
  handle : Int := 0
  deriving DecidableEq, Repr

/-- The `explicit operator bool` of `ShaderModuleHandle`: `handle`. -/
def ShaderModuleHandle.operatorBool (h : ShaderModuleHandle) : Bool :=
  h.handle != 0

/-- The `operator!` of `ShaderModuleHandle`: `!handle`. -/
def ShaderModuleHandle.operatorNot (h : ShaderModuleHandle) : Bool :=
  h.handle == 0

/-- The `struct ShaderHandle`. -/
structure ShaderHandle where
  handle : Int := 0
  vertex : ShaderModuleHandle := {}
  fragment : ShaderModuleHandle := {}
  deriving DecidableEq, Repr

/-- The `explicit operator bool` of `ShaderHandle`:
`handle && vertex && fragment`. -/
def ShaderHandle.operatorBool (h : ShaderHandle) : Bool :=
  h.handle != 0 && h.vertex.operatorBool && h.fragment.operatorBool

/-- The `operator!` of `ShaderHandle`: `!handle || !vertex || !fragment`. -/
def ShaderHandle.operatorNot (h : ShaderHandle) : Bool :=
  h.handle == 0 || h.vertex.operatorNot || h.fragment.operatorNot

/-- The `struct UniformBufferHandle`. -/
structure UniformBufferHandle where
  handle : Nat := 0
  bindingPoint : Nat := 0
  deriving DecidableEq, Repr

/-- The `explicit operator bool` of `UniformBufferHandle`: `handle`. -/
def UniformBufferHandle.operatorBool (h : UniformBufferHandle) : Bool :=
  h.handle != 0

/-- The `operator!` of `UniformBufferHandle`: `!handle`. -/
def UniformBufferHandle.operatorNot (h : UniformBufferHandle) : Bool :=
  h.handle == 0

/-- The top of a stack of the state controller agrees with the tracked
rasterizer description: `CullMode` is `D3D11_CULL_FRONT` or `D3D11_CULL_NONE`
as the top of the `CULL_FACE` stack says, `DepthClipEnable` is the top of the
`DEPTH_TEST` stack, and the description is the one set on the device. -/
def State.TracksTops (s : State) : Prop :=
  (∃ c cs, s.stack .CULL_FACE = c :: cs ∧
    s.rasterizerDesc.CullMode = if c then D3D11_CULL_FRONT else D3D11_CULL_NONE) ∧
  (∃ t ts, s.stack .DEPTH_TEST = t :: ts ∧ s.rasterizerDesc.DepthClipEnable = t) ∧
  s.deviceRasterizer = s.rasterizerDesc

/-! ## Windows (engine/render/backend/device/DeviceDX11.cpp)

The array `g_Windows` and the other globals of the file become the fields of
`Device`.  A `WindowHandle*` into the pool is the index of its slot, the null
pointer being `none`.  Every call that leaves the file is appended to
`Device.trace`, with the slot of the window it is made for; the calls into the
renderer are recorded there as well, without their effect on the backend
state.  What SDL and Direct3D return is supplied from outside. -/

/-- Modelled from the spec: the `struct Device::WindowHandle` of DeviceDX11.h,
which is not part of the sources at hand.  It has the members DeviceDX11.cpp
reads and writes; a default-constructed handle holds null pointers, cleared
flags and no panel.  A panel is its identifier and the pointer to it. -/
structure WindowHandle where
  window : Ptr := 0
  d3dSwapChain : Ptr := 0
  renderTargetView : Ptr := 0
  imguiContext : Ptr := 0
  viewport : Ptr := 0
  viewportIsSelfOwned : Bool := false
  hidden : Bool := false
  width : Int := -1
  height : Int := -1
  mouseCaptured : Bool := false
  shouldClose : Bool := false
  panels : List (Nat × Ptr) := []
  deriving DecidableEq, Repr

/-- Modelled from the spec: the `explicit operator bool` of `WindowHandle`,
declared in DeviceDX11.h: a slot is occupied when its native window pointer is
not null. -/
def WindowHandle.operatorBool (h : WindowHandle) : Bool :=
  h.window != 0

/-- Modelled from the spec: the `operator!` of `WindowHandle`, declared in
DeviceDX11.h: a slot is free when its native window pointer is null. -/
def WindowHandle.operatorNot (h : WindowHandle) : Bool :=
  h.window == 0

/-- One entry of the call trace of the device: the entry into
`Device::destroyWindow`, or a call into SDL, Direct3D, ImGui, the renderer, a
viewport, a panel or a registered input callback. -/
inductive DeviceCall where
  | SDL_CreateWindow (slot : Nat) (width height : Int)
  | SDL_SetWindowData (slot : Nat)
  | CreateSwapChain (slot : Nat)
  | CreateRenderTargetView (slot : Nat)
  | ReleaseBackBuffer (slot : Nat)
  | newViewport (slot : Nat) (width height : Int)
  | SDL_SetWindowIcon (slot : Nat)
  | ImGui_CreateContext (slot : Nat)
  | initImGui (slot : Nat)
  | fontsBuild
  | logError
  | destroyWindow (slot : Nat)
  | deleteViewport (slot : Nat)
  | deletePanel (slot : Nat) (uuid : Nat)
  | ImGui_DestroyContext (slot : Nat)
  | Release (slot : Nat) (p : Ptr)
  | SDL_DestroyWindow (slot : Nat)
  | viewportUpdate (slot : Nat)
  | ImGui_SetCurrentContext (slot : Nat)
  | pushFrameBuffer (slot : Nat)
  | startImGuiFrame (slot : Nat)
  | viewportRender (slot : Nat)
  | panelRender (slot : Nat) (uuid : Nat)
  | OMSetRenderTargets (slot : Nat) (withDepth : Bool)
  | RSSetState (slot : Nat) (cullMode : Nat)
  | endImGuiFrame (slot : Nat)
  | popFrameBuffer (slot : Nat)
  | surfaceRender (slot : Nat)
  | Present (slot : Nat)
  | ImGui_ImplSDL2_ProcessEvent (slot : Nat)
  | ResizeBuffers (slot : Nat)
  | viewportSetSize (slot : Nat) (width height : Int)
  | keyEvent (e : KeyEvent)
  | mouseEvents
  | SDL_ShowWindow (slot : Nat)
  | SDL_HideWindow (slot : Nat)
  deriving DecidableEq, Repr

/-- The globals of DeviceDX11.cpp the modelled functions use. -/
structure Device where
  /-- The array `g_Windows`, of 256 handles. -/
  g_Windows : List WindowHandle
  /-- The registered key events, `Input::KeyEvent::getEvents()`. -/
  keyEvents : List KeyEvent
  /-- The function-local `static bool bakedFonts` of `createWindow`. -/
  bakedFonts : Bool
  /-- Calls made so far, oldest first. -/
  trace : List DeviceCall
  deriving DecidableEq, Repr

/-- Append a call to the trace of the device. -/
def Device.log (d : Device) (c : DeviceCall) : Device :=
  { d with trace := d.trace ++ [c] }

/-- Append several calls to the trace of the device. -/
def Device.logs (d : Device) (l : List DeviceCall) : Device :=
  { d with trace := d.trace ++ l }

/-- The handle a `WindowHandle*` points to. -/
def Device.handle (d : Device) (handle : Nat) : WindowHandle :=
  (d.g_Windows[handle]?).getD {}

/-- Assignment through a `WindowHandle*`. -/
def Device.setHandle (d : Device) (handle : Nat) (w : WindowHandle) : Device :=
  { d with g_Windows := d.g_Windows.set handle w }

/-- The loop of `findFreeWindow`, from index `i` on. -/
def findFreeWindowLoop : List WindowHandle → Nat → Int
  | [], _ => -1
  | w :: ws, i => if w.operatorNot then (i : Int) else findFreeWindowLoop ws (i + 1)

/-- The static function `findFreeWindow`. -/
def findFreeWindow (d : Device) : Int :=
  findFreeWindowLoop d.g_Windows 0

/-- What SDL, Direct3D and the loaders return to one call of
`Device::createWindow`. -/
structure CreateEnv where
  /-- Result of `SDL_CreateWindow`. -/
  SDL_CreateWindow : Ptr
  /-- The swap chain `CreateSwapChain` stores when it returns `S_OK`. -/
  CreateSwapChain : Option Ptr
  /-- The buffer `GetBuffer` stores. -/
  pBackBuffer : Ptr
  /-- The view `CreateRenderTargetView` stores. -/
  CreateRenderTargetView : Ptr
  /-- The viewport `new Viewport` returns. -/
  newViewport : Ptr
  /-- Whether the icon image could be loaded. -/
  icon : Bool
  /-- Result of `ImGui::CreateContext`. -/
  ImGui_CreateContext : Ptr

/-- The function `Device::createWindow`; `viewport` is `0` for `nullptr`. -/
def Device.createWindow (env : CreateEnv) (width height : Int) (viewport : Ptr) (d : Device) :
    Option Nat × Device :=
  let freeWindow := findFreeWindow d
  if freeWindow == -1 then (none, d)
  else
    let slot := freeWindow.toNat
    let handle : WindowHandle := { width := width, height := height }
    let handle := { handle with window := env.SDL_CreateWindow }
    let d := d.log (.SDL_CreateWindow slot width height)
    if handle.window == 0 then (none, (d.setHandle slot handle).log .logError)
    else
      let d := d.log (.SDL_SetWindowData slot)
      let d := d.log (.CreateSwapChain slot)
      match env.CreateSwapChain with
      | none => (none, (d.setHandle slot handle).log .logError)
      | some swapChain =>
        let handle := { handle with d3dSwapChain := swapChain }
        if env.pBackBuffer != 0 then
          let handle := { handle with renderTargetView := env.CreateRenderTargetView }
          let d := d.log (.CreateRenderTargetView slot)
          let d := d.log (.ReleaseBackBuffer slot)
          let handle :=
            if viewport != 0 then
              { handle with viewport := viewport, viewportIsSelfOwned := false }
            else
              { handle with viewport := env.newViewport, viewportIsSelfOwned := true }
          let d := if viewport != 0 then d else d.log (.newViewport slot width height)
          let d := if env.icon then d.log (.SDL_SetWindowIcon slot) else d
          let handle := { handle with imguiContext := env.ImGui_CreateContext }
          let d := d.log (.ImGui_CreateContext slot)
          let d := d.log (.ImGui_SetCurrentContext slot)
          let d := d.log (.initImGui slot)
          let d := if !d.bakedFonts then { d.log .fontsBuild with bakedFonts := true } else d
          (some slot, d.setHandle slot handle)
        else (none, (d.setHandle slot handle).log .logError)

/-- The loop of `Device::getWindowCount`. -/
def getWindowCountLoop : List WindowHandle → Int → Int
  | [], count => count
  | w :: ws, count => getWindowCountLoop ws (count + if w.operatorBool then 1 else 0)

/-- The function `Device::getWindowCount`. -/
def Device.getWindowCount (d : Device) : Int :=
  getWindowCountLoop d.g_Windows 0

/-- The function `Device::setWindowVisibility`. -/
def Device.setWindowVisibility (handle : Nat) (visible : Bool) (d : Device) : Device :=
  let d := if visible then d.log (.SDL_ShowWindow handle) else d.log (.SDL_HideWindow handle)
  d.setHandle handle { d.handle handle with hidden := visible }

/-- The function `Device::isWindowVisible`. -/
def Device.isWindowVisible (handle : Nat) (d : Device) : Bool :=
  !(d.handle handle).hidden

/-- The function `Device::isMouseCapturedWindow`. -/
def Device.isMouseCapturedWindow (handle : Nat) (d : Device) : Bool :=
  (d.handle handle).mouseCaptured

/-- The calls `Device::destroyWindow` makes for the handle `w` in the given
slot: its own entry, the deletion of a self-owned viewport, of every panel
(`removeAllPanelsFromWindow`), of the ImGui context, the two `dxRelease` and
`SDL_DestroyWindow`. -/
def destroyWindowCalls (slot : Nat) (w : WindowHandle) : List DeviceCall :=
  [.destroyWindow slot] ++
  (if w.viewportIsSelfOwned then [.deleteViewport slot] else []) ++
  w.panels.map (fun p => .deletePanel slot p.1) ++
  [.ImGui_DestroyContext slot] ++
  (if w.renderTargetView != 0 then [.Release slot w.renderTargetView] else []) ++
  (if w.d3dSwapChain != 0 then [.Release slot w.d3dSwapChain] else []) ++
  [.SDL_DestroyWindow slot]

/-- The function `Device::destroyWindow`. -/
def Device.destroyWindow (handle : Nat) (d : Device) : Device :=
  let w := d.handle handle
  let d := d.logs (destroyWindowCalls handle w)
  d.setHandle handle
    { w with
      panels := [],
      imguiContext := 0,
      renderTargetView := 0,
      d3dSwapChain := 0,
      window := 0 }

/-- The slot a trace entry of the device is made for, if any. -/
def DeviceCall.slot? : DeviceCall → Option Nat
  | .SDL_CreateWindow slot _ _ => some slot
  | .SDL_SetWindowData slot => some slot
  | .CreateSwapChain slot => some slot
  | .CreateRenderTargetView slot => some slot
  | .ReleaseBackBuffer slot => some slot
  | .newViewport slot _ _ => some slot
  | .SDL_SetWindowIcon slot => some slot
  | .ImGui_CreateContext slot => some slot
  | .initImGui slot => some slot
  | .fontsBuild => none
  | .logError => none
  | .destroyWindow slot => some slot
  | .deleteViewport slot => some slot
  | .deletePanel slot _ => some slot
  | .ImGui_DestroyContext slot => some slot
  | .Release slot _ => some slot
  | .SDL_DestroyWindow slot => some slot
  | .viewportUpdate slot => some slot
  | .ImGui_SetCurrentContext slot => some slot
  | .pushFrameBuffer slot => some slot
  | .startImGuiFrame slot => some slot
  | .viewportRender slot => some slot
  | .panelRender slot _ => some slot
  | .OMSetRenderTargets slot _ => some slot
  | .RSSetState slot _ => some slot
  | .endImGuiFrame slot => some slot
  | .popFrameBuffer slot => some slot
  | .surfaceRender slot => some slot
  | .Present slot => some slot
  | .ImGui_ImplSDL2_ProcessEvent slot => some slot
  | .ResizeBuffers slot => some slot
  | .viewportSetSize slot _ _ => some slot
  | .keyEvent _ => none
  | .mouseEvents => none
  | .SDL_ShowWindow slot => some slot
  | .SDL_HideWindow slot => some slot

/-- The device right after process start: 256 default-constructed handles,
no key event registered, nothing called. -/
def Device.fresh : Device :=
  { g_Windows := List.replicate 256 {}
    keyEvents := []
    bakedFonts := false
    trace := [] }

/-- Results of a `createWindow` call in which every step succeeds, the native
window being `window`. -/
def CreateEnv.success (window : Ptr) : CreateEnv :=
  { SDL_CreateWindow := window
    CreateSwapChain := some (window + 1)
    pBackBuffer := window + 2
    CreateRenderTargetView := window + 3
    newViewport := window + 4
    icon := true
    ImGui_CreateContext := window + 5 }

/-- Whether a trace entry of the device is the entry into `destroyWindow` or
one of the deletions it makes. -/
def DeviceCall.isDestroy : DeviceCall → Bool
  | .destroyWindow _ => true
  | .deleteViewport _ => true
  | .deletePanel _ _ => true
  | .ImGui_DestroyContext _ => true
  | .SDL_DestroyWindow _ => true
  | _ => false

/-- The step from `d` to `d1` destroys nothing: the pool keeps its size,
every slot keeps its native window, and the calls added to the trace are no
destruction and are made for windows that exist. -/
def Device.Dispatches (d d1 : Device) : Prop :=
  d1.g_Windows.length = d.g_Windows.length ∧
  (∀ j, (d1.handle j).window = (d.handle j).window) ∧
  ∃ seg, d1.trace = d.trace ++ seg ∧
    ∀ c ∈ seg, c.isDestroy = false ∧ ∀ i, c.slot? = some i → (d.handle i).window ≠ 0

/-- A device with one window, created in slot `0` of the fresh pool. -/
def Device.demo : Device :=
  (Device.fresh.createWindow (CreateEnv.success 10) 800 600 0).2

/-! ### Settings and `Engine::init` (engine.cpp, lines 143-347 and 549-574) -/

/-- A typed value of the settings store. -/
inductive SettingValue where
  | int (v : Int)
  | bool (v : Bool)
  | string (v : String)
  deriving DecidableEq, Repr

/-- Modelled from the spec: the settings store behind `AbstractSettingsLoader`,
whose class is not part of the sources at hand: typed values under a category
and a key. -/
abbrev Settings := List ((String × String) × SettingValue)

/-- Modelled from the spec: `hasValue(category, key)` of the settings store. -/
def Settings.hasValue (s : Settings) (category name : String) : Bool :=
  (s.lookup (category, name)).isSome

/-- Modelled from the spec: `getValue(category, key, out)` of the settings
store for an `int`: the stored value, and on a miss the value the caller put
into `out`. -/
def Settings.getInt (s : Settings) (category name : String) (out : Int) : Int :=
  match s.lookup (category, name) with
  | some (.int v) => v
  | _ => out

/-- Modelled from the spec: `getValue(category, key, out)` of the settings
store for a `bool`: the stored value, and on a miss the value the caller put
into `out`. -/
def Settings.getBool (s : Settings) (category name : String) (out : Bool) : Bool :=
  match s.lookup (category, name) with
  | some (.bool v) => v
  | _ => out

/-- Modelled from the spec: `getValue(category, key, out)` of the settings
store for a `std::string`: the stored value, and on a miss the value the
caller put into `out`. -/
def Settings.getString (s : Settings) (category name : String) (out : String) : String :=
  match s.lookup (category, name) with
  | some (.string v) => v
  | _ => out

/-- The read `int windowWidth = 1600; getValue("graphics", "windowWidth",
&windowWidth);` of `Engine::init`. -/
def Engine.windowWidth (s : Settings) : Int :=
  s.getInt "graphics" "windowWidth" 1600

/-- The read `int windowHeight = 900; getValue("graphics", "windowHeight",
&windowHeight);` of `Engine::init`. -/
def Engine.windowHeight (s : Settings) : Int :=
  s.getInt "graphics" "windowHeight" 900

/-- The read `bool fullscreen = false; getValue("graphics", "fullscreen",
&fullscreen);` of `Engine::init`. -/
def Engine.fullscreen (s : Settings) : Bool :=
  s.getBool "graphics" "fullscreen" false

/-- The read `bool startMaximized = true; getValue("graphics",
"startMaximized", &startMaximized);` of `Engine::init`. -/
def Engine.startMaximized (s : Settings) : Bool :=
  s.getBool "graphics" "startMaximized" true

/-- The read `bool rawMouseMotion = false; getValue("input", "rawMouseMotion",
&rawMouseMotion);` of `Engine::init`. -/
def Engine.rawMouseMotion (s : Settings) : Bool :=
  s.getBool "input" "rawMouseMotion" false

/-- The read `bool openalEnabled = true; getValue("audio", "openal",
&openalEnabled);` of `Engine::init`. -/
def Engine.openalEnabled (s : Settings) : Bool :=
  s.getBool "audio" "openal" true

/-- The read `bool bulletEnabled = true; getValue("physics", "bullet",
&bulletEnabled);` of `Engine::init`. -/
def Engine.bulletEnabled (s : Settings) : Bool :=
  s.getBool "physics" "bullet" true

/-- What `Engine::init` gets from outside the engine: the results of the GLFW
and loader calls, the objects `new` returns, and `maxLights k`, the
indeterminate value the uninitialised local `int maxLights` of the `k`-th light
block starts with. -/
structure InitEnv where
  glfwInit : Bool
  glfwCreateWindow : Ptr
  gladLoadGL : Bool
  glfwRawMouseMotionSupported : Bool
  newALSoundManager : Ptr
  newBulletPhysicsProvider : Ptr
  newAngelscriptProvider : Ptr
  newRoot : Ptr
  maxLights : Nat → Int

/-- Value of `EXIT_FAILURE`. -/
def EXIT_FAILURE : Int := 1

/-- A member call through `Engine::getSettingsLoader()`: the accessor logs a
warning and returns null when no loader is installed, and the call through
null stops the run. -/
def Engine.withSettingsLoader (e : Engine) (k : Engine → Run) : Run :=
  deref e.getSettingsLoader.1 e.getSettingsLoader.2 k

/-- The part of `Engine::init` up to the loading of OpenGL (lines 143-204):
console, GLFW, the window with its size and mode from the settings, the icon.
The blocks under `#ifdef DEBUG` are left out. -/
def Engine.initWindow (s : Settings) (env : InitEnv) (e : Engine) : Run :=
  let e := e.act (.init .newConsole)
  let e := e.act (.init .glfwInit)
  if !env.glfwInit then
    let e := e.logMessage .ERROR .GLFW
    .exited EXIT_FAILURE (e.act (.exit EXIT_FAILURE))
  else
    let e := e.act (.init .glfwSetErrorCallback)
    let e := e.acts [.init .glfwWindowHint, .init .glfwWindowHint, .init .glfwWindowHint]
    e.withSettingsLoader fun e =>
    e.withSettingsLoader fun e =>
    e.withSettingsLoader fun e =>
      let e := { e with window := env.glfwCreateWindow }
      let e := e.act (.init (.glfwCreateWindow (Engine.windowWidth s) (Engine.windowHeight s)))
      let e := if Engine.fullscreen s then e.act (.init .glfwSetWindowMonitor) else e
      if e.window == 0 then
        let e := e.logMessage .ERROR .GLFW
        let e := e.act .glfwTerminate
        .exited EXIT_FAILURE (e.act (.exit EXIT_FAILURE))
      else
        let e := e.act (.init .glfwMakeContextCurrent)
        (if !Engine.fullscreen s then
          e.withSettingsLoader fun e =>
            .ok (if Engine.startMaximized s then e.act (.init .glfwMaximizeWindow) else e)
        else .ok e).andThen fun e =>
        e.withSettingsLoader fun e =>
        (if s.hasValue "engine" "iconPath" then
          e.withSettingsLoader fun e =>
            .ok (e.act (.init (.setIcon (s.getString "engine" "iconPath" ""))))
        else .ok (e.logMessage .WARNING .Engine)).andThen fun e =>
        let e := e.act (.init .glfwGetVersion)
        let e := e.logMessage .INFO .GLFW
        let e := e.act (.init .gladLoadGL)
        if !env.gladLoadGL then
          let e := e.logMessage .ERROR .OpenGL
          let e := e.act .glfwTerminate
          .exited EXIT_FAILURE (e.act (.exit EXIT_FAILURE))
        else .ok e

/-- The part of `Engine::init` from the viewport to the ImGui context (lines
298-317): viewport, mesh loaders, splash screen, GL state, input modes with
raw mouse motion from the settings, the callbacks, ImGui. -/
def Engine.initGraphics (s : Settings) (env : InitEnv) (e : Engine) : Run :=
  let e := e.acts [.init .glfwGetFramebufferSize, .init .glViewport,
    .init .glfwSetFramebufferSizeCallback,
    .init .setBackgroundColor, .init (.addMeshLoader "primitive"),
    .init (.addMeshLoader "obj"), .init .displaySplashScreen, .resourceCleanup,
    .init (.glfwSwapInterval 1), .init .glEnable_DEPTH_TEST,
    .init .glEnable_TEXTURE_CUBE_MAP_SEAMLESS, .init .glfwSetInputMode_STICKY_KEYS,
    .init .glfwSetInputMode_STICKY_MOUSE_BUTTONS]
  e.withSettingsLoader fun e =>
    let e := if env.glfwRawMouseMotionSupported && Engine.rawMouseMotion s then
        e.act (.init .glfwSetInputMode_RAW_MOUSE_MOTION) else e
    let e := e.acts [.init .glfwSetKeyCallback, .init .glfwSetMouseButtonCallback,
      .init .glfwSetCursorPosCallback, .init .glfwSetScrollCallback,
      .init .glfwSetWindowIconifyCallback, .init .ImGui_CreateContext,
      .init .ImGui_StyleColorsDark, .init .ImGui_ImplGlfw_InitForOpenGL, .init .fontsClear,
      .init .ImGui_ImplOpenGL3_Init]
    .ok (e.logMessage .INFO .ImGui)

/-- The audio part of `Engine::init` (lines 319-324): the sound manager is
constructed when `audio.openal` says so, and initialised. -/
def Engine.initAudio (s : Settings) (env : InitEnv) (e : Engine) : Run :=
  e.withSettingsLoader fun e =>
    let e := if Engine.openalEnabled s then
        (e.act (.init .newALSoundManager)).setSoundManager env.newALSoundManager
      else e
    deref e.soundManager e fun e => .ok (e.act (.init .soundManagerInit))

/-- The light counts of `Engine::init` (lines 326-341): three blocks, each
testing a key of the category `engine`, reading a key into its uninitialised
local `maxLights` and defining a preprocessor symbol with what the local then
holds. -/
def Engine.initLights (s : Settings) (env : InitEnv) (e : Engine) : Run :=
  e.withSettingsLoader fun e =>
  (if s.hasValue "engine" "maxPointLights" then
    e.withSettingsLoader fun e =>
      .ok (e.act (.init (.addPreprocessorSymbol "MAX_POINT_LIGHTS"
        (s.getInt "engine" "maxPointLights" (env.maxLights 0)))))
  else .ok e).andThen fun e =>
  e.withSettingsLoader fun e =>
  (if s.hasValue "engine" "maxPointLights" then
    e.withSettingsLoader fun e =>
      .ok (e.act (.init (.addPreprocessorSymbol "MAX_DIRECTIONAL_LIGHTS"
        (s.getInt "engine" "maxDirectionalLights" (env.maxLights 1)))))
  else .ok e).andThen fun e =>
  e.withSettingsLoader fun e =>
  (if s.hasValue "engine" "maxSpotLights" then
    e.withSettingsLoader fun e =>
      .ok (e.act (.init (.addPreprocessorSymbol "MAX_SPOT_LIGHTS"
        (s.getInt "engine" "maxSpotLights" (env.maxLights 2)))))
  else .ok e)

/-- The physics part of `Engine::init` (lines 343-347): the physics provider
is constructed when `physics.bullet` says so. -/
def Engine.initPhysics (s : Settings) (env : InitEnv) (e : Engine) : Run :=
  e.withSettingsLoader fun e =>
    .ok (if Engine.bulletEnabled s then
        (e.act (.init .newBulletPhysicsProvider)).setPhysicsProvider
          env.newBulletPhysicsProvider
      else e)

/-- The end of `Engine::init` (lines 349-371): the scripting provider, the
fonts, the scene root, the registered init functions and the scripts. -/
def Engine.initScene (env : InitEnv) (e : Engine) : Run :=
  let e := { e.act (.init .newAngelscriptProvider) with
    angelscript := env.newAngelscriptProvider }
  deref e.angelscript e fun e =>
    let e := e.acts [.init .angelscriptInitProvider, .init .fontsAddFontDefault,
      .init .consolePrecacheResource, .init .getDefaultFont]
    let e := { e.act (.init .newRoot) with root := env.newRoot }
    deref e.root e fun e =>
      let e := e.act (.init .rootAddChildConsole)
      let e := callRegisteredFunctions e.initFunctions e
      deref e.angelscript e fun e =>
        .ok (e.acts [.init .angelscriptInitScripts, .init .fontsBuild])

/-- The function `Engine::init`; `s` is the content of the settings store. -/
def Engine.init (s : Settings) (env : InitEnv) (e : Engine) : Run :=
  (e.initWindow s env).andThen fun e =>
  (e.initGraphics s env).andThen fun e =>
  (e.initAudio s env).andThen fun e =>
  (e.initLights s env).andThen fun e =>
  (e.initPhysics s env).andThen fun e =>
  e.initScene env

/-- Whether an action defines a preprocessor symbol of the shaders. -/
def Action.isPreprocessorSymbol : Action → Bool
  | .init (.addPreprocessorSymbol _ _) => true
  | _ => false

/-- Results of an `init` in which every outside call succeeds. -/
def InitEnv.demo : InitEnv :=
  { glfwInit := true
    glfwCreateWindow := 5
    gladLoadGL := true
    glfwRawMouseMotionSupported := true
    newALSoundManager := 2
    newBulletPhysicsProvider := 1
    newAngelscriptProvider := 4
    newRoot := 3
    maxLights := fun _ => -858993460 }

/-! ## Theorems -/

/-! ### Field lemmas for the state controller -/

@[simp]
theorem log_stack (s : State) (c : Call) (m : RenderMode) :
    (s.log c).stack m = s.stack m := by
  cases m <;> rfl

@[simp]
theorem log_initedStates (s : State) (c : Call) :
    (s.log c).initedStates = s.initedStates := rfl

@[simp]
theorem log_framebuffers (s : State) (c : Call) :
    (s.log c).framebuffers = s.framebuffers := rfl

@[simp]
theorem log_boundRTV (s : State) (c : Call) : (s.log c).boundRTV = s.boundRTV := rfl

@[simp]
theorem log_trace (s : State) (c : Call) : (s.log c).trace = s.trace ++ [c] := rfl

@[simp]
theorem setStack_stack_same (s : State) (m : RenderMode) (st : List Bool) :
    (s.setStack m st).stack m = st := by
  cases m <;> rfl

theorem setStack_stack_other (s : State) (m m1 : RenderMode) (st : List Bool) (h : m1 ≠ m) :
    (s.setStack m st).stack m1 = s.stack m1 := by
  cases m <;> cases m1 <;> first | rfl | exact absurd rfl h

@[simp]
theorem setStack_initedStates (s : State) (m : RenderMode) (st : List Bool) :
    (s.setStack m st).initedStates = s.initedStates := by
  cases m <;> rfl

@[simp]
theorem setStack_framebuffers (s : State) (m : RenderMode) (st : List Bool) :
    (s.setStack m st).framebuffers = s.framebuffers := by
  cases m <;> rfl

@[simp]
theorem setStack_boundRTV (s : State) (m : RenderMode) (st : List Bool) :
    (s.setStack m st).boundRTV = s.boundRTV := by
  cases m <;> rfl

@[simp]
theorem setStack_trace (s : State) (m : RenderMode) (st : List Bool) :
    (s.setStack m st).trace = s.trace := by
  cases m <;> rfl

@[simp]
theorem changeRenderMode_stack (m m1 : RenderMode) (v : Bool) (s : State) :
    (changeRenderMode m v s).stack m1 = s.stack m1 := by
  cases m <;> cases m1 <;> rfl

@[simp]
theorem changeRenderMode_initedStates (m : RenderMode) (v : Bool) (s : State) :
    (changeRenderMode m v s).initedStates = s.initedStates := by
  cases m <;> rfl

@[simp]
theorem changeRenderMode_framebuffers (m : RenderMode) (v : Bool) (s : State) :
    (changeRenderMode m v s).framebuffers = s.framebuffers := by
  cases m <;> rfl

@[simp]
theorem changeRenderMode_boundRTV (m : RenderMode) (v : Bool) (s : State) :
    (changeRenderMode m v s).boundRTV = s.boundRTV := by
  cases m <;> rfl

/-- The calls `changeRenderMode` adds to the trace. -/
theorem changeRenderMode_trace (m : RenderMode) (v : Bool) (s : State) :
    ∃ seg, (changeRenderMode m v s).trace = s.trace ++ Call.changeRenderMode m v :: seg ∧
      seg.filter (fun c => !c.isDeviceCall) = [] ∧
      seg.filter Call.isRebind = [] := by
  cases m
  · refine ⟨[.CreateRasterizerState { s.rasterizerDesc with
        CullMode := if v then D3D11_CULL_FRONT else D3D11_CULL_NONE },
      .RSSetState { s.rasterizerDesc with
        CullMode := if v then D3D11_CULL_FRONT else D3D11_CULL_NONE }], ?_, ?_, ?_⟩
    · simp [changeRenderMode, State.log]
    · simp [Call.isDeviceCall]
    · simp [Call.isRebind]
  · refine ⟨[.CreateRasterizerState { s.rasterizerDesc with DepthClipEnable := v },
      .RSSetState { s.rasterizerDesc with DepthClipEnable := v }], ?_, ?_, ?_⟩
    · simp [changeRenderMode, State.log]
    · simp [Call.isDeviceCall]
    · simp [Call.isRebind]
  · exact ⟨[], by simp [changeRenderMode, State.log], rfl, rfl⟩

/-- What `pushState` does on an initialised controller. -/
theorem pushState_eq (m : RenderMode) (v : Bool) (s : State) (top : Bool) (below : List Bool)
    (hinit : s.initedStates = true) (hstack : s.stack m = top :: below) :
    pushState m v s = .ok (if (v != top) = true
      then changeRenderMode m v ((s.log (.pushState m v)).setStack m (v :: top :: below))
      else (s.log (.pushState m v)).setStack m (v :: top :: below)) := by
  unfold pushState
  simp only [log_initedStates, hinit, Bool.not_true, Bool.false_eq_true, if_false,
    runtime_assert, dxStatesContains, if_true, log_stack, hstack]
  split <;> rfl

/-- What `popState` does on a stack of depth at least two. -/
theorem popState_eq (m : RenderMode) (s : State) (old top : Bool) (below : List Bool)
    (hstack : s.stack m = old :: top :: below) :
    popState m s = .ok (if (top != old) = true
      then changeRenderMode m top ((s.log (.popState m)).setStack m (top :: below))
      else (s.log (.popState m)).setStack m (top :: below)) := by
  unfold popState
  simp only [log_stack, hstack, dxStatesContains]
  simp
  split <;> rfl

/-- What `popState` does on a stack of depth at most one. -/
theorem popState_fatal (m : RenderMode) (s : State) (h : (s.stack m).length ≤ 1) :
    popState m s = .fatal .popStateWithoutPush (s.log (.popState m)) := by
  unfold popState
  simp [dxStatesContains, h]

/-- C1: on an initialised state controller, `pushState m v` succeeds, pushes `v`
on the stack of `m` and leaves the other stacks alone; after its own trace
entry it enters `changeRenderMode` exactly once, with `(m, v)`, when `v`
differs from the previous top, and makes no call at all (in particular no
device call) when `v` equals the previous top. -/
theorem pushState_redundant_suppression (m : RenderMode) (v : Bool) (s : State)
    (top : Bool) (below : List Bool)
    (hinit : s.initedStates = true) (hstack : s.stack m = top :: below) :
    ∃ s1 seg, pushState m v s = .ok s1 ∧
      s1.stack m = v :: top :: below ∧
      (∀ m1, m1 ≠ m → s1.stack m1 = s.stack m1) ∧
      s1.trace = s.trace ++ Call.pushState m v :: seg ∧
      (v ≠ top → seg.filter (fun c => !c.isDeviceCall) = [Call.changeRenderMode m v]) ∧
      (v = top → seg = []) := by
  by_cases hv : v = top
  · subst hv
    refine ⟨(s.log (.pushState m v)).setStack m (v :: v :: below), [], ?_, ?_, ?_, ?_, ?_, ?_⟩
    · cases m <;>
        simp_all [pushState, runtime_assert, dxStatesContains, State.log, State.stack,
          State.setStack]
    · cases m <;> simp [State.stack, State.setStack]
    · intro m1 hm1
      cases m <;> cases m1 <;> simp_all [State.stack, State.setStack, State.log]
    · cases m <;> simp [State.setStack, State.log]
    · intro h; exact absurd rfl h
    · intro _; rfl
  · refine ⟨changeRenderMode m v ((s.log (.pushState m v)).setStack m (v :: top :: below)),
      ((changeRenderMode m v ((s.log (.pushState m v)).setStack m
        (v :: top :: below))).trace.drop (s.trace.length + 1)), ?_, ?_, ?_, ?_, ?_, ?_⟩
    · have hne : (v != top) = true := by simpa using hv
      cases m <;>
        simp_all [pushState, runtime_assert, dxStatesContains, State.log, State.stack,
          State.setStack]
    · cases m <;> simp [State.stack, State.setStack, changeRenderMode, State.log]
    · intro m1 hm1
      cases m <;> cases m1 <;>
        simp_all [State.stack, State.setStack, State.log, changeRenderMode]
    · cases m <;> simp [State.setStack, State.log, changeRenderMode]
    · intro _
      cases m <;>
        simp [State.setStack, State.log, changeRenderMode, Call.isDeviceCall, List.filter]
    · intro h; exact absurd h hv

/-- Witness for C1: pushing `false` on the freshly initialised `DEPTH_TEST`
stack, whose top is `true`. -/
theorem pushState_redundant_suppression_witness :
    ∃ s1 seg, pushState .DEPTH_TEST false (State.initialised ⟨D3D11_CULL_BACK, true⟩) = .ok s1 ∧
      s1.stack .DEPTH_TEST = [false, true] ∧
      (∀ m1, m1 ≠ RenderMode.DEPTH_TEST →
        s1.stack m1 = (State.initialised ⟨D3D11_CULL_BACK, true⟩).stack m1) ∧
      s1.trace = (State.initialised ⟨D3D11_CULL_BACK, true⟩).trace ++
        Call.pushState .DEPTH_TEST false :: seg ∧
      (false ≠ true →
        seg.filter (fun c => !c.isDeviceCall) = [Call.changeRenderMode .DEPTH_TEST false]) ∧
      (false = true → seg = []) :=
  pushState_redundant_suppression .DEPTH_TEST false (State.initialised ⟨D3D11_CULL_BACK, true⟩)
    true [] rfl rfl

/-- C2: when the stack of `m` has depth greater than one, `popState m` succeeds,
removes exactly the top entry and leaves the rest of that stack and the other
stacks unchanged; after its own trace entry it enters `changeRenderMode`
exactly once, with `(m, newTop)`, when the new top differs from the removed
value, and makes no call at all when they are equal. -/
theorem popState_restores_previous (m : RenderMode) (s : State)
    (old top : Bool) (below : List Bool) (hstack : s.stack m = old :: top :: below) :
    ∃ s1 seg, popState m s = .ok s1 ∧
      s1.stack m = top :: below ∧
      (∀ m1, m1 ≠ m → s1.stack m1 = s.stack m1) ∧
      s1.trace = s.trace ++ Call.popState m :: seg ∧
      (top ≠ old → seg.filter (fun c => !c.isDeviceCall) = [Call.changeRenderMode m top]) ∧
      (top = old → seg = []) := by
  rw [popState_eq m s old top below hstack]
  by_cases h : top = old
  · subst h
    refine ⟨(s.log (.popState m)).setStack m (top :: below), [], by simp, by simp, ?_, by simp,
      ?_, ?_⟩
    · intro m1 hm1
      rw [setStack_stack_other _ _ _ _ hm1, log_stack]
    · intro hne; exact absurd rfl hne
    · intro _; rfl
  · obtain ⟨seg, hseg, hnd, _⟩ :=
      changeRenderMode_trace m top ((s.log (.popState m)).setStack m (top :: below))
    have hb : (top != old) = true := by simpa using h
    refine ⟨changeRenderMode m top ((s.log (.popState m)).setStack m (top :: below)),
      Call.changeRenderMode m top :: seg, by simp [hb], by simp, ?_, ?_, ?_, ?_⟩
    · intro m1 hm1
      rw [changeRenderMode_stack, setStack_stack_other _ _ _ _ hm1, log_stack]
    · rw [hseg]; simp
    · intro _
      rw [List.filter_cons, hnd]
      rfl
    · intro h1; exact absurd h1 h

/-- Witness for C2: popping `false` off the `CULL_FACE` stack `[false, true]`. -/
theorem popState_restores_previous_witness :
    ∃ s1 seg, popState .CULL_FACE
        ((State.initialised ⟨D3D11_CULL_BACK, true⟩).setStack .CULL_FACE [false, true]) = .ok s1 ∧
      s1.stack .CULL_FACE = [true] ∧
      (∀ m1, m1 ≠ RenderMode.CULL_FACE → s1.stack m1 =
        ((State.initialised ⟨D3D11_CULL_BACK, true⟩).setStack .CULL_FACE [false, true]).stack m1) ∧
      s1.trace =
        ((State.initialised ⟨D3D11_CULL_BACK, true⟩).setStack .CULL_FACE [false, true]).trace ++
          Call.popState .CULL_FACE :: seg ∧
      (true ≠ false →
        seg.filter (fun c => !c.isDeviceCall) = [Call.changeRenderMode .CULL_FACE true]) ∧
      (true = false → seg = []) :=
  popState_restores_previous .CULL_FACE
    ((State.initialised ⟨D3D11_CULL_BACK, true⟩).setStack .CULL_FACE [false, true])
    false true [] rfl

/-! ### Stack depth under sequences of calls -/

/-- On an initialised controller `pushState` returns, keeps the controller
initialised and adds one entry to the stack of its mode only. -/
theorem pushState_initialised (m1 : RenderMode) (v : Bool) (s : State) (h : s.Initialised) :
    ∃ s1, pushState m1 v s = .ok s1 ∧ s1.Initialised ∧
      (s1.stack m1).length = (s.stack m1).length + 1 ∧
      ∀ m, m ≠ m1 → s1.stack m = s.stack m := by
  obtain ⟨hinit, hne⟩ := h
  obtain ⟨top, below, hstack⟩ := List.exists_cons_of_ne_nil (hne m1)
  rw [pushState_eq m1 v s top below hinit hstack]
  refine ⟨_, rfl, ?_, ?_, ?_⟩
  · refine ⟨?_, ?_⟩
    · split <;> simp [hinit]
    · intro m
      by_cases hm : m = m1
      · subst hm; split <;> simp
      · split <;> simp [setStack_stack_other _ _ _ _ hm, hne m]
  · split <;> simp [hstack]
  · intro m hm
    split <;> simp [setStack_stack_other _ _ _ _ hm]

/-- On an initialised controller `popState` either fails the assertion, the
stack of its mode having depth one and staying as it is, or returns, keeps the
controller initialised and removes one entry from the stack of its mode only. -/
theorem popState_initialised (m1 : RenderMode) (s : State) (h : s.Initialised) :
    ((s.stack m1).length = 1 ∧
      popState m1 s = .fatal .popStateWithoutPush (s.log (.popState m1))) ∨
    (1 < (s.stack m1).length ∧ ∃ s1, popState m1 s = .ok s1 ∧ s1.Initialised ∧
      (s1.stack m1).length + 1 = (s.stack m1).length ∧
      ∀ m, m ≠ m1 → s1.stack m = s.stack m) := by
  obtain ⟨hinit, hne⟩ := h
  obtain ⟨old, rest, hstack⟩ := List.exists_cons_of_ne_nil (hne m1)
  cases rest with
  | nil =>
    left
    exact ⟨by simp [hstack], popState_fatal m1 s (by simp [hstack])⟩
  | cons top below =>
    right
    refine ⟨by simp [hstack], ?_⟩
    rw [popState_eq m1 s old top below hstack]
    refine ⟨_, rfl, ⟨?_, ?_⟩, ?_, ?_⟩
    · split <;> simp [hinit]
    · intro m
      by_cases hm : m = m1
      · subst hm; split <;> simp
      · split <;> simp [setStack_stack_other _ _ _ _ hm, hne m]
    · split <;> simp [hstack]
    · intro m hm
      split <;> simp [setStack_stack_other _ _ _ _ hm]

/-- Logging a call keeps the controller initialised. -/
theorem log_initialised (s : State) (c : Call) (h : s.Initialised) : (s.log c).Initialised :=
  ⟨by simp [h.1], fun m => by simp [h.2 m]⟩

/-- Depth bookkeeping for a run from an initialised controller: a run that
returns has kept the controller initialised and changed the depth of every
stack by pushes minus pops; a run that stops can only have stopped at the
assertion of `popState`, with the controller still initialised. -/
theorem runStateOps_depth (ops : List StateOp) :
    ∀ s : State, s.Initialised →
      (∀ s1, runStateOps ops s = .ok s1 → s1.Initialised ∧
        ∀ m, (s1.stack m).length + ops.countP (StateOp.isPop m) =
          (s.stack m).length + ops.countP (StateOp.isPush m)) ∧
      (∀ f s1, runStateOps ops s = .fatal f s1 →
        f = .popStateWithoutPush ∧ s1.Initialised) := by
  induction ops with
  | nil =>
    intro s hs
    refine ⟨?_, ?_⟩
    · intro s1 h1
      simp only [runStateOps, Outcome.ok.injEq] at h1
      subst h1
      exact ⟨hs, fun m => by simp⟩
    · intro f s1 h1
      simp [runStateOps] at h1
  | cons op ops ih =>
    intro s hs
    cases op with
    | push m1 v =>
      obtain ⟨s2, hpush, hs2, hlen, hoth⟩ := pushState_initialised m1 v s hs
      have hrun : runStateOps (StateOp.push m1 v :: ops) s = runStateOps ops s2 := by
        simp [runStateOps, StateOp.run, hpush, Outcome.andThen]
      rw [hrun]
      refine ⟨?_, (ih s2 hs2).2⟩
      intro s1 h1
      obtain ⟨hi1, hd⟩ := (ih s2 hs2).1 s1 h1
      refine ⟨hi1, fun m => ?_⟩
      have := hd m
      by_cases hm : m = m1
      · subst hm
        simp [List.countP_cons, StateOp.isPush, StateOp.isPop] at this ⊢
        omega
      · have hm2 : ¬ m1 = m := fun h => hm h.symm
        rw [hoth m hm] at this
        simp [List.countP_cons, StateOp.isPush, StateOp.isPop, hm2] at this ⊢
        omega
    | pop m1 =>
      rcases popState_initialised m1 s hs with ⟨_, hfatal⟩ | ⟨_, s2, hpop, hs2, hlen, hoth⟩
      · have hrun : runStateOps (StateOp.pop m1 :: ops) s =
            .fatal .popStateWithoutPush (s.log (.popState m1)) := by
          simp [runStateOps, StateOp.run, hfatal, Outcome.andThen]
        rw [hrun]
        refine ⟨?_, ?_⟩
        · intro s1 h1; simp at h1
        · intro f s1 h1
          simp only [Outcome.fatal.injEq] at h1
          obtain ⟨hf, hs1⟩ := h1
          subst hf; subst hs1
          exact ⟨rfl, log_initialised s _ hs⟩
      · have hrun : runStateOps (StateOp.pop m1 :: ops) s = runStateOps ops s2 := by
          simp [runStateOps, StateOp.run, hpop, Outcome.andThen]
        rw [hrun]
        refine ⟨?_, (ih s2 hs2).2⟩
        intro s1 h1
        obtain ⟨hi1, hd⟩ := (ih s2 hs2).1 s1 h1
        refine ⟨hi1, fun m => ?_⟩
        have := hd m
        by_cases hm : m = m1
        · subst hm
          simp [List.countP_cons, StateOp.isPush, StateOp.isPop] at this ⊢
          omega
        · have hm2 : ¬ m1 = m := fun h => hm h.symm
          rw [hoth m hm] at this
          simp [List.countP_cons, StateOp.isPush, StateOp.isPop, hm2] at this ⊢
          omega

/-- C3: start from an initialised controller whose stack for `m` holds only
its base entry and run any sequence of `pushState` and `popState` calls.  If the
run returns, the depth of the stack of `m` is one plus the pushes minus the pops
on `m` and is at least one; if it stops, it stopped at the assertion of
`popState` and the stack of `m` still has depth at least one.  After a run that
left depth one, `popState m` fails that assertion and leaves the stack as it
is, while `pushState m` always returns and `popState m` returns on any greater
depth. -/
theorem stateStack_depth_invariant (ops : List StateOp) (m : RenderMode) (s : State)
    (hinit : s.Initialised) (hbase : (s.stack m).length = 1) :
    (∀ s1, runStateOps ops s = .ok s1 →
      (s1.stack m).length + ops.countP (StateOp.isPop m) =
        1 + ops.countP (StateOp.isPush m) ∧
      1 ≤ (s1.stack m).length ∧
      (∀ v, ∃ s2, pushState m v s1 = .ok s2) ∧
      ((s1.stack m).length = 1 →
        popState m s1 = .fatal .popStateWithoutPush (s1.log (.popState m)) ∧
        (s1.log (.popState m)).stack m = s1.stack m) ∧
      (1 < (s1.stack m).length → ∃ s2, popState m s1 = .ok s2)) ∧
    (∀ f s1, runStateOps ops s = .fatal f s1 →
      f = .popStateWithoutPush ∧ 1 ≤ (s1.stack m).length) := by
  have hpos : ∀ t : State, t.Initialised → 1 ≤ (t.stack m).length := by
    intro t ht
    have := ht.2 m
    cases hst : t.stack m with
    | nil => exact absurd hst this
    | cons a l => simp
  obtain ⟨hok, hfatal⟩ := runStateOps_depth ops s hinit
  refine ⟨?_, ?_⟩
  · intro s1 h1
    obtain ⟨hi1, hd⟩ := hok s1 h1
    refine ⟨?_, hpos s1 hi1, ?_, ?_, ?_⟩
    · rw [hd m, hbase]
    · intro v
      obtain ⟨s2, h2, _⟩ := pushState_initialised m v s1 hi1
      exact ⟨s2, h2⟩
    · intro h
      exact ⟨popState_fatal m s1 (by omega), log_stack s1 _ m⟩
    · intro h
      rcases popState_initialised m s1 hi1 with ⟨h1, _⟩ | ⟨_, s2, h2, _⟩
      · omega
      · exact ⟨s2, h2⟩
  · intro f s1 h1
    obtain ⟨hf, hi1⟩ := hfatal f s1 h1
    exact ⟨hf, hpos s1 hi1⟩

/-- The freshly initialised controller satisfies the invariant. -/
theorem initialised_Initialised (d : RasterizerDesc) : (State.initialised d).Initialised :=
  ⟨rfl, fun m => by
    have h : (State.initialised d).stack m = true :: (State.fresh d).stack m := by
      cases m <;> rfl
    rw [h]
    exact List.cons_ne_nil _ _⟩

/-- Witness for C3: two pushes and one pop on `DEPTH_TEST` from the freshly
initialised controller (the run returns with depth two), and the same
followed by two more pops (the run stops at the assertion). -/
theorem stateStack_depth_invariant_witness :
    (∃ s1, runStateOps [.push .DEPTH_TEST false, .push .DEPTH_TEST true, .pop .DEPTH_TEST]
        (State.initialised ⟨D3D11_CULL_BACK, true⟩) = .ok s1 ∧ (s1.stack .DEPTH_TEST).length = 2) ∧
    (∃ s1, runStateOps [.push .DEPTH_TEST false, .pop .DEPTH_TEST, .pop .DEPTH_TEST]
        (State.initialised ⟨D3D11_CULL_BACK, true⟩) = .fatal .popStateWithoutPush s1 ∧
      s1.stack .DEPTH_TEST = [true]) ∧
    ((∀ s1, runStateOps [.push .DEPTH_TEST false, .push .DEPTH_TEST true, .pop .DEPTH_TEST]
        (State.initialised ⟨D3D11_CULL_BACK, true⟩) = .ok s1 →
      (s1.stack .DEPTH_TEST).length +
          [StateOp.push .DEPTH_TEST false, .push .DEPTH_TEST true, .pop .DEPTH_TEST].countP
            (StateOp.isPop .DEPTH_TEST) =
        1 + [StateOp.push .DEPTH_TEST false, .push .DEPTH_TEST true, .pop .DEPTH_TEST].countP
            (StateOp.isPush .DEPTH_TEST) ∧
      1 ≤ (s1.stack .DEPTH_TEST).length ∧
      (∀ v, ∃ s2, pushState .DEPTH_TEST v s1 = .ok s2) ∧
      ((s1.stack .DEPTH_TEST).length = 1 →
        popState .DEPTH_TEST s1 =
          .fatal .popStateWithoutPush (s1.log (.popState .DEPTH_TEST)) ∧
        (s1.log (.popState .DEPTH_TEST)).stack .DEPTH_TEST = s1.stack .DEPTH_TEST) ∧
      (1 < (s1.stack .DEPTH_TEST).length → ∃ s2, popState .DEPTH_TEST s1 = .ok s2)) ∧
    (∀ f s1, runStateOps [.push .DEPTH_TEST false, .push .DEPTH_TEST true, .pop .DEPTH_TEST]
        (State.initialised ⟨D3D11_CULL_BACK, true⟩) = .fatal f s1 →
      f = .popStateWithoutPush ∧ 1 ≤ (s1.stack .DEPTH_TEST).length)) :=
  ⟨⟨_, rfl, rfl⟩, ⟨_, rfl, rfl⟩,
    stateStack_depth_invariant
      [.push .DEPTH_TEST false, .push .DEPTH_TEST true, .pop .DEPTH_TEST] .DEPTH_TEST
      (State.initialised ⟨D3D11_CULL_BACK, true⟩)
      (initialised_Initialised _) rfl⟩

/-! ### Rebinding calls in the trace -/

/-- Entering `changeRenderMode` adds no rebinding call. -/
theorem changeRenderMode_rebind (m : RenderMode) (v : Bool) (s : State) :
    (changeRenderMode m v s).trace.filter Call.isRebind = s.trace.filter Call.isRebind := by
  cases m <;> simp [changeRenderMode, State.log, Call.isRebind]

/-- Running `initStates` adds no rebinding call. -/
theorem initStates_rebind (s : State) :
    (initStates s).trace.filter Call.isRebind = s.trace.filter Call.isRebind := by
  simp [initStates, changeRenderMode_rebind, State.log, Call.isRebind]

/-- The only rebinding call `pushState` can add is its own trace entry. -/
theorem pushState_rebind (m : RenderMode) (v : Bool) (s : State) :
    (pushState m v s).state.trace.filter Call.isRebind =
      s.trace.filter Call.isRebind ++ [Call.pushState m v].filter Call.isRebind := by
  unfold pushState
  simp only [runtime_assert, dxStatesContains, if_true]
  have h2 : (if (!(s.log (.pushState m v)).initedStates) = true
      then { initStates (s.log (.pushState m v)) with initedStates := true }
      else s.log (.pushState m v)).trace.filter Call.isRebind =
      s.trace.filter Call.isRebind ++ [Call.pushState m v].filter Call.isRebind := by
    split
    · simp [initStates_rebind]
    · simp
  generalize (if (!(s.log (.pushState m v)).initedStates) = true
      then { initStates (s.log (.pushState m v)) with initedStates := true }
      else s.log (.pushState m v)) = s2 at h2 ⊢
  split
  · exact h2
  · split
    · simp only [Outcome.state, changeRenderMode_rebind, setStack_trace]; exact h2
    · simp only [Outcome.state, setStack_trace]; exact h2

/-- The only rebinding call `popState` can add is its own trace entry. -/
theorem popState_rebind (m : RenderMode) (s : State) :
    (popState m s).state.trace.filter Call.isRebind =
      s.trace.filter Call.isRebind ++ [Call.popState m].filter Call.isRebind := by
  unfold popState
  dsimp only
  split
  · simp [Outcome.state]
  · split
    · split
      · simp [Outcome.state, changeRenderMode_rebind]
      · simp [Outcome.state]
    · simp [Outcome.state]

/-- The state controller does not touch the framebuffer stack (push). -/
theorem pushState_framebuffers (m : RenderMode) (v : Bool) (s : State) :
    (pushState m v s).state.framebuffers = s.framebuffers := by
  unfold pushState
  simp only [runtime_assert, dxStatesContains, if_true]
  have h2 : (if (!(s.log (.pushState m v)).initedStates) = true
      then { initStates (s.log (.pushState m v)) with initedStates := true }
      else s.log (.pushState m v)).framebuffers = s.framebuffers := by
    split
    · simp [initStates]
    · simp
  generalize (if (!(s.log (.pushState m v)).initedStates) = true
      then { initStates (s.log (.pushState m v)) with initedStates := true }
      else s.log (.pushState m v)) = s2 at h2 ⊢
  split
  · exact h2
  · split
    · simp only [Outcome.state, changeRenderMode_framebuffers, setStack_framebuffers]; exact h2
    · simp only [Outcome.state, setStack_framebuffers]; exact h2

/-- The state controller does not touch the framebuffer stack (pop). -/
theorem popState_framebuffers (m : RenderMode) (s : State) :
    (popState m s).state.framebuffers = s.framebuffers := by
  unfold popState
  dsimp only
  split
  · simp [Outcome.state]
  · split
    · split
      · simp [Outcome.state]
      · simp [Outcome.state]
    · simp [Outcome.state]

/-- The two rebinding calls of the shared binding block. -/
theorem bindTop_rebind (top : FrameBufferHandle) (s : State) :
    (bindTop top s).trace.filter Call.isRebind = s.trace.filter Call.isRebind ++
      [Call.RSSetViewports top.width top.height top.hasDepth,
        Call.OMSetRenderTargets top.renderTargetView
          (if top.hasDepth then top.depthStencilView else 0)] := by
  unfold bindTop
  cases top.hasDepth <;>
    simp [dxViewport, OMSetRenderTargets, State.log, Call.isRebind]

/-- The shared binding block does not touch the framebuffer stack. -/
theorem bindTop_framebuffers (top : FrameBufferHandle) (s : State) :
    (bindTop top s).framebuffers = s.framebuffers := by
  unfold bindTop
  cases top.hasDepth <;> simp [dxViewport, OMSetRenderTargets, State.log]

/-- What the clear calls at the end of `pushFrameBuffer` leave untouched. -/
theorem andThen_clear (o : Outcome) (c : Bool) (a b d : Call)
    (ha : a.isRebind = false) (hb : b.isRebind = false) (hd : d.isRebind = false) :
    ((o.andThen fun s => if c = true then .ok ((s.log a).log b) else .ok (s.log d)).state.trace.filter
        Call.isRebind = o.state.trace.filter Call.isRebind) ∧
    (o.andThen fun s => if c = true then .ok ((s.log a).log b) else .ok (s.log d)).state.framebuffers =
      o.state.framebuffers := by
  cases o with
  | ok s => cases c <;> simp [Outcome.andThen, Outcome.state, State.log, ha, hb, hd]
  | fatal f s => simp [Outcome.andThen, Outcome.state]

/-- C4: `pushFrameBuffer h` always pushes `h`, and the rebinding calls it adds to
the trace are the viewport call, the render-target binding and the entry into
`pushState` for `DEPTH_TEST`, in this order, when the view of `h` differs from
the view of the previous top (null for an empty stack), and none when the views
are equal.  `popFrameBuffer` on a non-empty stack always removes the top, and
the rebinding calls it adds are, when the removed view differs from the view of
the new top (null for an emptied stack), the viewport call and binding of the new
top, or the unbinding to the null target on an emptied stack, followed by the
entry into `popState` for `DEPTH_TEST`, and none when the views are equal.
`popFrameBuffer` on an empty stack fails its assertion without changing the
state. -/
theorem frameBufferStack_rebinds_iff_view_changes :
    (∀ (h : FrameBufferHandle) (s : State),
      (pushFrameBuffer h s).state.framebuffers = h :: s.framebuffers ∧
      (pushFrameBuffer h s).state.trace.filter Call.isRebind =
        s.trace.filter Call.isRebind ++
          if h.renderTargetView ≠ topView s.framebuffers then
            [Call.RSSetViewports h.width h.height h.hasDepth,
              Call.OMSetRenderTargets h.renderTargetView
                (if h.hasDepth then h.depthStencilView else 0),
              Call.pushState .DEPTH_TEST h.hasDepth]
          else []) ∧
    (∀ (top : FrameBufferHandle) (rest : List FrameBufferHandle) (s : State),
      s.framebuffers = top :: rest →
      (popFrameBuffer s).state.framebuffers = rest ∧
      (popFrameBuffer s).state.trace.filter Call.isRebind =
        s.trace.filter Call.isRebind ++
          if top.renderTargetView ≠ topView rest then
            (match rest with
              | [] => [Call.OMSetRenderTargets 0 0, Call.popState .DEPTH_TEST]
              | n :: _ =>
                [Call.RSSetViewports n.width n.height n.hasDepth,
                  Call.OMSetRenderTargets n.renderTargetView
                    (if n.hasDepth then n.depthStencilView else 0),
                  Call.popState .DEPTH_TEST])
          else []) ∧
    (∀ s : State, s.framebuffers = [] →
      popFrameBuffer s = .fatal .popFrameBufferWithoutPush s) := by
  refine ⟨?_, ?_, ?_⟩
  · intro h s
    unfold pushFrameBuffer
    dsimp only
    obtain ⟨h1, h2⟩ := andThen_clear
      (if (topView s.framebuffers != topView (h :: s.framebuffers)) = true then
        pushState .DEPTH_TEST h.hasDepth (bindTop h { s with framebuffers := h :: s.framebuffers })
      else .ok { s with framebuffers := h :: s.framebuffers })
      h.hasDepth (.ClearDepthStencilView h.depthStencilView)
      (.ClearRenderTargetView h.renderTargetView) (.ClearRenderTargetView h.renderTargetView)
      rfl rfl rfl
    rw [h1, h2]
    by_cases hv : h.renderTargetView = topView s.framebuffers
    · have hb : (topView s.framebuffers != topView (h :: s.framebuffers)) = false := by
        simp [topView, hv]
      simp [hb, Outcome.state, hv]
    · have hb : (topView s.framebuffers != topView (h :: s.framebuffers)) = true := by
        simp [topView]; exact fun e => hv e.symm
      simp only [hb, if_true, pushState_framebuffers, pushState_rebind, bindTop_rebind,
        bindTop_framebuffers]
      simp [hv, Call.isRebind]
  · intro top rest s hs
    unfold popFrameBuffer
    simp only [runtime_assert, hs, List.isEmpty_cons, Bool.not_false, if_true, List.tail_cons]
    by_cases hv : top.renderTargetView = topView rest
    · have hb : (topView (top :: rest) != topView rest) = false := by
        simp [topView, hv]
      simp [hb, Outcome.state, hv]
    · have hb : (topView (top :: rest) != topView rest) = true := by
        simp [topView]; exact hv
      simp only [hb, if_true, popState_framebuffers, popState_rebind]
      cases rest with
      | nil => simp [hv, OMSetRenderTargets, State.log, Call.isRebind]
      | cons n tl =>
        simp only [bindTop_rebind, bindTop_framebuffers]
        simp [hv, Call.isRebind]
  · intro s hs
    unfold popFrameBuffer
    simp [runtime_assert, hs]

/-- Witness for C4: popping the only framebuffer, whose view is not null, off
the stack of a freshly started backend, and popping the empty stack. -/
theorem frameBufferStack_rebinds_iff_view_changes_witness :
    ((popFrameBuffer { State.fresh ⟨D3D11_CULL_BACK, true⟩ with
        framebuffers := [{ renderTargetView := 7 }] }).state.framebuffers = [] ∧
      (popFrameBuffer { State.fresh ⟨D3D11_CULL_BACK, true⟩ with
        framebuffers := [{ renderTargetView := 7 }] }).state.trace.filter Call.isRebind =
        [Call.OMSetRenderTargets 0 0, Call.popState .DEPTH_TEST]) ∧
    popFrameBuffer (State.fresh ⟨D3D11_CULL_BACK, true⟩) =
      .fatal .popFrameBufferWithoutPush (State.fresh ⟨D3D11_CULL_BACK, true⟩) :=
  ⟨frameBufferStack_rebinds_iff_view_changes.2.1 { renderTargetView := 7 } []
      { State.fresh ⟨D3D11_CULL_BACK, true⟩ with framebuffers := [{ renderTargetView := 7 }] } rfl,
    frameBufferStack_rebinds_iff_view_changes.2.2 (State.fresh ⟨D3D11_CULL_BACK, true⟩) rfl⟩

/-! ### The framebuffer round trip -/

/-- C6: on a freshly started backend, `createMesh` (whose two buffers were
created), `pushFrameBuffer(F1)` for a framebuffer with depth and a non-null
view, `drawMesh` of the mesh and `popFrameBuffer()` all return, and the entries
into `changeRenderMode` for `DEPTH_TEST` in the trace are: none after
`createMesh`, exactly one (enabling) after the push, and still that one after
the draw and after the pop. -/
theorem endToEnd_one_depthTest_change {V I : Type} (vertices : List V) (indices : List I)
    (drawMode depthFunction cullType : Nat) (vb ib : Ptr) (F1 : FrameBufferHandle)
    (d : RasterizerDesc)
    (hdepth : F1.hasDepth = true) (hview : F1.renderTargetView ≠ 0)
    (hvb : vb ≠ 0) (hib : ib ≠ 0) :
    ∃ s2 s3 s4,
      pushFrameBuffer F1 (createMesh vertices indices drawMode vb ib (State.fresh d)).2 = .ok s2 ∧
      drawMesh (createMesh vertices indices drawMode vb ib (State.fresh d)).1
        depthFunction cullType s2 = .ok s3 ∧
      popFrameBuffer s3 = .ok s4 ∧
      (createMesh vertices indices drawMode vb ib (State.fresh d)).2.trace.filter
        (Call.isChangeOf .DEPTH_TEST) = [] ∧
      s2.trace.filter (Call.isChangeOf .DEPTH_TEST) = [Call.changeRenderMode .DEPTH_TEST true] ∧
      s3.trace.filter (Call.isChangeOf .DEPTH_TEST) = [Call.changeRenderMode .DEPTH_TEST true] ∧
      s4.trace.filter (Call.isChangeOf .DEPTH_TEST) = [Call.changeRenderMode .DEPTH_TEST true] := by
  have hv2 : (0 != F1.renderTargetView) = true := by
    simp; exact fun e => hview e.symm
  have hv3 : (F1.renderTargetView != 0) = true := by
    simp; exact hview
  simp [createMesh, State.fresh, pushFrameBuffer, topView, hv2, hv3, bindTop, hdepth, dxViewport,
    OMSetRenderTargets, pushState, runtime_assert, dxStatesContains, initStates, changeRenderMode,
    State.log, State.setStack, State.stack, Outcome.andThen, drawMesh, MeshHandle.operatorBool,
    hvb, hib, popState, popFrameBuffer, Call.isChangeOf, hview]

/-- Witness for C6: a triangle mesh and an 800 by 600 framebuffer with depth. -/
theorem endToEnd_one_depthTest_change_witness :
    ∃ s2 s3 s4,
      pushFrameBuffer
          { renderTargetView := 5, depthStencilView := 6, width := 800, height := 600 }
          (createMesh [0, 1, 2] [0, 1, 2] 0 11 12 (State.fresh ⟨D3D11_CULL_BACK, true⟩)).2 =
        .ok s2 ∧
      drawMesh (createMesh [0, 1, 2] [0, 1, 2] 0 11 12 (State.fresh ⟨D3D11_CULL_BACK, true⟩)).1
        1 2 s2 = .ok s3 ∧
      popFrameBuffer s3 = .ok s4 ∧
      (createMesh [0, 1, 2] [0, 1, 2] 0 11 12 (State.fresh ⟨D3D11_CULL_BACK, true⟩)).2.trace.filter
        (Call.isChangeOf .DEPTH_TEST) = [] ∧
      s2.trace.filter (Call.isChangeOf .DEPTH_TEST) = [Call.changeRenderMode .DEPTH_TEST true] ∧
      s3.trace.filter (Call.isChangeOf .DEPTH_TEST) = [Call.changeRenderMode .DEPTH_TEST true] ∧
      s4.trace.filter (Call.isChangeOf .DEPTH_TEST) = [Call.changeRenderMode .DEPTH_TEST true] :=
  endToEnd_one_depthTest_change [0, 1, 2] [0, 1, 2] 0 1 2 11 12
    { renderTargetView := 5, depthStencilView := 6, width := 800, height := 600 }
    ⟨D3D11_CULL_BACK, true⟩ rfl (by decide) (by decide) (by decide)

/-! ### Invalid handles -/

/-- C7 (amended): `drawMesh` called with a default-constructed `MeshHandle`, or
with any `MeshHandle` whose validity conversion is false, fails the assertion
in the very state it was called in: no state is pushed and nothing is drawn. -/
theorem drawMesh_invalid_handle_fatal :
    (∀ (depthFunction cullType : Nat) (s : State),
      drawMesh {} depthFunction cullType s = .fatal .invalidMeshHandle s) ∧
    (∀ (h : MeshHandle) (depthFunction cullType : Nat) (s : State),
      h.operatorBool = false →
      drawMesh h depthFunction cullType s = .fatal .invalidMeshHandle s) := by
  refine ⟨?_, ?_⟩
  · intro depthFunction cullType s
    rfl
  · intro h depthFunction cullType s hinv
    simp [drawMesh, runtime_assert, hinv]

/-- Witness for C7 (amended): a handle whose index buffer is null. -/
theorem drawMesh_invalid_handle_fatal_witness :
    drawMesh { vertexBuffer := 11 } 1 2 (State.initialised ⟨D3D11_CULL_BACK, true⟩) =
      .fatal .invalidMeshHandle (State.initialised ⟨D3D11_CULL_BACK, true⟩) :=
  drawMesh_invalid_handle_fatal.2 { vertexBuffer := 11 } 1 2
    (State.initialised ⟨D3D11_CULL_BACK, true⟩) rfl

/-- Counterexample to C7 as stated: a handle with both buffers set is passed
to `destroyMesh`, which returns; `drawMesh` with the same handle value then
passes the assertion, pushes the `CULL_FACE` state and issues the draw call. -/
theorem drawMesh_after_destroyMesh_draws :
    ∃ s1 s2,
      destroyMesh { vertexBuffer := 11, indexBuffer := 12, numIndices := 3 }
        (State.initialised ⟨D3D11_CULL_BACK, true⟩) = .ok s1 ∧
      drawMesh { vertexBuffer := 11, indexBuffer := 12, numIndices := 3 } 1 2 s1 = .ok s2 ∧
      Call.pushState .CULL_FACE true ∈ s2.trace ∧
      Call.glDrawElements 3 ∈ s2.trace :=
  ⟨_, _, rfl, rfl, by decide, by decide⟩

/-- C8 (amended): `destroyFrameBuffer` returns without releasing anything, in
an unchanged state, for every `FrameBufferHandle` on which `operator!` holds
(such a handle converts to false; the default-constructed handle is one);
`destroyMesh` on a `MeshHandle` whose validity conversion is false releases
nothing either but fails its assertion. -/
theorem destroy_invalid_handle :
    (∀ (h : FrameBufferHandle) (s : State), h.operatorNot = true →
      h.operatorBool = false ∧ destroyFrameBuffer h s = .ok s) ∧
    (∀ s : State, destroyFrameBuffer {} s = .ok s) ∧
    (∀ (h : MeshHandle) (s : State), h.operatorBool = false →
      destroyMesh h s = .fatal .invalidMeshHandle s) := by
  refine ⟨?_, ?_, ?_⟩
  · intro h s hnot
    refine ⟨?_, ?_⟩
    · simp [FrameBufferHandle.operatorNot] at hnot
      simp [FrameBufferHandle.operatorBool, hnot.1]
    · simp [destroyFrameBuffer, hnot]
  · intro s
    rfl
  · intro h s hinv
    simp [destroyMesh, runtime_assert, hinv]

/-- Witness for C8 (amended): a framebuffer handle without depth whose views are
null, and a mesh handle whose vertex buffer is null. -/
theorem destroy_invalid_handle_witness :
    (({ hasDepth := false } : FrameBufferHandle).operatorBool = false ∧
      destroyFrameBuffer { hasDepth := false } (State.fresh ⟨D3D11_CULL_BACK, true⟩) =
        .ok (State.fresh ⟨D3D11_CULL_BACK, true⟩)) ∧
    destroyMesh { indexBuffer := 12 } (State.fresh ⟨D3D11_CULL_BACK, true⟩) =
      .fatal .invalidMeshHandle (State.fresh ⟨D3D11_CULL_BACK, true⟩) :=
  ⟨destroy_invalid_handle.1 { hasDepth := false } (State.fresh ⟨D3D11_CULL_BACK, true⟩) rfl,
    destroy_invalid_handle.2.2 { indexBuffer := 12 } (State.fresh ⟨D3D11_CULL_BACK, true⟩) rfl⟩

/-- Counterexample to C8 as stated: the default-constructed `MeshHandle`
converts to false, and `destroyMesh` on it fails the assertion instead of
returning. -/
theorem destroyMesh_default_handle_fails :
    ({} : MeshHandle).operatorBool = false ∧
    destroyMesh {} (State.fresh ⟨D3D11_CULL_BACK, true⟩) =
      .fatal .invalidMeshHandle (State.fresh ⟨D3D11_CULL_BACK, true⟩) ∧
    ∀ s1, destroyMesh {} (State.fresh ⟨D3D11_CULL_BACK, true⟩) ≠ .ok s1 :=
  ⟨rfl, rfl, fun s1 h => by
    have h2 : destroyMesh {} (State.fresh ⟨D3D11_CULL_BACK, true⟩) =
        .fatal .invalidMeshHandle (State.fresh ⟨D3D11_CULL_BACK, true⟩) := rfl
    rw [h2] at h
    exact Outcome.noConfusion h⟩

/-! ### Key dispatch -/

/-- The loop of `keyboardCallback` appends the matching bindings in order. -/
theorem keyboardCallbackLoop_eq (key action : Int) (ks : List Keybind) :
    ∀ ran : List Keybind, keyboardCallbackLoop key action ks ran =
      ran ++ ks.filter (fun k => k.button == key && k.action == action) := by
  induction ks with
  | nil => intro ran; simp [keyboardCallbackLoop]
  | cons k ks ih =>
    intro ran
    unfold keyboardCallbackLoop
    by_cases hk : (k.button == key && k.action == action) = true
    · rw [if_pos hk, ih, List.filter_cons, if_pos hk]
      simp
    · rw [if_neg hk, ih, List.filter_cons, if_neg hk]

/-- C9: `keyboardCallback` runs nothing when the action is `GLFW_REPEAT`;
otherwise the bindings it runs are exactly the registered bindings whose button
is the key and whose action is the action of the event, each once and in
registration order (the filtered registration list).  In particular every
binding it runs is registered for that key and that action, and every
registered binding for that key and action is run. -/
theorem keyboardCallback_dispatch (keybinds : List Keybind) (key scancode action mods : Int) :
    keyboardCallback keybinds key scancode action mods =
      (if action = GLFW_REPEAT then []
        else keybinds.filter (fun k => k.button == key && k.action == action)) ∧
    (∀ k, k ∈ keyboardCallback keybinds key scancode action mods ↔
      (action ≠ GLFW_REPEAT ∧ k ∈ keybinds ∧ k.button = key ∧ k.action = action)) ∧
    (keyboardCallback keybinds key scancode action mods).Sublist keybinds := by
  have h : keyboardCallback keybinds key scancode action mods =
      (if action = GLFW_REPEAT then []
        else keybinds.filter (fun k => k.button == key && k.action == action)) := by
    unfold keyboardCallback
    by_cases ha : action = GLFW_REPEAT
    · simp [ha]
    · have hb : (action == GLFW_REPEAT) = false := by simpa using ha
      rw [if_neg ha, keyboardCallbackLoop_eq]
      simp [hb]
  refine ⟨h, ?_, ?_⟩
  · intro k
    rw [h]
    by_cases ha : action = GLFW_REPEAT
    · simp [ha]
    · simp [ha, List.mem_filter]
  · rw [h]
    by_cases ha : action = GLFW_REPEAT
    · simp [ha]
    · simp only [ha, if_false]
      exact List.filter_sublist _

/-- The loops of the key cases of `refreshWindows` append the matching key
events in order. -/
theorem keyEventLoop_eq (sym : Int) (type : KeyEventType) (es : List KeyEvent) :
    ∀ ran : List KeyEvent, keyEventLoop sym type es ran =
      ran ++ es.filter (fun e => e.event == sym && e.eventType == type) := by
  induction es with
  | nil => intro ran; simp [keyEventLoop]
  | cons e es ih =>
    intro ran
    unfold keyEventLoop
    by_cases he : (e.event == sym && e.eventType == type) = true
    · rw [if_pos he, ih, List.filter_cons, if_pos he]
      simp
    · rw [if_neg he, ih, List.filter_cons, if_neg he]

/-- C10, the code at the failing input: what the `SDL_KEYDOWN` case invokes does
not depend on `key.repeat`, it is always every `PRESSED` event registered for
the key.  With a `PRESSED` key event registered for key 97, an `SDL_KEYDOWN` for
that key that is an auto-repeat (`key.repeat` is 1) therefore invokes the
`PRESSED` event, exactly as a first key-down does. -/
theorem refreshWindowsKey_autoRepeat_runs_pressed :
    (∀ (events : List KeyEvent) (sym : Int) (keyRepeat : Nat),
      refreshWindowsKey events (.SDL_KEYDOWN sym keyRepeat) =
        events.filter (fun e => e.event == sym && e.eventType == .PRESSED)) ∧
    refreshWindowsKey [⟨97, .PRESSED, 0⟩, ⟨97, .RELEASED, 1⟩, ⟨97, .REPEATED, 2⟩]
        (.SDL_KEYDOWN 97 1) = [⟨97, .PRESSED, 0⟩] ∧
    refreshWindowsKey [⟨97, .PRESSED, 0⟩, ⟨97, .RELEASED, 1⟩, ⟨97, .REPEATED, 2⟩]
        (.SDL_KEYDOWN 97 0) = [⟨97, .PRESSED, 0⟩] := by
  refine ⟨?_, by decide, by decide⟩
  intro events sym keyRepeat
  simp [refreshWindowsKey, keyEventLoop_eq]

/-! ### Input dispatch of the engine core -/

/-- The loop of `keyboardRepeatingCallback` appends the matching bindings in
order. -/
theorem keyboardRepeatingCallbackLoop_eq (held : Int → Bool) (ks : List Keybind) :
    ∀ ran : List Keybind, keyboardRepeatingCallbackLoop held ks ran =
      ran ++ ks.filter (fun k => held k.button && k.action == GLFW_REPEAT) := by
  induction ks with
  | nil => intro ran; simp [keyboardRepeatingCallbackLoop]
  | cons k ks ih =>
    intro ran
    unfold keyboardRepeatingCallbackLoop
    by_cases hk : (held k.button && k.action == GLFW_REPEAT) = true
    · rw [if_pos hk, ih, List.filter_cons, if_pos hk]
      simp
    · rw [if_neg hk, ih, List.filter_cons, if_neg hk]

/-- The loop of `mouseButtonRepeatingCallback` appends the matching bindings in
order. -/
theorem mouseButtonRepeatingCallbackLoop_eq (held : Int → Bool) (ks : List Keybind) :
    ∀ ran : List Keybind, mouseButtonRepeatingCallbackLoop held ks ran =
      ran ++ ks.filter (fun k => k.mouse && (held k.button && k.action == GLFW_REPEAT)) := by
  induction ks with
  | nil => intro ran; simp [mouseButtonRepeatingCallbackLoop]
  | cons k ks ih =>
    intro ran
    unfold mouseButtonRepeatingCallbackLoop
    by_cases hk : (k.mouse && (held k.button && k.action == GLFW_REPEAT)) = true
    · rw [if_pos hk, ih, List.filter_cons, if_pos hk]
      simp
    · rw [if_neg hk, ih, List.filter_cons, if_neg hk]

/-- The loops over the mouse bindings append one run per binding of the type,
in order. -/
theorem mousebindLoop_eq (type : MouseActions) (x y : ℚ) (bs : List Mousebind) :
    ∀ ran : List Action, mousebindLoop type x y bs ran =
      ran ++ (bs.filter (fun b => b.type == type)).map (fun b => Action.runMousebind b x y) := by
  induction bs with
  | nil => intro ran; simp [mousebindLoop]
  | cons b bs ih =>
    intro ran
    unfold mousebindLoop
    by_cases hb : (b.type == type) = true
    · rw [if_pos hb, ih, List.filter_cons, if_pos hb]
      simp
    · rw [if_neg hb, ih, List.filter_cons, if_neg hb]

/-- C12: `preInit` leaves the previous cursor position at its unseeded value
`(-1, -1)`; called in such a state, `mouseMovementCallback(x, y)` runs every
`MOVE` binding, in registration order, with the offset `(0, 0)`, runs nothing
else, and records `(x, y)` as the previous position. -/
theorem mouseMovementCallback_first_sample :
    (∀ (loader : Ptr) (e : Engine),
      (Engine.preInit loader e).lastMouseX = -1 ∧ (Engine.preInit loader e).lastMouseY = -1) ∧
    (∀ (xPos yPos : ℚ) (e : Engine), e.lastMouseX = -1 → e.lastMouseY = -1 →
      (Engine.mouseMovementCallback xPos yPos e).actions =
        e.actions ++ Action.mouseMovementCallback xPos yPos ::
          (e.mousebinds.filter (fun b => b.type == .MOVE)).map
            (fun b => Action.runMousebind b 0 0) ∧
      (Engine.mouseMovementCallback xPos yPos e).lastMouseX = xPos ∧
      (Engine.mouseMovementCallback xPos yPos e).lastMouseY = yPos) := by
  refine ⟨fun loader e => ⟨rfl, rfl⟩, ?_⟩
  intro xPos yPos e hx hy
  simp [Engine.mouseMovementCallback, Engine.act, Engine.acts, hx, hy, mousebindLoop_eq]

/-- Witness for C12: the first movement callback after `preInit`, at the cursor
position `(-1, 7/2)`, with a `MOVE` and a `SCROLL` binding registered. -/
theorem mouseMovementCallback_first_sample_witness :
    (Engine.mouseMovementCallback (-1) (7 / 2)
        { Engine.preInit 1 Engine.start with mousebinds := [⟨.MOVE, 0⟩, ⟨.SCROLL, 1⟩] }).actions =
      { Engine.preInit 1 Engine.start with
          mousebinds := [⟨.MOVE, 0⟩, ⟨.SCROLL, 1⟩] }.actions ++
        Action.mouseMovementCallback (-1) (7 / 2) ::
          (({ Engine.preInit 1 Engine.start with
              mousebinds := [⟨.MOVE, 0⟩, ⟨.SCROLL, 1⟩] } : Engine).mousebinds.filter
            (fun b => b.type == .MOVE)).map (fun b => Action.runMousebind b 0 0) ∧
    (Engine.mouseMovementCallback (-1) (7 / 2)
        { Engine.preInit 1 Engine.start with
          mousebinds := [⟨.MOVE, 0⟩, ⟨.SCROLL, 1⟩] }).lastMouseX = -1 ∧
    (Engine.mouseMovementCallback (-1) (7 / 2)
        { Engine.preInit 1 Engine.start with
          mousebinds := [⟨.MOVE, 0⟩, ⟨.SCROLL, 1⟩] }).lastMouseY = 7 / 2 :=
  mouseMovementCallback_first_sample.2 (-1) (7 / 2)
    { Engine.preInit 1 Engine.start with mousebinds := [⟨.MOVE, 0⟩, ⟨.SCROLL, 1⟩] } rfl rfl

/-! ### The frame loop -/

/-- The registered functions are called in registration order, each once. -/
theorem callRegisteredFunctions_eq (funcs : List Nat) :
    ∀ e : Engine, callRegisteredFunctions funcs e = e.acts (funcs.map Action.call) := by
  induction funcs with
  | nil => intro e; simp [callRegisteredFunctions, Engine.acts]
  | cons f fs ih =>
    intro e
    simp [callRegisteredFunctions, ih, Engine.acts, Engine.act]

/-- Delivering one platform event only appends event-delivery actions and may
move the previous cursor position. -/
theorem deliver_eq (ev : PlatformEvent) (e : Engine) :
    ∃ seg x y, ev.deliver e =
        { e with actions := e.actions ++ seg, lastMouseX := x, lastMouseY := y } ∧
      ∀ a ∈ seg, a.isEventDelivery = true := by
  cases ev with
  | key k scancode action mods =>
    refine ⟨Action.keyboardCallback k action ::
      (keyboardCallback e.keybinds k scancode action mods).map Action.runKeybind,
      e.lastMouseX, e.lastMouseY, ?_, ?_⟩
    · simp [PlatformEvent.deliver, Engine.keyboardCallback, Engine.act, Engine.acts]
    · intro a ha
      simp only [List.mem_cons, List.mem_map] at ha
      rcases ha with rfl | ⟨k1, _, rfl⟩ <;> rfl
  | mouseButton button action mods =>
    refine ⟨Action.mouseButtonCallback button action ::
      (mouseButtonCallback e.keybinds button action mods).map Action.runKeybind,
      e.lastMouseX, e.lastMouseY, ?_, ?_⟩
    · simp [PlatformEvent.deliver, Engine.mouseButtonCallback, Engine.act, Engine.acts]
    · intro a ha
      simp only [List.mem_cons, List.mem_map] at ha
      rcases ha with rfl | ⟨k1, _, rfl⟩ <;> rfl
  | cursorPos xPos yPos =>
    refine ⟨Action.mouseMovementCallback xPos yPos ::
      (e.mousebinds.filter (fun b => b.type == .MOVE)).map
        (fun b => Action.runMousebind b
          (xPos - (if e.lastMouseX == -1 then xPos else e.lastMouseX))
          (yPos - (if e.lastMouseY == -1 then yPos else e.lastMouseY))),
      xPos, yPos, ?_, ?_⟩
    · simp only [PlatformEvent.deliver, Engine.mouseMovementCallback, Engine.act, Engine.acts,
        mousebindLoop_eq]
      by_cases hx : e.lastMouseX = -1 <;> by_cases hy : e.lastMouseY = -1 <;>
        simp [hx, hy]
    · intro a ha
      simp only [List.mem_cons, List.mem_map] at ha
      rcases ha with rfl | ⟨b, _, rfl⟩ <;> rfl
  | scroll xPos yPos =>
    refine ⟨Action.mouseScrollCallback xPos yPos ::
      (e.mousebinds.filter (fun b => b.type == .SCROLL)).map
        (fun b => Action.runMousebind b xPos yPos),
      e.lastMouseX, e.lastMouseY, ?_, ?_⟩
    · simp [PlatformEvent.deliver, Engine.mouseScrollCallback, Engine.act, Engine.acts,
        mousebindLoop_eq]
    · intro a ha
      simp only [List.mem_cons, List.mem_map] at ha
      rcases ha with rfl | ⟨b, _, rfl⟩ <;> rfl

/-- A poll only appends event-delivery actions and may move the previous
cursor position. -/
theorem glfwPollEvents_eq (evs : List PlatformEvent) :
    ∀ e : Engine, ∃ seg x y, glfwPollEvents evs e =
        { e with actions := e.actions ++ seg, lastMouseX := x, lastMouseY := y } ∧
      ∀ a ∈ seg, a.isEventDelivery = true := by
  induction evs with
  | nil =>
    intro e
    exact ⟨[], e.lastMouseX, e.lastMouseY, by simp [glfwPollEvents], by simp⟩
  | cons ev evs ih =>
    intro e
    obtain ⟨seg1, x1, y1, h1, hs1⟩ := deliver_eq ev e
    obtain ⟨seg2, x2, y2, h2, hs2⟩ := ih (ev.deliver e)
    refine ⟨seg1 ++ seg2, x2, y2, ?_, ?_⟩
    · simp only [glfwPollEvents, h2]
      rw [h1]
      simp
    · intro a ha
      rcases List.mem_append.mp ha with h | h
      · exact hs1 a h
      · exact hs2 a h

/-- What `render` does when the scene root and the script provider exist. -/
theorem render_eq (env : Env) (e : Engine) (hr : e.root ≠ 0) (ha : e.angelscript ≠ 0) :
    e.render env = .ok { e with
      lastTime := e.currentTime,
      currentTime := env.glfwGetTime e.samples,
      samples := e.samples + 1,
      actions := e.actions ++
        ([Action.glClear, .glfwGetTime (env.glfwGetTime e.samples), .uboUpdate,
          .ImGui_ImplOpenGL3_NewFrame, .ImGui_ImplGlfw_NewFrame, .ImGui_NewFrame] ++
        e.renderFunctions.map Action.call ++
        [Action.angelscriptRender (env.glfwGetTime e.samples - e.currentTime),
          .rootRender, .ImGui_Render, .ImGui_ImplOpenGL3_RenderDrawData]) } := by
  have hr1 : (e.root != 0) = true := by simpa using hr
  have ha1 : (e.angelscript != 0) = true := by simpa using ha
  simp [Engine.render, Engine.sampleTime, deref, Engine.act, callRegisteredFunctions_eq,
    Engine.acts, Engine.getDeltaTime, hr1, ha1, hr, ha]

/-- What one iteration of the loop does when the subsystems it uses exist. -/
theorem iteration_eq (env : Env) (i : Nat) (e : Engine)
    (hp : e.physicsProvider ≠ 0) (hs : e.soundManager ≠ 0)
    (hr : e.root ≠ 0) (ha : e.angelscript ≠ 0) :
    ∃ delivered x y, e.iteration env i = .ok { e with
        lastTime := e.currentTime,
        currentTime := env.glfwGetTime e.samples,
        samples := e.samples + 1,
        lastMouseX := x,
        lastMouseY := y,
        actions := e.actions ++ frameOrder env i e delivered } ∧
      ∀ a ∈ delivered, a.isEventDelivery = true := by
  have hR := render_eq env (e.act (.updatePhysics e.getDeltaTime)) hr ha
  obtain ⟨seg, x, y, hpoll, hseg⟩ := glfwPollEvents_eq (env.events i)
    { e with
      lastTime := e.currentTime,
      currentTime := env.glfwGetTime e.samples,
      samples := e.samples + 1,
      actions := e.actions ++
        ([Action.updatePhysics (e.currentTime - e.lastTime),
          .glClear, .glfwGetTime (env.glfwGetTime e.samples), .uboUpdate,
          .ImGui_ImplOpenGL3_NewFrame, .ImGui_ImplGlfw_NewFrame, .ImGui_NewFrame] ++
        e.renderFunctions.map Action.call ++
        [Action.angelscriptRender (env.glfwGetTime e.samples - e.currentTime),
          .rootRender, .ImGui_Render, .ImGui_ImplOpenGL3_RenderDrawData,
          .setListenerPosition, .setListenerRotation, .soundManagerUpdate,
          .glfwSwapBuffers, .glfwPollEvents]) }
  refine ⟨seg, x, y, ?_, hseg⟩
  have hp1 : (e.physicsProvider != 0) = true := by simpa using hp
  have hs1 : (e.soundManager != 0) = true := by simpa using hs
  have hr1 : (e.root != 0) = true := by simpa using hr
  simp only [Engine.iteration, deref, hp1, if_true, hR, Run.andThen]
  simp only [Engine.act, Engine.getDeltaTime, hs1, hr1, if_true, List.append_assoc,
    List.cons_append, List.nil_append] at hpoll ⊢
  rw [hpoll]
  cases hd : env.discordInitialized i <;>
    simp [Engine.keyboardRepeatingCallback, Engine.mouseButtonRepeatingCallback,
      Engine.act, Engine.acts, frameOrder, hd]

/-- Event deliveries are not entries into a repeat pass, read no clock and are
handed no delta. -/
theorem filter_of_eventDelivery (l : List Action) (h : ∀ a ∈ l, a.isEventDelivery = true) :
    l.filter Action.isRepeatPass = [] ∧ l.filter Action.isTiming = [] := by
  refine ⟨?_, ?_⟩ <;>
  · rw [List.filter_eq_nil_iff]
    intro a ha
    have := h a ha
    cases a <;> simp_all [Action.isEventDelivery, Action.isRepeatPass, Action.isTiming]

/-- Runs of key bindings are not entries into a repeat pass, read no clock and
are handed no delta. -/
theorem filter_map_runKeybind (l : List Keybind) :
    (l.map Action.runKeybind).filter Action.isRepeatPass = [] ∧
    (l.map Action.runKeybind).filter Action.isTiming = [] := by
  refine ⟨?_, ?_⟩ <;>
  · rw [List.filter_eq_nil_iff]
    intro a ha
    obtain ⟨k, _, rfl⟩ := List.mem_map.mp ha
    simp [Action.isRepeatPass, Action.isTiming]

/-- Calls of registered functions are not entries into a repeat pass, read no
clock and are handed no delta. -/
theorem filter_map_call (l : List Nat) :
    (l.map Action.call).filter Action.isRepeatPass = [] ∧
    (l.map Action.call).filter Action.isTiming = [] := by
  refine ⟨?_, ?_⟩ <;>
  · rw [List.filter_eq_nil_iff]
    intro a ha
    obtain ⟨k, _, rfl⟩ := List.mem_map.mp ha
    simp [Action.isRepeatPass, Action.isTiming]

/-- The entries into the repeat passes within one frame. -/
theorem frameOrder_repeatPass (env : Env) (i : Nat) (e : Engine) (delivered : List Action)
    (h : ∀ a ∈ delivered, a.isEventDelivery = true) :
    (frameOrder env i e delivered).filter Action.isRepeatPass =
      [Action.keyboardRepeatingCallback, Action.mouseButtonRepeatingCallback] := by
  unfold frameOrder
  simp only [List.filter_append, List.filter_cons, (filter_of_eventDelivery delivered h).1,
    (filter_map_runKeybind _).1, (filter_map_call _).1]
  cases env.discordInitialized i <;> simp [Action.isRepeatPass]

/-- The clock reads and handed deltas within one frame. -/
theorem frameOrder_timing (env : Env) (i : Nat) (e : Engine) (delivered : List Action)
    (h : ∀ a ∈ delivered, a.isEventDelivery = true) :
    (frameOrder env i e delivered).filter Action.isTiming =
      [Action.updatePhysics (e.currentTime - e.lastTime),
        Action.glfwGetTime (env.glfwGetTime e.samples),
        Action.angelscriptRender (env.glfwGetTime e.samples - e.currentTime)] := by
  unfold frameOrder
  simp only [List.filter_append, List.filter_cons, (filter_of_eventDelivery delivered h).2,
    (filter_map_runKeybind _).2, (filter_map_call _).2]
  cases env.discordInitialized i <;> simp [Action.isTiming]

/-- C11: `keyboardRepeatingCallback` runs exactly the bindings whose key is
reported as held and whose action is `GLFW_REPEAT`, in registration order;
`mouseButtonRepeatingCallback` runs exactly the bindings flagged as mouse
bindings whose button is reported as held and whose action is `GLFW_REPEAT`;
neither runs a binding whose action is `GLFW_PRESS` or `GLFW_RELEASE`; and one
iteration of the loop enters each of the two passes exactly once, the keyboard
pass first, whatever events the poll of that iteration delivered. -/
theorem repeatPass_dispatch :
    (∀ (keybinds : List Keybind) (held : Int → Bool),
      keyboardRepeatingCallback keybinds held =
        keybinds.filter (fun k => held k.button && k.action == GLFW_REPEAT)) ∧
    (∀ (keybinds : List Keybind) (held : Int → Bool),
      mouseButtonRepeatingCallback keybinds held =
        keybinds.filter (fun k => k.mouse && (held k.button && k.action == GLFW_REPEAT))) ∧
    (∀ (keybinds : List Keybind) (held : Int → Bool) (k : Keybind),
      (k ∈ keyboardRepeatingCallback keybinds held ∨
        k ∈ mouseButtonRepeatingCallback keybinds held) →
      k.action = GLFW_REPEAT ∧ k.action ≠ GLFW_PRESS ∧ k.action ≠ GLFW_RELEASE) ∧
    (∀ (env : Env) (i : Nat) (e : Engine),
      e.physicsProvider ≠ 0 → e.soundManager ≠ 0 → e.root ≠ 0 → e.angelscript ≠ 0 →
      ∃ seg, (e.iteration env i).engine.actions = e.actions ++ seg ∧
        seg.filter Action.isRepeatPass =
          [Action.keyboardRepeatingCallback, Action.mouseButtonRepeatingCallback]) := by
  have h1 : ∀ (keybinds : List Keybind) (held : Int → Bool),
      keyboardRepeatingCallback keybinds held =
        keybinds.filter (fun k => held k.button && k.action == GLFW_REPEAT) := by
    intro keybinds held
    simp [keyboardRepeatingCallback, keyboardRepeatingCallbackLoop_eq]
  have h2 : ∀ (keybinds : List Keybind) (held : Int → Bool),
      mouseButtonRepeatingCallback keybinds held =
        keybinds.filter (fun k => k.mouse && (held k.button && k.action == GLFW_REPEAT)) := by
    intro keybinds held
    simp [mouseButtonRepeatingCallback, mouseButtonRepeatingCallbackLoop_eq]
  refine ⟨h1, h2, ?_, ?_⟩
  · intro keybinds held k hk
    have hrep : k.action = GLFW_REPEAT := by
      rcases hk with hk | hk
      · rw [h1] at hk
        simp [List.mem_filter] at hk
        exact hk.2.2
      · rw [h2] at hk
        simp [List.mem_filter] at hk
        exact hk.2.2.2
    rw [hrep]
    exact ⟨rfl, by decide, by decide⟩
  · intro env i e hp hs hr ha
    obtain ⟨delivered, x, y, hit, hdel⟩ := iteration_eq env i e hp hs hr ha
    exact ⟨frameOrder env i e delivered, by rw [hit]; rfl,
      frameOrder_repeatPass env i e delivered hdel⟩

/-- Witness for C11: an iteration of an engine whose four subsystems exist, with
a `REPEAT` and a `PRESS` binding registered for key 65 and a poll that delivers
three key events. -/
theorem repeatPass_dispatch_witness :
    ∃ seg, (Engine.iteration
        { glfwGetTime := fun k => (k : ℚ), glfwWindowShouldClose := fun _ => false,
          events := fun _ => [.key 65 0 1 0, .key 65 0 2 0, .key 65 0 0 0],
          glfwGetKey := fun _ key => key == 65, glfwGetMouseButton := fun _ _ => false,
          discordInitialized := fun _ => false }
        0
        { Engine.start with
          physicsProvider := 1, soundManager := 2, root := 3, angelscript := 4,
          keybinds := [⟨65, 2, false, 0⟩, ⟨65, 1, false, 1⟩] }).engine.actions =
      ({ Engine.start with
          physicsProvider := 1, soundManager := 2, root := 3, angelscript := 4,
          keybinds := [⟨65, 2, false, 0⟩, ⟨65, 1, false, 1⟩] } : Engine).actions ++ seg ∧
      seg.filter Action.isRepeatPass =
        [Action.keyboardRepeatingCallback, Action.mouseButtonRepeatingCallback] :=
  repeatPass_dispatch.2.2.2
    { glfwGetTime := fun k => (k : ℚ), glfwWindowShouldClose := fun _ => false,
      events := fun _ => [.key 65 0 1 0, .key 65 0 2 0, .key 65 0 0 0],
      glfwGetKey := fun _ key => key == 65, glfwGetMouseButton := fun _ _ => false,
      discordInitialized := fun _ => false }
    0
    { Engine.start with
      physicsProvider := 1, soundManager := 2, root := 3, angelscript := 4,
      keybinds := [⟨65, 2, false, 0⟩, ⟨65, 1, false, 1⟩] }
    (by decide) (by decide) (by decide) (by decide)

/-- Sequencing is associative. -/
theorem Run.andThen_assoc (r : Run) (f g : Engine → Run) :
    (r.andThen f).andThen g = r.andThen fun e => (f e).andThen g := by
  cases r <;> rfl

/-- The loop runs the iterations for which the close flag is unset and then
calls `stop`. -/
theorem runLoop_closes (env : Env) (n : Nat) :
    ∀ (fuel i : Nat) (e : Engine),
      (∀ j, j < n → env.glfwWindowShouldClose (i + j) = false) →
      env.glfwWindowShouldClose (i + n) = true → n < fuel →
      Engine.runLoop env fuel i e =
        (Engine.iterations env n i e).andThen (Engine.stop env (i + n)) := by
  induction n with
  | zero =>
    intro fuel i e _ hclose hfuel
    obtain ⟨f, rfl⟩ : ∃ f, fuel = f + 1 := ⟨fuel - 1, by omega⟩
    simp only [Nat.add_zero] at hclose
    simp [Engine.runLoop, Engine.iterations, Run.andThen, hclose]
  | succ n ih =>
    intro fuel i e hopen hclose hfuel
    obtain ⟨f, rfl⟩ : ∃ f, fuel = f + 1 := ⟨fuel - 1, by omega⟩
    have h0 : env.glfwWindowShouldClose i = false := by simpa using hopen 0 (by omega)
    have hstep : ∀ e1 : Engine, Engine.runLoop env f (i + 1) e1 =
        (Engine.iterations env n (i + 1) e1).andThen (Engine.stop env (i + (n + 1))) := by
      intro e1
      have := ih f (i + 1) e1
        (fun j hj => by
          have := hopen (j + 1) (by omega)
          rwa [show i + (j + 1) = i + 1 + j by omega] at this)
        (by rwa [show i + 1 + n = i + (n + 1) by omega])
        (by omega)
      rwa [show i + 1 + n = i + (n + 1) by omega] at this
    simp only [Engine.runLoop, h0, Bool.false_eq_true, if_false, Engine.iterations,
      Run.andThen_assoc]
    congr 1
    funext e1
    exact hstep e1

/-- While the close flag stays unset the loop only runs iterations. -/
theorem runLoop_open (env : Env) (fuel : Nat) :
    ∀ (i : Nat) (e : Engine),
      (∀ j, j < fuel → env.glfwWindowShouldClose (i + j) = false) →
      Engine.runLoop env fuel i e = (Engine.iterations env fuel i e).andThen Run.unfinished := by
  induction fuel with
  | zero =>
    intro i e _
    simp [Engine.runLoop, Engine.iterations, Run.andThen]
  | succ f ih =>
    intro i e hopen
    have h0 : env.glfwWindowShouldClose i = false := by simpa using hopen 0 (by omega)
    simp only [Engine.runLoop, h0, Bool.false_eq_true, if_false, Engine.iterations,
      Run.andThen_assoc]
    congr 1
    funext e1
    exact ih (i + 1) e1 (fun j hj => by
      have := hopen (j + 1) (by omega)
      rwa [show i + (j + 1) = i + 1 + j by omega] at this)

/-- C15: an iteration of the loop of `run`, on an engine whose physics provider,
sound manager, scene root and script provider exist, returns and appends the
actions of one frame in exactly the order `frameOrder` lists, the poll
delivering only platform events.  If the close flag is unset at the first `n`
loop tests and set at the next one, `run` is the clock sample, those `n`
iterations and then one call of `stop`; and as long as the close flag is
unset, `run` consists of iterations only. -/
theorem run_frame_order :
    (∀ (env : Env) (i : Nat) (e : Engine),
      e.physicsProvider ≠ 0 → e.soundManager ≠ 0 → e.root ≠ 0 → e.angelscript ≠ 0 →
      ∃ delivered e1, e.iteration env i = .ok e1 ∧
        e1.actions = e.actions ++ frameOrder env i e delivered ∧
        (∀ a ∈ delivered, a.isEventDelivery = true) ∧
        e1.physicsProvider = e.physicsProvider ∧ e1.soundManager = e.soundManager ∧
        e1.root = e.root ∧ e1.angelscript = e.angelscript) ∧
    (∀ (env : Env) (n fuel : Nat) (e : Engine),
      (∀ j, j < n → env.glfwWindowShouldClose j = false) →
      env.glfwWindowShouldClose n = true → n < fuel →
      Engine.run env fuel e =
        (Engine.iterations env n 0 (e.sampleTime env)).andThen (Engine.stop env n)) ∧
    (∀ (env : Env) (fuel : Nat) (e : Engine),
      (∀ j, j < fuel → env.glfwWindowShouldClose j = false) →
      Engine.run env fuel e =
        (Engine.iterations env fuel 0 (e.sampleTime env)).andThen Run.unfinished) := by
  refine ⟨?_, ?_, ?_⟩
  · intro env i e hp hs hr ha
    obtain ⟨delivered, x, y, hit, hdel⟩ := iteration_eq env i e hp hs hr ha
    exact ⟨delivered, _, hit, rfl, hdel, rfl, rfl, rfl, rfl⟩
  · intro env n fuel e hopen hclose hfuel
    have := runLoop_closes env n fuel 0 (e.sampleTime env)
      (fun j hj => by simpa using hopen j hj) (by simpa using hclose) hfuel
    simpa [Engine.run] using this
  · intro env fuel e hopen
    have := runLoop_open env fuel 0 (e.sampleTime env)
      (fun j hj => by simpa using hopen j hj)
    simpa [Engine.run] using this

/-- What `stop` does when the script provider, the sound manager and the
physics provider exist. -/
theorem stop_eq (env : Env) (i : Nat) (e : Engine)
    (ha : e.angelscript ≠ 0) (hs : e.soundManager ≠ 0) (hp : e.physicsProvider ≠ 0) :
    e.stop env i = .exited EXIT_SUCCESS { e with
      log := e.log ++ [⟨.INFO_IMPORTANT, .Engine⟩],
      actions := e.actions ++
        (e.stopFunctions.map Action.call ++
        Action.angelscriptStop ::
        (if env.discordInitialized i then [Action.discordShutdown] else []) ++
        [Action.soundManagerStop, .deleteRoot, .physicsProviderStop, .resourceDiscardAll,
          .ImGui_ImplOpenGL3_Shutdown, .ImGui_ImplGlfw_Shutdown, .ImGui_DestroyContext,
          .glfwDestroyWindow, .glfwTerminate, .exit EXIT_SUCCESS]) } := by
  have hp1 : (e.physicsProvider != 0) = true := by simpa using hp
  have hs1 : (e.soundManager != 0) = true := by simpa using hs
  have ha1 : (e.angelscript != 0) = true := by simpa using ha
  cases hd : env.discordInitialized i <;>
    simp [Engine.stop, deref, Engine.logMessage, callRegisteredFunctions_eq, Engine.acts,
      Engine.act, hp1, hs1, ha1, hp, hs, ha, hd]

/-! ### Timing -/

/-- An action that is handed no delta keeps the timing invariant. -/
theorem timingOk_act (env : Env) (e : Engine) (a : Action) (ha : a.delta? = none)
    (h : e.TimingOk env) : (e.act a).TimingOk env := by
  obtain ⟨h1, h2, h3⟩ := h
  refine ⟨h1, h2, ?_⟩
  intro b hb d hd
  simp only [Engine.act, List.mem_append, List.mem_singleton] at hb
  rcases hb with hb | rfl
  · exact h3 b hb d hd
  · rw [ha] at hd; cases hd

/-- Actions that are handed no delta keep the timing invariant. -/
theorem timingOk_acts (env : Env) (e : Engine) (l : List Action)
    (hl : ∀ a ∈ l, a.delta? = none) (h : e.TimingOk env) : (e.acts l).TimingOk env := by
  obtain ⟨h1, h2, h3⟩ := h
  refine ⟨h1, h2, ?_⟩
  intro b hb d hd
  simp only [Engine.acts, List.mem_append] at hb
  rcases hb with hb | hb
  · exact h3 b hb d hd
  · rw [hl b hb] at hd; cases hd

/-- Handing the current delta to the physics step keeps the timing invariant. -/
theorem timingOk_updatePhysics (env : Env) (e : Engine) (h : e.TimingOk env) :
    (e.act (.updatePhysics e.getDeltaTime)).TimingOk env := by
  obtain ⟨h1, h2, h3⟩ := h
  refine ⟨h1, h2, ?_⟩
  intro b hb d hd
  simp only [Engine.act, List.mem_append, List.mem_singleton] at hb
  rcases hb with hb | rfl
  · exact h3 b hb d hd
  · simp only [Action.delta?, Option.some.injEq] at hd
    rw [← hd]
    unfold Engine.getDeltaTime
    linarith

/-- Handing the current delta to the scripted render keeps the timing
invariant. -/
theorem timingOk_angelscriptRender (env : Env) (e : Engine) (h : e.TimingOk env) :
    (e.act (.angelscriptRender e.getDeltaTime)).TimingOk env := by
  obtain ⟨h1, h2, h3⟩ := h
  refine ⟨h1, h2, ?_⟩
  intro b hb d hd
  simp only [Engine.act, List.mem_append, List.mem_singleton] at hb
  rcases hb with hb | rfl
  · exact h3 b hb d hd
  · simp only [Action.delta?, Option.some.injEq] at hd
    rw [← hd]
    unfold Engine.getDeltaTime
    linarith

/-- Sampling a non-decreasing clock keeps the timing invariant. -/
theorem timingOk_sampleTime (env : Env)
    (hmono : ∀ k, env.glfwGetTime k ≤ env.glfwGetTime (k + 1))
    (e : Engine) (h : e.TimingOk env) : (e.sampleTime env).TimingOk env := by
  obtain ⟨h1, h2, h3⟩ := h
  refine ⟨h2, hmono e.samples, ?_⟩
  intro b hb d hd
  simp only [Engine.sampleTime, Engine.act, List.mem_append, List.mem_singleton] at hb
  rcases hb with hb | rfl
  · exact h3 b hb d hd
  · cases hd

/-- A logged message keeps the timing invariant. -/
theorem timingOk_logMessage (env : Env) (e : Engine) (t : LogType) (src : LogSource)
    (h : e.TimingOk env) : (e.logMessage t src).TimingOk env := h

/-- A member call through a pointer keeps the timing invariant when what
follows keeps it. -/
theorem timingOk_deref (env : Env) (p : Ptr) (e : Engine) (k : Engine → Run)
    (h : e.TimingOk env) (hk : ∀ e1 : Engine, e1.TimingOk env → (k e1).engine.TimingOk env) :
    (deref p e k).engine.TimingOk env := by
  unfold deref
  split
  · exact hk e h
  · exact h

/-- Sequencing keeps the timing invariant when both parts keep it. -/
theorem timingOk_andThen (env : Env) (r : Run) (k : Engine → Run)
    (h : r.engine.TimingOk env)
    (hk : ∀ e1 : Engine, e1.TimingOk env → (k e1).engine.TimingOk env) :
    (r.andThen k).engine.TimingOk env := by
  cases r with
  | ok e => exact hk e h
  | nullDereference e => exact h
  | exited status e => exact h
  | unfinished e => exact h

/-- Calling registered functions keeps the timing invariant. -/
theorem timingOk_callRegisteredFunctions (env : Env) (funcs : List Nat) (e : Engine)
    (h : e.TimingOk env) : (callRegisteredFunctions funcs e).TimingOk env := by
  rw [callRegisteredFunctions_eq]
  refine timingOk_acts env e _ ?_ h
  intro a ha
  obtain ⟨f, _, rfl⟩ := List.mem_map.mp ha
  rfl

/-- A poll keeps the timing invariant. -/
theorem timingOk_glfwPollEvents (env : Env) (evs : List PlatformEvent) (e : Engine)
    (h : e.TimingOk env) : (glfwPollEvents evs e).TimingOk env := by
  obtain ⟨seg, x, y, heq, hseg⟩ := glfwPollEvents_eq evs e
  rw [heq]
  obtain ⟨h1, h2, h3⟩ := h
  refine ⟨h1, h2, ?_⟩
  intro b hb d hd
  simp only [List.mem_append] at hb
  rcases hb with hb | hb
  · exact h3 b hb d hd
  · have := hseg b hb
    cases b <;> simp_all [Action.isEventDelivery, Action.delta?]

/-- The repeat passes keep the timing invariant. -/
theorem timingOk_repeating (env : Env) (held1 held2 : Int → Bool) (e : Engine)
    (h : e.TimingOk env) :
    ((e.keyboardRepeatingCallback held1).mouseButtonRepeatingCallback held2).TimingOk env := by
  unfold Engine.mouseButtonRepeatingCallback Engine.keyboardRepeatingCallback
  refine timingOk_acts env _ _ ?_ (timingOk_act env _ _ rfl
    (timingOk_acts env _ _ ?_ (timingOk_act env _ _ rfl h)))
  · intro a ha
    obtain ⟨k, _, rfl⟩ := List.mem_map.mp ha
    rfl
  · intro a ha
    obtain ⟨k, _, rfl⟩ := List.mem_map.mp ha
    rfl

/-- Rendering keeps the timing invariant. -/
theorem timingOk_render (env : Env)
    (hmono : ∀ k, env.glfwGetTime k ≤ env.glfwGetTime (k + 1))
    (e : Engine) (h : e.TimingOk env) : (e.render env).engine.TimingOk env := by
  unfold Engine.render
  refine timingOk_deref env _ _ _
    (timingOk_sampleTime env hmono _ (timingOk_act env _ _ rfl h)) ?_
  intro e1 h1
  refine timingOk_deref env _ _ _
    (timingOk_callRegisteredFunctions env _ _
      (timingOk_act env _ _ rfl (timingOk_act env _ _ rfl (timingOk_act env _ _ rfl
        (timingOk_act env _ _ rfl h1))))) ?_
  intro e2 h2
  refine timingOk_deref env _ _ _ (timingOk_angelscriptRender env _ h2) ?_
  intro e3 h3
  exact timingOk_act env _ _ rfl (timingOk_act env _ _ rfl (timingOk_act env _ _ rfl h3))

/-- An iteration keeps the timing invariant. -/
theorem timingOk_iteration (env : Env)
    (hmono : ∀ k, env.glfwGetTime k ≤ env.glfwGetTime (k + 1))
    (i : Nat) (e : Engine) (h : e.TimingOk env) : (e.iteration env i).engine.TimingOk env := by
  unfold Engine.iteration
  refine timingOk_deref env _ _ _ h ?_
  intro e1 h1
  refine timingOk_andThen env _ _ (timingOk_render env hmono _
    (timingOk_updatePhysics env _ h1)) ?_
  intro e2 h2
  refine timingOk_deref env _ _ _ h2 ?_
  intro e3 h3
  refine timingOk_deref env _ _ _ h3 ?_
  intro e4 h4
  dsimp only [Run.engine]
  refine timingOk_act env _ _ rfl (timingOk_act env _ _ rfl ?_)
  have h5 : (Engine.mouseButtonRepeatingCallback (env.glfwGetMouseButton i)
      (Engine.keyboardRepeatingCallback (env.glfwGetKey i)
        (glfwPollEvents (env.events i)
          (((((e4.act .setListenerPosition).act .setListenerRotation).act
            .soundManagerUpdate).act .glfwSwapBuffers).act .glfwPollEvents)))).TimingOk env :=
    timingOk_repeating env _ _ _
      (timingOk_glfwPollEvents env _ _
        (timingOk_act env _ _ rfl (timingOk_act env _ _ rfl (timingOk_act env _ _ rfl
          (timingOk_act env _ _ rfl (timingOk_act env _ _ rfl h4))))))
  split
  · exact timingOk_act env _ _ rfl h5
  · exact h5

/-- Stopping keeps the timing invariant. -/
theorem timingOk_stop (env : Env) (i : Nat) (e : Engine) (h : e.TimingOk env) :
    (e.stop env i).engine.TimingOk env := by
  unfold Engine.stop
  refine timingOk_deref env _ _ _
    (timingOk_callRegisteredFunctions env _ _ (timingOk_logMessage env _ _ _ h)) ?_
  intro e1 h1
  have h2 : (if env.discordInitialized i = true then (e1.act .angelscriptStop).act
      .discordShutdown else e1.act .angelscriptStop).TimingOk env := by
    split
    · exact timingOk_act env _ _ rfl (timingOk_act env _ _ rfl h1)
    · exact timingOk_act env _ _ rfl h1
  refine timingOk_deref env _ _ _ h2 ?_
  intro e2 h3
  refine timingOk_deref env _ _ _
    (timingOk_act env _ _ rfl (timingOk_act env _ _ rfl h3)) ?_
  intro e3 h4
  exact timingOk_act env _ _ rfl (timingOk_act env _ _ rfl (timingOk_act env _ _ rfl
    (timingOk_act env _ _ rfl (timingOk_act env _ _ rfl (timingOk_act env _ _ rfl
      (timingOk_act env _ _ rfl (timingOk_act env _ _ rfl h4)))))))

/-- The loop keeps the timing invariant. -/
theorem timingOk_runLoop (env : Env)
    (hmono : ∀ k, env.glfwGetTime k ≤ env.glfwGetTime (k + 1)) (fuel : Nat) :
    ∀ (i : Nat) (e : Engine), e.TimingOk env → (Engine.runLoop env fuel i e).engine.TimingOk env := by
  induction fuel with
  | zero => intro i e h; exact h
  | succ f ih =>
    intro i e h
    unfold Engine.runLoop
    split
    · exact timingOk_stop env i e h
    · exact timingOk_andThen env _ _ (timingOk_iteration env hmono i e h)
        (fun e1 h1 => ih (i + 1) e1 h1)

/-- A member call through a pointer leaves the timing state alone when what
follows leaves it alone. -/
theorem timing_deref (p : Ptr) (e : Engine) (k : Engine → Run) (t : ℚ × ℚ)
    (h : e.timing = t) (hk : ∀ e1 : Engine, e1.timing = t → (k e1).engine.timing = t) :
    (deref p e k).engine.timing = t := by
  unfold deref
  split
  · exact hk e h
  · exact h

/-- Appending an action leaves the timing state alone. -/
theorem timing_act (e : Engine) (a : Action) : (e.act a).timing = e.timing := rfl

/-- Appending actions leaves the timing state alone. -/
theorem timing_acts (e : Engine) (l : List Action) : (e.acts l).timing = e.timing := rfl

/-- After its clock sample `render` leaves the timing state alone. -/
theorem render_timing (env : Env) (e : Engine) :
    (e.render env).engine.timing = (e.currentTime, env.glfwGetTime e.samples) := by
  unfold Engine.render
  dsimp only
  refine timing_deref _ _ _ _ ?_ ?_
  · simp only [Engine.sampleTime, Engine.timing, Engine.act]
  · intro e1 h1
    refine timing_deref _ _ _ _ ?_ ?_
    · rw [callRegisteredFunctions_eq]
      simp only [timing_act, timing_acts]
      exact h1
    · intro e2 h2
      refine timing_deref _ _ _ _ ?_ ?_
      · simp only [timing_act]; exact h2
      · intro e3 h3
        simp only [Run.engine, timing_act]
        exact h3

/-- C13: with a clock that is never negative and never runs backwards,
`render` sets `lastTime` to the previous `currentTime` and `currentTime` to a
fresh clock sample; the delta in force at the first physics step is the first
sample minus zero and is not negative; and however long `run` goes on after
`preInit`, and however it ends, `getDeltaTime()` is not negative, `currentTime`
is not before `lastTime`, and no physics step or scripted render was handed a
negative delta. -/
theorem timing_never_negative (env : Env)
    (hnonneg : ∀ k, 0 ≤ env.glfwGetTime k)
    (hmono : ∀ k, env.glfwGetTime k ≤ env.glfwGetTime (k + 1)) :
    (∀ e : Engine,
      (e.render env).engine.lastTime = e.currentTime ∧
      (e.render env).engine.currentTime = env.glfwGetTime e.samples) ∧
    (∀ (loader : Ptr) (e : Engine),
      ((Engine.preInit loader e).sampleTime env).getDeltaTime = env.glfwGetTime e.samples ∧
      0 ≤ ((Engine.preInit loader e).sampleTime env).getDeltaTime) ∧
    (∀ (loader : Ptr) (e : Engine) (fuel : Nat),
      (∀ a ∈ e.actions, ∀ d, a.delta? = some d → 0 ≤ d) →
      0 ≤ (Engine.run env fuel (Engine.preInit loader e)).engine.getDeltaTime ∧
      (Engine.run env fuel (Engine.preInit loader e)).engine.lastTime ≤
        (Engine.run env fuel (Engine.preInit loader e)).engine.currentTime ∧
      ∀ a ∈ (Engine.run env fuel (Engine.preInit loader e)).engine.actions,
        ∀ d, a.delta? = some d → 0 ≤ d) := by
  refine ⟨?_, ?_, ?_⟩
  · intro e
    have h := render_timing env e
    simp only [Engine.timing, Prod.mk.injEq] at h
    exact h
  · intro loader e
    have h : ((Engine.preInit loader e).sampleTime env).getDeltaTime =
        env.glfwGetTime e.samples := by
      simp [Engine.preInit, Engine.sampleTime, Engine.act, Engine.getDeltaTime]
    exact ⟨h, by rw [h]; exact hnonneg _⟩
  · intro loader e fuel hact
    have h0 : (Engine.preInit loader e).TimingOk env :=
      ⟨le_refl _, hnonneg _, hact⟩
    have h1 := timingOk_runLoop env hmono fuel 0 _ (timingOk_sampleTime env hmono _ h0)
    obtain ⟨ha, _, hc⟩ := h1
    refine ⟨?_, ha, hc⟩
    unfold Engine.getDeltaTime
    unfold Engine.run
    linarith

/-- Witness for C13: the example clock reads 0, 1, 2, ...; three loop
iterations of budget on the example engine after `preInit`. -/
theorem timing_never_negative_witness :
    0 ≤ (Engine.run Env.demo 3 (Engine.preInit 6 Engine.demo)).engine.getDeltaTime ∧
    (Engine.run Env.demo 3 (Engine.preInit 6 Engine.demo)).engine.lastTime ≤
      (Engine.run Env.demo 3 (Engine.preInit 6 Engine.demo)).engine.currentTime ∧
    ∀ a ∈ (Engine.run Env.demo 3 (Engine.preInit 6 Engine.demo)).engine.actions,
      ∀ d, a.delta? = some d → 0 ≤ d :=
  (timing_never_negative Env.demo (fun k => Nat.cast_nonneg k)
    (fun k => Nat.cast_le.mpr (Nat.le_succ k))).2.2 6 Engine.demo 3
    (fun a ha => absurd ha (List.not_mem_nil a))

/-- C14 (amended): `run` samples the clock once before its loop; an iteration of
the loop, on an engine whose subsystems exist, samples it exactly once, inside
`render`, after the physics step of that iteration.  The clock reads and handed
deltas of an iteration are, in order: the physics step with the delta of the
two samples taken before the iteration, the clock sample, and the scripted
render with the delta of the new sample. -/
theorem timing_sampled_once_per_frame :
    (∀ (env : Env) (fuel : Nat) (e : Engine),
      Engine.run env fuel e = Engine.runLoop env fuel 0 (e.sampleTime env) ∧
      (e.sampleTime env).actions = e.actions ++ [Action.glfwGetTime (env.glfwGetTime e.samples)]) ∧
    (∀ (env : Env) (i : Nat) (e : Engine),
      e.physicsProvider ≠ 0 → e.soundManager ≠ 0 → e.root ≠ 0 → e.angelscript ≠ 0 →
      ∃ seg, (e.iteration env i).engine.actions = e.actions ++ seg ∧
        seg.filter Action.isTiming =
          [Action.updatePhysics (e.currentTime - e.lastTime),
            Action.glfwGetTime (env.glfwGetTime e.samples),
            Action.angelscriptRender (env.glfwGetTime e.samples - e.currentTime)]) := by
  refine ⟨fun env fuel e => ⟨rfl, rfl⟩, ?_⟩
  intro env i e hp hs hr ha
  obtain ⟨delivered, x, y, hit, hdel⟩ := iteration_eq env i e hp hs hr ha
  exact ⟨frameOrder env i e delivered, by rw [hit]; rfl,
    frameOrder_timing env i e delivered hdel⟩

/-- Witness for C14 (amended): an iteration of the example engine. -/
theorem timing_sampled_once_per_frame_witness :
    ∃ seg, (Engine.iteration Env.demo 0 Engine.demo).engine.actions =
        Engine.demo.actions ++ seg ∧
      seg.filter Action.isTiming =
        [Action.updatePhysics (Engine.demo.currentTime - Engine.demo.lastTime),
          Action.glfwGetTime (Env.demo.glfwGetTime Engine.demo.samples),
          Action.angelscriptRender
            (Env.demo.glfwGetTime Engine.demo.samples - Engine.demo.currentTime)] :=
  timing_sampled_once_per_frame.2 Env.demo 0 Engine.demo
    (by decide) (by decide) (by decide) (by decide)

/-- Counterexample to C14 as stated: in an iteration of the example engine
that starts with the samples 1 and 2 taken, the physics step is handed the
delta 1 of those two earlier samples before any clock read of the iteration;
the only clock read of the iteration, returning 3, comes after it, in
`render`. -/
theorem iteration_samples_after_physics :
    ∃ seg, (Engine.iteration Env.demo 1
        { Engine.demo with lastTime := 1, currentTime := 2, samples := 3 }).engine.actions =
        Engine.demo.actions ++ seg ∧
      seg.filter Action.isTiming =
        [Action.updatePhysics 1, Action.glfwGetTime 3, Action.angelscriptRender 1] ∧
      (seg.filter Action.isTiming).filter Action.isSample = [Action.glfwGetTime 3] := by
  obtain ⟨delivered, x, y, hit, hdel⟩ := iteration_eq Env.demo 1
    { Engine.demo with lastTime := 1, currentTime := 2, samples := 3 }
    (by decide) (by decide) (by decide) (by decide)
  have ht := frameOrder_timing Env.demo 1
    { Engine.demo with lastTime := 1, currentTime := 2, samples := 3 } delivered hdel
  have hnum : [Action.updatePhysics ((2 : ℚ) - 1), Action.glfwGetTime ((3 : ℕ) : ℚ),
      Action.angelscriptRender (((3 : ℕ) : ℚ) - 2)] =
      [Action.updatePhysics 1, Action.glfwGetTime 3, Action.angelscriptRender 1] := by
    norm_num
  refine ⟨_, by rw [hit]; rfl, ?_, ?_⟩
  · rw [ht]; exact hnum
  · rw [ht]
    have : ([Action.updatePhysics ((2 : ℚ) - 1), Action.glfwGetTime ((3 : ℕ) : ℚ),
        Action.angelscriptRender (((3 : ℕ) : ℚ) - 2)]).filter Action.isSample =
        [Action.glfwGetTime ((3 : ℕ) : ℚ)] := rfl
    refine this.trans ?_
    norm_num

/-- Witness for C15: an iteration of the example engine, and its run, whose
close flag is unset at the first two loop tests and set at the third. -/
theorem run_frame_order_witness :
    (∃ delivered e1, Engine.demo.iteration Env.demo 0 = .ok e1 ∧
      e1.actions = Engine.demo.actions ++ frameOrder Env.demo 0 Engine.demo delivered ∧
      (∀ a ∈ delivered, a.isEventDelivery = true) ∧
      e1.physicsProvider = Engine.demo.physicsProvider ∧
      e1.soundManager = Engine.demo.soundManager ∧
      e1.root = Engine.demo.root ∧ e1.angelscript = Engine.demo.angelscript) ∧
    Engine.run Env.demo 5 Engine.demo =
      (Engine.iterations Env.demo 2 0 (Engine.demo.sampleTime Env.demo)).andThen
        (Engine.stop Env.demo 2) :=
  ⟨run_frame_order.1 Env.demo 0 Engine.demo (by decide) (by decide) (by decide) (by decide),
    run_frame_order.2.1 Env.demo 2 5 Engine.demo
      (fun j hj => by
        have : j = 0 ∨ j = 1 := by omega
        rcases this with rfl | rfl <;> rfl)
      rfl (by decide)⟩

/-- C16: `stop`, on an engine whose script provider, sound manager and physics
provider exist, ends in process exit with success status, and the actions it
appends are, in this order: every registered stop function in registration
order, each once; the script provider stop; the rich-presence shutdown when
initialised; the sound manager stop; the deletion of the scene root; the physics
stop; `Resource::discardAll`; the three UI shutdown calls; the window
destruction; the toolkit termination; and `exit(EXIT_SUCCESS)` last. -/
theorem stop_teardown_order (env : Env) (i : Nat) (e : Engine)
    (ha : e.angelscript ≠ 0) (hs : e.soundManager ≠ 0) (hp : e.physicsProvider ≠ 0) :
    ∃ e1, e.stop env i = .exited EXIT_SUCCESS e1 ∧
      e1.actions = e.actions ++
        (e.stopFunctions.map Action.call ++
        Action.angelscriptStop ::
        (if env.discordInitialized i then [Action.discordShutdown] else []) ++
        [Action.soundManagerStop, .deleteRoot, .physicsProviderStop, .resourceDiscardAll,
          .ImGui_ImplOpenGL3_Shutdown, .ImGui_ImplGlfw_Shutdown, .ImGui_DestroyContext,
          .glfwDestroyWindow, .glfwTerminate, .exit EXIT_SUCCESS]) ∧
      e1.actions.getLast? = some (Action.exit EXIT_SUCCESS) := by
  refine ⟨_, stop_eq env i e ha hs hp, rfl, ?_⟩
  simp only [← List.append_assoc]
  rw [show ∀ l : List Action, l ++ [Action.soundManagerStop, .deleteRoot, .physicsProviderStop,
      .resourceDiscardAll, .ImGui_ImplOpenGL3_Shutdown, .ImGui_ImplGlfw_Shutdown,
      .ImGui_DestroyContext, .glfwDestroyWindow, .glfwTerminate, .exit EXIT_SUCCESS] =
      (l ++ [Action.soundManagerStop, .deleteRoot, .physicsProviderStop,
      .resourceDiscardAll, .ImGui_ImplOpenGL3_Shutdown, .ImGui_ImplGlfw_Shutdown,
      .ImGui_DestroyContext, .glfwDestroyWindow, .glfwTerminate]) ++ [.exit EXIT_SUCCESS] from
      fun l => by simp]
  exact List.getLast?_concat _

/-- Witness for C16: `stop` on the example engine, with two stop functions
registered. -/
theorem stop_teardown_order_witness :
    ∃ e1, Engine.demo.stop Env.demo 2 = .exited EXIT_SUCCESS e1 ∧
      e1.actions = Engine.demo.actions ++
        (Engine.demo.stopFunctions.map Action.call ++
        Action.angelscriptStop ::
        (if Env.demo.discordInitialized 2 then [Action.discordShutdown] else []) ++
        [Action.soundManagerStop, .deleteRoot, .physicsProviderStop, .resourceDiscardAll,
          .ImGui_ImplOpenGL3_Shutdown, .ImGui_ImplGlfw_Shutdown, .ImGui_DestroyContext,
          .glfwDestroyWindow, .glfwTerminate, .exit EXIT_SUCCESS]) ∧
      e1.actions.getLast? = some (Action.exit EXIT_SUCCESS) :=
  stop_teardown_order Env.demo 2 Engine.demo (by decide) (by decide) (by decide)

/-! ### Singleton accessors -/

/-- C17 (amended): `getSoundManager`, `getPhysicsProvider` and
`getSettingsLoader` log one warning and return null when their subsystem has
not been constructed, and return the constructed instance and log nothing when
it has; `getWindow` and `getRoot` return the stored pointer, null before
construction, and never log; no accessor changes anything but the log. -/
theorem accessors_before_and_after_construction :
    (∀ e : Engine, e.soundManager = 0 →
      e.getSoundManager = (0, e.logMessage .WARNING .getSoundManager)) ∧
    (∀ e : Engine, e.soundManager ≠ 0 → e.getSoundManager = (e.soundManager, e)) ∧
    (∀ e : Engine, e.physicsProvider = 0 →
      e.getPhysicsProvider = (0, e.logMessage .WARNING .getPhysicsProvider)) ∧
    (∀ e : Engine, e.physicsProvider ≠ 0 → e.getPhysicsProvider = (e.physicsProvider, e)) ∧
    (∀ e : Engine, e.settingsLoader = 0 →
      e.getSettingsLoader = (0, e.logMessage .WARNING .getSettingsLoader)) ∧
    (∀ e : Engine, e.settingsLoader ≠ 0 → e.getSettingsLoader = (e.settingsLoader, e)) ∧
    (∀ e : Engine, e.getWindow = (e.window, e)) ∧
    (∀ e : Engine, e.getRoot = (e.root, e)) := by
  refine ⟨?_, ?_, ?_, ?_, ?_, ?_, fun e => rfl, fun e => rfl⟩
  · intro e h; simp [Engine.getSoundManager, h]
  · intro e h; simp [Engine.getSoundManager, h]
  · intro e h; simp [Engine.getPhysicsProvider, h]
  · intro e h; simp [Engine.getPhysicsProvider, h]
  · intro e h; simp [Engine.getSettingsLoader, h]
  · intro e h; simp [Engine.getSettingsLoader, h]

/-- Witness for C17 (amended): the sound manager accessor before construction,
and the settings loader accessor after `preInit` installed the loader. -/
theorem accessors_before_and_after_construction_witness :
    Engine.start.getSoundManager = (0, Engine.start.logMessage .WARNING .getSoundManager) ∧
    (Engine.preInit 6 Engine.start).getSettingsLoader =
      ((Engine.preInit 6 Engine.start).settingsLoader, Engine.preInit 6 Engine.start) :=
  ⟨accessors_before_and_after_construction.1 Engine.start rfl,
    accessors_before_and_after_construction.2.2.2.2.2.1 (Engine.preInit 6 Engine.start)
      (by decide)⟩

/-- Counterexample to C17 as stated: before anything is constructed the window
and the scene root are null, and `getWindow` and `getRoot` return null without
logging a warning: the log stays empty. -/
theorem getRoot_getWindow_log_nothing :
    Engine.start.root = 0 ∧ Engine.start.window = 0 ∧
    Engine.start.getRoot = (0, Engine.start) ∧
    Engine.start.getWindow = (0, Engine.start) ∧
    Engine.start.getRoot.2.log = [] ∧ Engine.start.getWindow.2.log = [] :=
  ⟨rfl, rfl, rfl, rfl, rfl, rfl⟩

/-! ### Resource identifiers -/

/-- Where `stringFind` finds the separator it occurs, and nowhere before. -/
theorem stringFind_some (sep : List Char) :
    ∀ (l : List Char) (pos : Nat), stringFind sep l = some pos →
      sep <+: l.drop pos ∧ ∀ i, i < pos → ¬ sep <+: l.drop i := by
  intro l
  induction l with
  | nil =>
    intro pos h
    unfold stringFind at h
    split at h
    · rename_i hp
      simp only [Option.some.injEq] at h
      subst h
      exact ⟨by simpa using List.isPrefixOf_iff_prefix.mp hp, fun i hi => by omega⟩
    · cases h
  | cons c cs ih =>
    intro pos h
    unfold stringFind at h
    split at h
    · rename_i hp
      simp only [Option.some.injEq] at h
      subst h
      exact ⟨by simpa using List.isPrefixOf_iff_prefix.mp hp, fun i hi => by omega⟩
    · rename_i hp
      obtain ⟨p, hp1, rfl⟩ := Option.map_eq_some'.mp h
      obtain ⟨h1, h2⟩ := ih p hp1
      refine ⟨by simpa using h1, ?_⟩
      intro i hi
      cases i with
      | zero =>
        intro hpre
        exact hp (List.isPrefixOf_iff_prefix.mpr (by simpa using hpre))
      | succ j => simpa using h2 j (by omega)

/-- Where `stringFind` finds nothing the separator occurs nowhere. -/
theorem stringFind_none (sep : List Char) :
    ∀ l : List Char, stringFind sep l = none → ∀ i, ¬ sep <+: l.drop i := by
  intro l
  induction l with
  | nil =>
    intro h i
    unfold stringFind at h
    split at h
    · cases h
    · rename_i hp
      intro hpre
      exact hp (List.isPrefixOf_iff_prefix.mpr (by simpa using hpre))
  | cons c cs ih =>
    intro h i
    unfold stringFind at h
    split at h
    · cases h
    · rename_i hp
      have hrec : stringFind sep cs = none := by
        cases hc : stringFind sep cs with
        | none => rfl
        | some p => rw [hc] at h; cases h
      cases i with
      | zero =>
        intro hpre
        exact hp (List.isPrefixOf_iff_prefix.mpr (by simpa using hpre))
      | succ j => simpa using ih hrec j

/-- A list occurs inside another exactly when it starts one of its tails. -/
theorem infix_iff_prefix_drop (sep l : List Char) :
    sep <:+: l ↔ ∃ i, sep <+: l.drop i := by
  constructor
  · intro h
    obtain ⟨t, ht1, ht2⟩ := List.infix_iff_prefix_suffix.mp h
    rw [List.suffix_iff_eq_drop] at ht2
    exact ⟨_, ht2 ▸ ht1⟩
  · rintro ⟨i, hi⟩
    exact List.infix_iff_prefix_suffix.mpr ⟨_, hi, List.drop_suffix i l⟩

/-- C20: for a non-empty separator, an identifier that contains the separator
is split into a scheme and a path with `scheme ++ sep ++ path` equal to the
identifier, the scheme not containing the separator, and no other such
decomposition having a shorter scheme (the split is at the first occurrence);
nothing is logged.  An identifier without the separator yields a pair of empty
strings (and one logged error). -/
theorem splitResourceIdentifier_spec (sep identifier : List Char) (log : List LogEntry)
    (hsep : sep ≠ []) :
    (sep <:+: identifier →
      ∃ scheme path, splitResourceIdentifier sep identifier log = ((scheme, path), log) ∧
        scheme ++ sep ++ path = identifier ∧
        ¬ sep <:+: scheme ∧
        ∀ s2 p2 : List Char, s2 ++ sep ++ p2 = identifier → scheme.length ≤ s2.length) ∧
    (¬ sep <:+: identifier →
      splitResourceIdentifier sep identifier log =
        (([], []), log ++ [⟨.ERROR, .splitResourceIdentifier⟩])) := by
  refine ⟨?_, ?_⟩
  · intro hin
    cases hf : stringFind sep identifier with
    | none =>
      obtain ⟨i, hi⟩ := (infix_iff_prefix_drop sep identifier).mp hin
      exact absurd hi (stringFind_none sep identifier hf i)
    | some pos =>
      obtain ⟨hpre, hmin⟩ := stringFind_some sep identifier pos hf
      obtain ⟨rest, hrest⟩ := hpre
      have hpath : identifier.drop (pos + sep.length) = rest := by
        rw [← List.drop_drop, ← hrest]
        simp
      refine ⟨identifier.take pos, identifier.drop (pos + sep.length), ?_, ?_, ?_, ?_⟩
      · simp [splitResourceIdentifier, hf]
      · rw [hpath, List.append_assoc, hrest, List.take_append_drop]
      · intro hinf
        obtain ⟨i, hi⟩ := (infix_iff_prefix_drop sep _).mp hinf
        have hlen : sep.length ≤ ((identifier.take pos).drop i).length := hi.length_le
        have hpos : 0 < sep.length := List.length_pos.mpr hsep
        have hi_lt : i < pos := by
          simp only [List.length_drop, List.length_take] at hlen
          omega
        apply hmin i hi_lt
        obtain ⟨t, ht⟩ := hi
        have h1 : identifier.drop i =
            (identifier.take pos).drop i ++ identifier.drop pos := by
          conv_lhs => rw [← List.take_append_drop pos identifier]
          rw [List.drop_append_of_le_length]
          simp only [List.length_take]
          have : sep.length + i ≤ min pos identifier.length := by
            simp only [List.length_drop, List.length_take] at hlen
            omega
          omega
        rw [h1, ← ht]
        exact ⟨t ++ identifier.drop pos, by simp⟩
      · intro s2 p2 h2
        have hle : (identifier.take pos).length ≤ pos := by simp
        by_contra hcon
        have hlt : s2.length < pos := by omega
        apply hmin s2.length hlt
        rw [← h2]
        exact ⟨p2, by simp⟩
  · intro hnot
    cases hf : stringFind sep identifier with
    | none => simp [splitResourceIdentifier, hf]
    | some pos =>
      obtain ⟨hpre, _⟩ := stringFind_some sep identifier pos hf
      exact absurd ((infix_iff_prefix_drop sep identifier).mpr ⟨pos, hpre⟩) hnot

/-- Witness for C20: the identifier `file://a` with the separator `://`. -/
theorem splitResourceIdentifier_spec_witness :
    (RESOURCE_ID_SEPARATOR <:+: ['f', 'i', 'l', 'e', ':', '/', '/', 'a'] →
      ∃ scheme path,
        splitResourceIdentifier RESOURCE_ID_SEPARATOR
          ['f', 'i', 'l', 'e', ':', '/', '/', 'a'] [] = ((scheme, path), []) ∧
        scheme ++ RESOURCE_ID_SEPARATOR ++ path = ['f', 'i', 'l', 'e', ':', '/', '/', 'a'] ∧
        ¬ RESOURCE_ID_SEPARATOR <:+: scheme ∧
        ∀ s2 p2 : List Char,
          s2 ++ RESOURCE_ID_SEPARATOR ++ p2 = ['f', 'i', 'l', 'e', ':', '/', '/', 'a'] →
          scheme.length ≤ s2.length) ∧
    (¬ RESOURCE_ID_SEPARATOR <:+: ['f', 'i', 'l', 'e', ':', '/', '/', 'a'] →
      splitResourceIdentifier RESOURCE_ID_SEPARATOR
        ['f', 'i', 'l', 'e', ':', '/', '/', 'a'] [] =
        (([], []), [] ++ [⟨.ERROR, .splitResourceIdentifier⟩])) :=
  splitResourceIdentifier_spec RESOURCE_ID_SEPARATOR
    ['f', 'i', 'l', 'e', ':', '/', '/', 'a'] [] (by decide)

/-! ### Maps of the resource manager -/

/-- Lookup of the key at the head. -/
theorem lookup_cons_self {V : Type} (k : List Char) (v : V) (m : List (List Char × V)) :
    List.lookup k ((k, v) :: m) = some v := by
  simp [List.lookup_cons]

/-- Lookup of a key other than the head. -/
theorem lookup_cons_ne {V : Type} (k k1 : List Char) (v : V) (m : List (List Char × V))
    (h : k ≠ k1) : List.lookup k ((k1, v) :: m) = List.lookup k m := by
  have hb : (k == k1) = false := by simpa using h
  simp [List.lookup_cons, hb]

/-- Lookup in a map with one entry appended. -/
theorem lookup_append_singleton {V : Type} (m : List (List Char × V)) (k k1 : List Char)
    (d : V) : List.lookup k1 (m ++ [(k, d)]) =
      match List.lookup k1 m with
      | some v => some v
      | none => if k1 = k then some d else none := by
  induction m with
  | nil =>
    by_cases h : k1 = k
    · subst h; simp [lookup_cons_self, List.lookup]
    · rw [List.nil_append, lookup_cons_ne _ _ _ _ h]
      simp [List.lookup, h]
  | cons kv m ih =>
    obtain ⟨k2, v2⟩ := kv
    by_cases h : k1 = k2
    · subst h; simp [lookup_cons_self]
    · simp only [List.cons_append, lookup_cons_ne _ _ _ _ h, ih]

/-- After `m[k]` the key is present, with its old value or the default. -/
theorem StdMap.index_find?_self {V : Type} (m : StdMap V) (k : List Char) (d : V) :
    (m.index k d).find? k = some ((m.find? k).getD d) := by
  unfold StdMap.index
  cases h : m.find? k with
  | some v => simp [h]
  | none =>
    simp only [Option.isSome_none, Bool.false_eq_true, if_false, Option.getD_none]
    unfold StdMap.find? at h ⊢
    rw [lookup_append_singleton, h]
    simp

/-- The lookup of another key is not changed by `m[k]`. -/
theorem StdMap.index_find?_other {V : Type} (m : StdMap V) (k k1 : List Char) (d : V)
    (h : k1 ≠ k) : (m.index k d).find? k1 = m.find? k1 := by
  unfold StdMap.index
  split
  · rfl
  · unfold StdMap.find?
    rw [lookup_append_singleton]
    cases List.lookup k1 m with
    | some v => rfl
    | none => simp [h]

/-- The lookup of the key after an assignment through `m[k]`. -/
theorem StdMap.set_find?_self {V : Type} (m : StdMap V) (k : List Char) (v : V)
    (h : (m.find? k).isSome = true) : (m.set k v).find? k = some v := by
  unfold StdMap.find? StdMap.set at *
  induction m with
  | nil => simp [List.lookup] at h
  | cons kv m ih =>
    obtain ⟨k1, v1⟩ := kv
    by_cases hk : k = k1
    · subst hk
      simp [lookup_cons_self]
    · have hk1 : ¬ k1 = k := fun e => hk e.symm
      rw [lookup_cons_ne _ _ _ _ hk] at h
      have : (List.map (fun kv : List Char × V => if (kv.1 == k) = true then (k, v) else kv)
          ((k1, v1) :: m)) = (k1, v1) ::
          List.map (fun kv : List Char × V => if (kv.1 == k) = true then (k, v) else kv) m := by
        simp [hk1]
      rw [this, lookup_cons_ne _ _ _ _ hk]
      exact ih h

/-- The lookup of another key is not changed by an assignment. -/
theorem StdMap.set_find?_other {V : Type} (m : StdMap V) (k k1 : List Char) (v : V)
    (h : k1 ≠ k) : (m.set k v).find? k1 = m.find? k1 := by
  unfold StdMap.find? StdMap.set
  induction m with
  | nil => rfl
  | cons kv m ih =>
    obtain ⟨k2, v2⟩ := kv
    by_cases hk : k2 = k
    · subst hk
      have : (List.map (fun kv : List Char × V => if (kv.1 == k2) = true then (k2, v) else kv)
          ((k2, v2) :: m)) = (k2, v) ::
          List.map (fun kv : List Char × V => if (kv.1 == k2) = true then (k2, v) else kv) m := by
        simp
      rw [this, lookup_cons_ne _ _ _ _ h, lookup_cons_ne _ _ _ _ h]
      exact ih
    · have : (List.map (fun kv : List Char × V => if (kv.1 == k) = true then (k, v) else kv)
          ((k2, v2) :: m)) = (k2, v2) ::
          List.map (fun kv : List Char × V => if (kv.1 == k) = true then (k, v) else kv) m := by
        simp [hk]
      rw [this]
      by_cases h2 : k1 = k2
      · subst h2; simp [lookup_cons_self]
      · rw [lookup_cons_ne _ _ _ _ h2, lookup_cons_ne _ _ _ _ h2]
        exact ih

/-- After `m.erase(k)` the key is absent. -/
theorem StdMap.erase_find?_self {V : Type} (m : StdMap V) (k : List Char) :
    (m.erase k).find? k = none := by
  unfold StdMap.find? StdMap.erase
  induction m with
  | nil => rfl
  | cons kv m ih =>
    obtain ⟨k1, v1⟩ := kv
    by_cases hk : k1 = k
    · subst hk
      have : List.filter (fun kv : List Char × V => kv.1 != k1) ((k1, v1) :: m) =
          List.filter (fun kv : List Char × V => kv.1 != k1) m := by
        simp [List.filter_cons]
      rw [this]; exact ih
    · have : List.filter (fun kv : List Char × V => kv.1 != k) ((k1, v1) :: m) =
          (k1, v1) :: List.filter (fun kv : List Char × V => kv.1 != k) m := by
        simp [List.filter_cons, hk]
      rw [this, lookup_cons_ne _ _ _ _ (fun e => hk e.symm)]
      exact ih

/-- The lookup of another key is not changed by `m.erase(k)`. -/
theorem StdMap.erase_find?_other {V : Type} (m : StdMap V) (k k1 : List Char)
    (h : k1 ≠ k) : (m.erase k).find? k1 = m.find? k1 := by
  unfold StdMap.find? StdMap.erase
  induction m with
  | nil => rfl
  | cons kv m ih =>
    obtain ⟨k2, v2⟩ := kv
    by_cases hk : k2 = k
    · subst hk
      have : List.filter (fun kv : List Char × V => kv.1 != k2) ((k2, v2) :: m) =
          List.filter (fun kv : List Char × V => kv.1 != k2) m := by
        simp [List.filter_cons]
      rw [this, lookup_cons_ne _ _ _ _ h]
      exact ih
    · have : List.filter (fun kv : List Char × V => kv.1 != k) ((k2, v2) :: m) =
          (k2, v2) :: List.filter (fun kv : List Char × V => kv.1 != k) m := by
        simp [List.filter_cons, hk]
      rw [this]
      by_cases h2 : k1 = k2
      · subst h2; simp [lookup_cons_self]
      · rw [lookup_cons_ne _ _ _ _ h2, lookup_cons_ne _ _ _ _ h2]
        exact ih

/-! ### The resource cache -/

/-- The inner map `removeResource` leaves under the provider of the identifier,
and the other providers untouched. -/
theorem removeResource_find? (sep identifier : List Char) (rm : ResourceManager) :
    (removeResource sep identifier rm).resources.find?
        (splitResourceIdentifier sep identifier rm.log).1.1 =
      some (if ((((rm.resources.find?
            (splitResourceIdentifier sep identifier rm.log).1.1).getD []).find?
            (splitResourceIdentifier sep identifier rm.log).1.2).getD {}).useCount ≤ 2
        then ((((rm.resources.find? (splitResourceIdentifier sep identifier rm.log).1.1).getD
            []).index (splitResourceIdentifier sep identifier rm.log).1.2 {}).erase
            (splitResourceIdentifier sep identifier rm.log).1.2)
        else (((rm.resources.find? (splitResourceIdentifier sep identifier rm.log).1.1).getD
            []).index (splitResourceIdentifier sep identifier rm.log).1.2 {})) ∧
    ∀ provider, provider ≠ (splitResourceIdentifier sep identifier rm.log).1.1 →
      (removeResource sep identifier rm).resources.find? provider =
        rm.resources.find? provider := by
  have key : ∀ prov name : List Char,
      (rm.resources.index prov []).find? prov = some ((rm.resources.find? prov).getD []) ∧
      ((rm.resources.index prov []).find? prov).isSome = true ∧
      (((rm.resources.index prov []).find? prov).getD []) = (rm.resources.find? prov).getD [] ∧
      ((((rm.resources.find? prov).getD []).index name {}).find? name).getD {} =
        (((rm.resources.find? prov).getD []).find? name).getD {} ∧
      (((rm.resources.index prov []).set prov
        (((rm.resources.find? prov).getD []).index name {})).find? prov).isSome = true := by
    intro prov name
    have h1 : (rm.resources.index prov []).find? prov =
        some ((rm.resources.find? prov).getD []) := StdMap.index_find?_self _ _ _
    have h2 : ((rm.resources.index prov []).find? prov).isSome = true := by rw [h1]; rfl
    refine ⟨h1, h2, by rw [h1]; rfl, by rw [StdMap.index_find?_self]; rfl, ?_⟩
    rw [StdMap.set_find?_self _ _ _ h2]; rfl
  refine ⟨?_, ?_⟩
  · unfold removeResource
    dsimp only
    generalize (splitResourceIdentifier sep identifier rm.log).1.1 = prov
    generalize (splitResourceIdentifier sep identifier rm.log).1.2 = name
    obtain ⟨h1, h2, h3, h4, h5⟩ := key prov name
    simp only [h3, h4]
    split
    · simp only [StdMap.set_find?_self _ _ _ h5]
    · simp only [StdMap.set_find?_self _ _ _ h2]
  · intro provider hne
    unfold removeResource
    dsimp only
    revert hne
    generalize (splitResourceIdentifier sep identifier rm.log).1.1 = prov
    generalize (splitResourceIdentifier sep identifier rm.log).1.2 = name
    intro hne
    obtain ⟨h1, h2, h3, h4, h5⟩ := key prov name
    simp only [h3, h4]
    split
    · simp only [StdMap.set_find?_other _ _ _ _ hne, StdMap.index_find?_other _ _ _ _ hne]
    · simp only [StdMap.set_find?_other _ _ _ _ hne, StdMap.index_find?_other _ _ _ _ hne]

/-- The lookup in the inner map of a provider, absent providers having none. -/
theorem entry_eq_getD (rm : ResourceManager) (provider name : List Char) :
    rm.entry provider name = ((rm.resources.find? provider).getD []).find? name := by
  unfold ResourceManager.entry
  cases rm.resources.find? provider with
  | none => rfl
  | some m => rfl

/-- An identifier in which the separator is found is the scheme, the separator
and the path put together. -/
theorem split_reassemble (sep identifier : List Char) (log : List LogEntry)
    (h : sep <:+: identifier) :
    (splitResourceIdentifier sep identifier log).1.1 ++ sep ++
      (splitResourceIdentifier sep identifier log).1.2 = identifier := by
  cases hf : stringFind sep identifier with
  | none =>
    obtain ⟨i, hi⟩ := (infix_iff_prefix_drop sep identifier).mp h
    exact absurd hi (stringFind_none sep identifier hf i)
  | some pos =>
    obtain ⟨⟨rest, hrest⟩, _⟩ := stringFind_some sep identifier pos hf
    have hpath : identifier.drop (pos + sep.length) = rest := by
      rw [← List.drop_drop, ← hrest]
      simp
    simp only [splitResourceIdentifier, hf]
    rw [hpath, List.append_assoc, hrest, List.take_append_drop]

/-- C18: `removeResource(identifier)` erases the cache entry stored under the
scheme and path of the identifier exactly when the use count of that entry is
at most 2, and keeps it when the use count is 3 or more; the entries under
every other scheme and path are unchanged in either case, and so is the entry
of every other identifier when both identifiers contain the separator. -/
theorem removeResource_threshold (sep identifier : List Char) (rm : ResourceManager) :
    ((removeResource sep identifier rm).entry
        (splitResourceIdentifier sep identifier rm.log).1.1
        (splitResourceIdentifier sep identifier rm.log).1.2 =
      match rm.entry (splitResourceIdentifier sep identifier rm.log).1.1
          (splitResourceIdentifier sep identifier rm.log).1.2 with
      | some r => if r.useCount ≤ 2 then none else some r
      | none => none) ∧
    (∀ provider name : List Char,
      (provider, name) ≠ (splitResourceIdentifier sep identifier rm.log).1 →
      (removeResource sep identifier rm).entry provider name = rm.entry provider name) ∧
    (∀ identifier2 : List Char, sep <:+: identifier → sep <:+: identifier2 →
      identifier2 ≠ identifier →
      (removeResource sep identifier rm).entry
          (splitResourceIdentifier sep identifier2 rm.log).1.1
          (splitResourceIdentifier sep identifier2 rm.log).1.2 =
        rm.entry (splitResourceIdentifier sep identifier2 rm.log).1.1
          (splitResourceIdentifier sep identifier2 rm.log).1.2) := by
  obtain ⟨hself, hother⟩ := removeResource_find? sep identifier rm
  have part2 : ∀ provider name : List Char,
      (provider, name) ≠ (splitResourceIdentifier sep identifier rm.log).1 →
      (removeResource sep identifier rm).entry provider name = rm.entry provider name := by
    intro provider name hne
    by_cases hp : provider = (splitResourceIdentifier sep identifier rm.log).1.1
    · have hn : name ≠ (splitResourceIdentifier sep identifier rm.log).1.2 := by
        intro hn
        exact hne (by rw [hp, hn])
      subst hp
      rw [entry_eq_getD, entry_eq_getD, hself]
      simp only [Option.getD_some]
      split
      · rw [StdMap.erase_find?_other _ _ _ hn, StdMap.index_find?_other _ _ _ _ hn]
      · rw [StdMap.index_find?_other _ _ _ _ hn]
    · rw [entry_eq_getD, entry_eq_getD, hother provider hp]
  refine ⟨?_, part2, ?_⟩
  · rw [entry_eq_getD, entry_eq_getD, hself]
    simp only [Option.getD_some]
    cases hold : ((rm.resources.find? (splitResourceIdentifier sep identifier rm.log).1.1).getD
        []).find? (splitResourceIdentifier sep identifier rm.log).1.2 with
    | none =>
      have h0 : (({} : SharedPtr).useCount ≤ 2) := by decide
      simp only [Option.getD_none, h0, if_true]
      exact StdMap.erase_find?_self _ _
    | some r =>
      simp only [Option.getD_some]
      split
      · exact StdMap.erase_find?_self _ _
      · rw [StdMap.index_find?_self, hold]; rfl
  · intro identifier2 h1 h2 hne
    apply part2
    intro heq
    apply hne
    have e1 := split_reassemble sep identifier rm.log h1
    have e2 := split_reassemble sep identifier2 rm.log h2
    have hk : (splitResourceIdentifier sep identifier2 rm.log).1 =
        (splitResourceIdentifier sep identifier rm.log).1 := heq
    rw [← e1, ← e2, hk]

/-- Witness for C18: removing `file://a` (use count 2) from the example cache
leaves the entry of `file://b` as it was. -/
theorem removeResource_threshold_witness :
    (removeResource RESOURCE_ID_SEPARATOR ['f', 'i', 'l', 'e', ':', '/', '/', 'a']
        ResourceManager.demo).entry ['f', 'i', 'l', 'e'] ['b'] =
      ResourceManager.demo.entry ['f', 'i', 'l', 'e'] ['b'] ∧
    (removeResource RESOURCE_ID_SEPARATOR ['f', 'i', 'l', 'e', ':', '/', '/', 'a']
        ResourceManager.demo).entry ['f', 'i', 'l', 'e'] ['a'] = none ∧
    (removeResource RESOURCE_ID_SEPARATOR ['f', 'i', 'l', 'e', ':', '/', '/', 'b']
        ResourceManager.demo).entry ['f', 'i', 'l', 'e'] ['b'] = some ⟨2, 3⟩ :=
  ⟨(removeResource_threshold RESOURCE_ID_SEPARATOR ['f', 'i', 'l', 'e', ':', '/', '/', 'a']
      ResourceManager.demo).2.1 ['f', 'i', 'l', 'e'] ['b'] (by decide),
    (removeResource_threshold RESOURCE_ID_SEPARATOR ['f', 'i', 'l', 'e', ':', '/', '/', 'a']
      ResourceManager.demo).1,
    (removeResource_threshold RESOURCE_ID_SEPARATOR ['f', 'i', 'l', 'e', ':', '/', '/', 'b']
      ResourceManager.demo).1⟩

/-- The provider loop finds nothing exactly when no provider has the
resource. -/
theorem providerLoop_none (name : List Char) (l : List ResourceProvider) :
    providerLoop name l = none ↔ ∀ p ∈ l, p.hasResource name = false := by
  induction l with
  | nil => simp [providerLoop]
  | cons q qs ih =>
    unfold providerLoop
    by_cases hq : q.hasResource name = true
    · simp [hq]
    · simp only [hq, Bool.false_eq_true, if_false, ih, List.mem_cons, forall_eq_or_imp]
      simp [hq]

/-- The provider the loop returns is the first of the list that has the
resource. -/
theorem providerLoop_some (name : List Char) (l : List ResourceProvider)
    (p : ResourceProvider) (h : providerLoop name l = some p) :
    ∃ a b, l = a ++ p :: b ∧ p.hasResource name = true ∧
      ∀ q ∈ a, q.hasResource name = false := by
  induction l with
  | nil => simp [providerLoop] at h
  | cons q qs ih =>
    unfold providerLoop at h
    by_cases hq : q.hasResource name = true
    · simp only [hq, if_true, Option.some.injEq] at h
      subst h
      exact ⟨[], qs, rfl, hq, by simp⟩
    · simp only [hq, Bool.false_eq_true, if_false] at h
      obtain ⟨a, b, hl, hp, ha⟩ := ih h
      refine ⟨q :: a, b, by rw [hl]; rfl, hp, ?_⟩
      intro r hr
      rcases List.mem_cons.mp hr with rfl | hr
      · simpa using hq
      · exact ha r hr

/-- The vector `providers[name]` holds the providers registered under the
name. -/
theorem index_providersOf (rm : ResourceManager) (name : List Char) :
    ((rm.providers.index name []).find? name).getD [] = rm.providersOf name := by
  rw [StdMap.index_find?_self]
  rfl

/-- C19: the providers registered under a name are kept in registration
order.  `getResourceProviderWithResource` returns null exactly when no provider
registered under the scheme of the identifier has the resource at the path of
the identifier, and then logs one error after whatever the split logged;
otherwise it returns the provider registered last among those of that scheme
that have the resource, and logs no error of its own. -/
theorem getResourceProviderWithResource_latest (sep identifier : List Char)
    (rm : ResourceManager) :
    ((getResourceProviderWithResource sep identifier rm).1 = none ↔
      ∀ p ∈ rm.providersOf (splitResourceIdentifier sep identifier rm.log).1.1,
        p.hasResource (splitResourceIdentifier sep identifier rm.log).1.2 = false) ∧
    (∀ p, (getResourceProviderWithResource sep identifier rm).1 = some p →
      ∃ older newer,
        rm.providersOf (splitResourceIdentifier sep identifier rm.log).1.1 =
          older ++ p :: newer ∧
        p.hasResource (splitResourceIdentifier sep identifier rm.log).1.2 = true ∧
        ∀ q ∈ newer,
          q.hasResource (splitResourceIdentifier sep identifier rm.log).1.2 = false) ∧
    ((getResourceProviderWithResource sep identifier rm).2.log =
      (splitResourceIdentifier sep identifier rm.log).2 ++
        if (getResourceProviderWithResource sep identifier rm).1.isNone
        then [⟨.ERROR, .ResourceManager⟩] else []) ∧
    (∀ (name : List Char) (provider : ResourceProvider),
      (addResourceProvider name provider rm).providersOf name =
        rm.providersOf name ++ [provider] ∧
      ∀ other, other ≠ name →
        (addResourceProvider name provider rm).providersOf other = rm.providersOf other) := by
  have hres : getResourceProviderWithResource sep identifier rm =
      match providerLoop (splitResourceIdentifier sep identifier rm.log).1.2
          (rm.providersOf (splitResourceIdentifier sep identifier rm.log).1.1).reverse with
      | some p => (some p, { rm with
          log := (splitResourceIdentifier sep identifier rm.log).2,
          providers := rm.providers.index
            (splitResourceIdentifier sep identifier rm.log).1.1 [] })
      | none => (none, { rm with
          log := (splitResourceIdentifier sep identifier rm.log).2 ++
            [⟨.ERROR, .ResourceManager⟩],
          providers := rm.providers.index
            (splitResourceIdentifier sep identifier rm.log).1.1 [] }) := by
    unfold getResourceProviderWithResource
    simp only [index_providersOf]
  refine ⟨?_, ?_, ?_, ?_⟩
  · rw [hres]
    cases hl : providerLoop (splitResourceIdentifier sep identifier rm.log).1.2
        (rm.providersOf (splitResourceIdentifier sep identifier rm.log).1.1).reverse with
    | none =>
      simp only [true_iff]
      intro p hp
      exact (providerLoop_none _ _).mp hl p (List.mem_reverse.mpr hp)
    | some p =>
      obtain ⟨a, b, hab, hp, _⟩ := providerLoop_some _ _ p hl
      simp only [false_iff, reduceCtorEq]
      intro hall
      have hmem : p ∈ rm.providersOf (splitResourceIdentifier sep identifier rm.log).1.1 := by
        rw [← List.mem_reverse, hab]
        simp
      rw [hall p hmem] at hp
      cases hp
  · intro p hp
    rw [hres] at hp
    cases hl : providerLoop (splitResourceIdentifier sep identifier rm.log).1.2
        (rm.providersOf (splitResourceIdentifier sep identifier rm.log).1.1).reverse with
    | none => rw [hl] at hp; cases hp
    | some q =>
      rw [hl] at hp
      simp only [Option.some.injEq] at hp
      subst hp
      obtain ⟨a, b, hab, hq, ha⟩ := providerLoop_some _ _ q hl
      refine ⟨b.reverse, a.reverse, ?_, hq, ?_⟩
      · have := congrArg List.reverse hab
        simpa using this
      · intro r hr
        exact ha r (List.mem_reverse.mp hr)
  · rw [hres]
    cases providerLoop (splitResourceIdentifier sep identifier rm.log).1.2
        (rm.providersOf (splitResourceIdentifier sep identifier rm.log).1.1).reverse with
    | none => simp
    | some q => simp
  · intro name provider
    have h1 : (if (rm.providers.find? name).isNone = true then rm.providers ++ [(name, [])]
        else rm.providers) = rm.providers.index name [] := by
      unfold StdMap.index
      cases rm.providers.find? name <;> simp
    have h2 : ((rm.providers.index name []).index name []).find? name =
        some (rm.providersOf name) := by
      rw [StdMap.index_find?_self, index_providersOf]
    refine ⟨?_, ?_⟩
    · unfold addResourceProvider
      simp only [h1]
      unfold ResourceManager.providersOf
      rw [StdMap.set_find?_self _ _ _ (by rw [h2]; rfl), h2]
      rfl
    · intro other hne
      unfold addResourceProvider
      simp only [h1]
      unfold ResourceManager.providersOf
      rw [StdMap.set_find?_other _ _ _ _ hne, StdMap.index_find?_other _ _ _ _ hne,
        StdMap.index_find?_other _ _ _ _ hne]

/-- Witness for C19: `file://a` on the example resource manager is found in
the second of the three providers, the last registered one that has it. -/
theorem getResourceProviderWithResource_latest_witness :
    ∃ older newer,
      ResourceManager.demo.providersOf
          (splitResourceIdentifier RESOURCE_ID_SEPARATOR
            ['f', 'i', 'l', 'e', ':', '/', '/', 'a'] ResourceManager.demo.log).1.1 =
        older ++ (⟨1, fun n => n == ['a'] || n == ['b']⟩ : ResourceProvider) :: newer ∧
      (⟨1, fun n => n == ['a'] || n == ['b']⟩ : ResourceProvider).hasResource
          (splitResourceIdentifier RESOURCE_ID_SEPARATOR
            ['f', 'i', 'l', 'e', ':', '/', '/', 'a'] ResourceManager.demo.log).1.2 = true ∧
      ∀ q ∈ newer, q.hasResource
          (splitResourceIdentifier RESOURCE_ID_SEPARATOR
            ['f', 'i', 'l', 'e', ':', '/', '/', 'a'] ResourceManager.demo.log).1.2 = false :=
  (getResourceProviderWithResource_latest RESOURCE_ID_SEPARATOR
    ['f', 'i', 'l', 'e', ':', '/', '/', 'a'] ResourceManager.demo).2.1
    ⟨1, fun n => n == ['a'] || n == ['b']⟩ rfl

/-! ### Defaults of the state controller -/

/-- C25 (as amended): the first `pushState` call on a backend that has not
initialised its state controller returns, and afterwards the base (bottom)
entry of the stack of every render mode (`CULL_FACE`, `DEPTH_TEST`,
`TEXTURE_CUBE_MAP_SEAMLESS`) is `true`: `initStates` pushes `true` on each stack
and applies it, so each state is enabled by default. -/
theorem pushState_first_call_base_entries_true (d : RasterizerDesc) (m : RenderMode)
    (v : Bool) :
    ∃ s1, pushState m v (State.fresh d) = .ok s1 ∧
      ∀ m1, (s1.stack m1).getLast? = some true := by
  cases m <;> cases v <;>
    exact ⟨_, rfl, fun m1 => by cases m1 <;> rfl⟩

/-- Counterexample for C25: on a backend that has not initialised its state
controller, the first call `pushState(DEPTH_TEST, false)` returns with the
stacks `[true]`, `[false, true]` and `[true]`: the base entry of each is
`true`, so it is not the case that every base entry is `false`. -/
theorem pushState_first_call_base_entry_not_false :
    ∃ s1, pushState .DEPTH_TEST false (State.fresh ⟨D3D11_CULL_BACK, true⟩) = .ok s1 ∧
      s1.stack .CULL_FACE = [true] ∧ s1.stack .DEPTH_TEST = [false, true] ∧
      s1.stack .TEXTURE_CUBE_MAP_SEAMLESS = [true] ∧
      ¬ ∀ m1, (s1.stack m1).getLast? = some false :=
  ⟨_, rfl, rfl, rfl, rfl, fun h => absurd (h .CULL_FACE) (by decide)⟩

/-! ### Validity operators of the handle types -/

/-- C27: `operator!` is the negation of `operator bool` for `TextureHandle`,
`ShaderModuleHandle`, `ShaderHandle`, `UniformBufferHandle` and `MeshHandle`,
whatever the fields hold, but not for `FrameBufferHandle`: there the two agree
except on a handle with a render-target view, `hasDepth` set and no
depth-stencil view, and on a handle without a render-target view, `hasDepth`
clear and a depth-stencil view; on both of these `operator bool` and
`operator!` return `false` alike. -/
theorem operatorNot_negates_except_FrameBufferHandle :
    (∀ h : TextureHandle, h.operatorNot = !h.operatorBool) ∧
    (∀ h : ShaderModuleHandle, h.operatorNot = !h.operatorBool) ∧
    (∀ h : ShaderHandle, h.operatorNot = !h.operatorBool) ∧
    (∀ h : UniformBufferHandle, h.operatorNot = !h.operatorBool) ∧
    (∀ h : MeshHandle, h.operatorNot = !h.operatorBool) ∧
    (∀ h : FrameBufferHandle, h.operatorNot = (!h.operatorBool) ↔
      ¬ (h.renderTargetView ≠ 0 ∧ h.hasDepth = true ∧ h.depthStencilView = 0) ∧
      ¬ (h.renderTargetView = 0 ∧ h.hasDepth = false ∧ h.depthStencilView ≠ 0)) ∧
    (({ renderTargetView := 1, depthStencilView := 0, hasDepth := true } :
        FrameBufferHandle).operatorBool = false ∧
      ({ renderTargetView := 1, depthStencilView := 0, hasDepth := true } :
        FrameBufferHandle).operatorNot = false) ∧
    (({ renderTargetView := 0, depthStencilView := 1, hasDepth := false } :
        FrameBufferHandle).operatorBool = false ∧
      ({ renderTargetView := 0, depthStencilView := 1, hasDepth := false } :
        FrameBufferHandle).operatorNot = false) := by
  refine ⟨?_, ?_, ?_, ?_, ?_, ?_, ⟨rfl, rfl⟩, ⟨rfl, rfl⟩⟩
  · intro h; simp [TextureHandle.operatorNot, TextureHandle.operatorBool, bne]
  · intro h; simp [ShaderModuleHandle.operatorNot, ShaderModuleHandle.operatorBool, bne]
  · intro h
    simp [ShaderHandle.operatorNot, ShaderHandle.operatorBool, ShaderModuleHandle.operatorNot,
      ShaderModuleHandle.operatorBool, Bool.not_and, bne]
  · intro h; simp [UniformBufferHandle.operatorNot, UniformBufferHandle.operatorBool, bne]
  · intro h; simp [MeshHandle.operatorNot, MeshHandle.operatorBool, Bool.not_and, bne]
  · intro h
    by_cases hr : h.renderTargetView = 0 <;> by_cases hv : h.depthStencilView = 0 <;>
      cases hd : h.hasDepth <;>
      simp [FrameBufferHandle.operatorNot, FrameBufferHandle.operatorBool, hr, hv, hd, bne]

/-! ### Previous cursor position -/

/-- C28 (as amended): a movement callback at `(x, y)` that follows a movement
callback at `(px, py)` runs every `MOVE` binding, in registration order, with
the offset `(x - px, y - py)`, except that a coordinate of the previous
position equal to the sentinel `-1` is seeded again and contributes the offset
`0`. -/
theorem mouseMovementCallback_offset (px py x y : ℚ) (e : Engine) :
    (Engine.mouseMovementCallback x y (Engine.mouseMovementCallback px py e)).actions =
      (Engine.mouseMovementCallback px py e).actions ++ Action.mouseMovementCallback x y ::
        (e.mousebinds.filter (fun b => b.type == .MOVE)).map
          (fun b => Action.runMousebind b (if px = -1 then 0 else x - px)
            (if py = -1 then 0 else y - py)) := by
  have h1 : (Engine.mouseMovementCallback px py e).lastMouseX = px := by
    simp [Engine.mouseMovementCallback]
  have h2 : (Engine.mouseMovementCallback px py e).lastMouseY = py := by
    simp [Engine.mouseMovementCallback]
  have h3 : (Engine.mouseMovementCallback px py e).mousebinds = e.mousebinds := by
    simp only [Engine.mouseMovementCallback, Engine.act, Engine.acts]
    split_ifs <;> rfl
  generalize Engine.mouseMovementCallback px py e = e1 at h1 h2 h3
  by_cases hx : px = -1 <;> by_cases hy : py = -1 <;>
    simp [Engine.mouseMovementCallback, Engine.act, Engine.acts, h1, h2, h3, hx, hy,
      mousebindLoop_eq]

/-- Counterexample for C28: after a movement callback at `(-1, 5)`, the
callback at `(3, 7)` runs the `MOVE` binding with the offset `(0, 2)`, not
with `(3 - (-1), 7 - 5) = (4, 2)`. -/
theorem mouseMovementCallback_previous_minus_one :
    (Engine.mouseMovementCallback 3 7 (Engine.mouseMovementCallback (-1) 5
        { Engine.preInit 1 Engine.start with mousebinds := [⟨.MOVE, 0⟩] })).actions =
      [Action.mouseMovementCallback (-1) 5, .runMousebind ⟨.MOVE, 0⟩ 0 0,
        .mouseMovementCallback 3 7, .runMousebind ⟨.MOVE, 0⟩ 0 2] ∧
    Action.runMousebind ⟨.MOVE, 0⟩ 0 2 ≠ .runMousebind ⟨.MOVE, 0⟩ (3 - (-1)) (7 - 5) := by
  refine ⟨?_, ?_⟩
  · simp [Engine.mouseMovementCallback, Engine.act, Engine.acts, Engine.preInit, Engine.start,
      mousebindLoop]
    norm_num
  · norm_num

/-! ### The tracked rasterizer description -/

/-- The freshly initialised controller tracks its stack tops. -/
theorem initialised_tracksTops (d : RasterizerDesc) : (State.initialised d).TracksTops :=
  ⟨⟨true, [], rfl, rfl⟩, ⟨true, [], rfl, rfl⟩, rfl⟩

/-- The first `pushState` call of a backend initialises the controller and
leaves it tracking its stack tops. -/
theorem pushState_fresh_tracksTops (d : RasterizerDesc) (m : RenderMode) (v : Bool) :
    ∃ s1, pushState m v (State.fresh d) = .ok s1 ∧ s1.Initialised ∧ s1.TracksTops := by
  cases m <;> cases v <;>
    exact ⟨_, rfl, ⟨rfl, fun m1 => by cases m1 <;> simp [State.stack, State.setStack,
      changeRenderMode, initStates, State.log, State.fresh]⟩,
      ⟨⟨_, _, rfl, rfl⟩, ⟨_, _, rfl, rfl⟩, rfl⟩⟩

/-- A returning `pushState` keeps the controller tracking its stack tops. -/
theorem pushState_tracksTops (m : RenderMode) (v : Bool) (s : State)
    (hI : s.Initialised) (hT : s.TracksTops) :
    ∃ s1, pushState m v s = .ok s1 ∧ s1.TracksTops := by
  obtain ⟨hinit, hne⟩ := hI
  obtain ⟨top, below, hstack⟩ := List.exists_cons_of_ne_nil (hne m)
  obtain ⟨⟨c, cs, hc, hcm⟩, ⟨t, ts, ht, htm⟩, hdev⟩ := hT
  rw [pushState_eq m v s top below hinit hstack]
  refine ⟨_, rfl, ?_⟩
  cases m <;> cases v <;> cases top <;>
    simp_all [State.TracksTops, State.stack, State.setStack, State.log, changeRenderMode]

/-- A returning `popState` keeps the controller tracking its stack tops. -/
theorem popState_tracksTops (m : RenderMode) (s s1 : State)
    (hT : s.TracksTops) (h : popState m s = .ok s1) : s1.TracksTops := by
  obtain ⟨⟨c, cs, hc, hcm⟩, ⟨t, ts, ht, htm⟩, hdev⟩ := hT
  cases hst : s.stack m with
  | nil =>
    rw [popState_fatal m s (by simp [hst])] at h
    exact absurd h (by simp)
  | cons old rest =>
    cases rest with
    | nil =>
      rw [popState_fatal m s (by simp [hst])] at h
      exact absurd h (by simp)
    | cons top below =>
      rw [popState_eq m s old top below hst] at h
      simp only [Outcome.ok.injEq] at h
      subst h
      cases m <;> cases old <;> cases top <;>
        simp_all [State.TracksTops, State.stack, State.setStack, State.log, changeRenderMode]

/-- A returning run of `pushState` and `popState` calls keeps the controller
initialised and tracking its stack tops. -/
theorem runStateOps_tracksTops (ops : List StateOp) :
    ∀ s s1 : State, s.Initialised → s.TracksTops → runStateOps ops s = .ok s1 →
      s1.Initialised ∧ s1.TracksTops := by
  induction ops with
  | nil =>
    intro s s1 hI hT h
    simp only [runStateOps, Outcome.ok.injEq] at h
    subst h
    exact ⟨hI, hT⟩
  | cons op ops ih =>
    intro s s1 hI hT h
    cases op with
    | push m v =>
      obtain ⟨s2, hpush, hT2⟩ := pushState_tracksTops m v s hI hT
      obtain ⟨s3, hpush3, hI2, _⟩ := pushState_initialised m v s hI
      rw [hpush] at hpush3
      simp only [Outcome.ok.injEq] at hpush3
      subst hpush3
      have hrun : runStateOps (StateOp.push m v :: ops) s = runStateOps ops s2 := by
        simp [runStateOps, StateOp.run, hpush, Outcome.andThen]
      rw [hrun] at h
      exact ih s2 s1 hI2 hT2 h
    | pop m =>
      rcases popState_initialised m s hI with ⟨_, hfatal⟩ | ⟨_, s2, hpop, hI2, _⟩
      · simp [runStateOps, StateOp.run, hfatal, Outcome.andThen] at h
      · have hrun : runStateOps (StateOp.pop m :: ops) s = runStateOps ops s2 := by
          simp [runStateOps, StateOp.run, hpop, Outcome.andThen]
        rw [hrun] at h
        exact ih s2 s1 hI2 (popState_tracksTops m s s2 hT hpop) h

/-- On an initialised controller that tracks its stack tops, `pushState(m, v)`
followed by `popState(m)` returns and restores every stack, the tracked
rasterizer description and the description set on the device. -/
theorem pushState_popState_restores (m : RenderMode) (v : Bool) (s : State)
    (hI : s.Initialised) (hT : s.TracksTops) :
    ∃ s2 s3, pushState m v s = .ok s2 ∧ popState m s2 = .ok s3 ∧
      (∀ m1, s3.stack m1 = s.stack m1) ∧
      s3.rasterizerDesc = s.rasterizerDesc ∧ s3.deviceRasterizer = s.deviceRasterizer := by
  obtain ⟨hinit, hne⟩ := hI
  obtain ⟨top, below, hstack⟩ := List.exists_cons_of_ne_nil (hne m)
  obtain ⟨⟨c, cs, hc, hcm⟩, ⟨t, ts, ht, htm⟩, hdev⟩ := hT
  by_cases hv : v = top
  · subst hv
    have h1 : pushState m v s = .ok ((s.log (.pushState m v)).setStack m (v :: v :: below)) := by
      rw [pushState_eq m v s v below hinit hstack]
      simp
    have h2 : popState m ((s.log (.pushState m v)).setStack m (v :: v :: below)) =
        .ok ((((s.log (.pushState m v)).setStack m (v :: v :: below)).log
          (.popState m)).setStack m (v :: below)) := by
      rw [popState_eq m _ v v below (by simp)]
      simp
    refine ⟨_, _, h1, h2, ?_, ?_, ?_⟩ <;> clear h1 h2
    · intro m1
      by_cases hm : m1 = m
      · subst hm; simp [hstack]
      · simp [setStack_stack_other _ _ _ _ hm]
    · cases m <;> rfl
    · cases m <;> rfl
  · have hb : (v != top) = true := by simpa using hv
    have hb2 : (top != v) = true := by simpa using fun h : top = v => hv h.symm
    have h1 : pushState m v s = .ok (changeRenderMode m v
        ((s.log (.pushState m v)).setStack m (v :: top :: below))) := by
      rw [pushState_eq m v s top below hinit hstack]
      simp [hb]
    have h2 : popState m (changeRenderMode m v
        ((s.log (.pushState m v)).setStack m (v :: top :: below))) =
        .ok (changeRenderMode m top (((changeRenderMode m v
          ((s.log (.pushState m v)).setStack m (v :: top :: below))).log
            (.popState m)).setStack m (top :: below))) := by
      rw [popState_eq m _ v top below (by simp)]
      simp [hb2]
    have hext : ∀ a b : RasterizerDesc, a.CullMode = b.CullMode →
        a.DepthClipEnable = b.DepthClipEnable → a = b := by
      intro a b ha hb
      cases a; cases b; simp_all
    refine ⟨_, _, h1, h2, ?_, ?_, ?_⟩ <;> clear h1 h2
    · intro m1
      by_cases hm : m1 = m
      · subst hm; simp [hstack]
      · simp [setStack_stack_other _ _ _ _ hm]
    · cases m
      · have hct : c = top := by
          rw [hc] at hstack
          exact (List.cons.inj hstack).1
        show ({ CullMode := if top then D3D11_CULL_FRONT else D3D11_CULL_NONE,
                DepthClipEnable := s.rasterizerDesc.DepthClipEnable } : RasterizerDesc) =
          s.rasterizerDesc
        exact hext _ _ (by rw [hcm, hct]) rfl
      · have htt : t = top := by
          rw [ht] at hstack
          exact (List.cons.inj hstack).1
        show ({ CullMode := s.rasterizerDesc.CullMode, DepthClipEnable := top } :
          RasterizerDesc) = s.rasterizerDesc
        exact hext _ _ rfl (by rw [htm, htt])
      · rfl
    · cases m
      · have hct : c = top := by
          rw [hc] at hstack
          exact (List.cons.inj hstack).1
        show ({ CullMode := if top then D3D11_CULL_FRONT else D3D11_CULL_NONE,
                DepthClipEnable := s.rasterizerDesc.DepthClipEnable } : RasterizerDesc) =
          s.deviceRasterizer
        rw [hdev]
        exact hext _ _ (by rw [hcm, hct]) rfl
      · have htt : t = top := by
          rw [ht] at hstack
          exact (List.cons.inj hstack).1
        show ({ CullMode := s.rasterizerDesc.CullMode, DepthClipEnable := top } :
          RasterizerDesc) = s.deviceRasterizer
        rw [hdev]
        exact hext _ _ rfl (by rw [htm, htt])
      · rfl

/-- C26: start from the controller as `initStates` leaves it, or from a
backend whose first `pushState` call initialises it, and run any sequence of
`pushState` and `popState` calls that returns.  Afterwards no stack is empty,
`CullMode` of the tracked rasterizer description is `D3D11_CULL_FRONT` when the
top of the `CULL_FACE` stack is `true` and `D3D11_CULL_NONE` when it is
`false`, `DepthClipEnable` is the top of the `DEPTH_TEST` stack, the device
holds the tracked description, and `pushState(m, v)` followed by `popState(m)`
returns and restores every stack, the tracked description and the device
state. -/
theorem rasterizerDesc_tracks_stack_tops (d : RasterizerDesc) (ops : List StateOp)
    (s0 s1 : State)
    (hstart : s0 = State.initialised d ∨ ∃ m v, pushState m v (State.fresh d) = .ok s0)
    (hrun : runStateOps ops s0 = .ok s1) :
    (∃ c cs, s1.stack .CULL_FACE = c :: cs ∧
      s1.rasterizerDesc.CullMode = if c then D3D11_CULL_FRONT else D3D11_CULL_NONE) ∧
    (∃ t ts, s1.stack .DEPTH_TEST = t :: ts ∧ s1.rasterizerDesc.DepthClipEnable = t) ∧
    s1.deviceRasterizer = s1.rasterizerDesc ∧
    ∀ m v, ∃ s2 s3, pushState m v s1 = .ok s2 ∧ popState m s2 = .ok s3 ∧
      (∀ m1, s3.stack m1 = s1.stack m1) ∧
      s3.rasterizerDesc = s1.rasterizerDesc ∧ s3.deviceRasterizer = s1.deviceRasterizer := by
  have h0 : s0.Initialised ∧ s0.TracksTops := by
    rcases hstart with h | ⟨m, v, h⟩
    · subst h
      exact ⟨initialised_Initialised d, initialised_tracksTops d⟩
    · obtain ⟨s, hs, hI, hT⟩ := pushState_fresh_tracksTops d m v
      rw [hs] at h
      simp only [Outcome.ok.injEq] at h
      subst h
      exact ⟨hI, hT⟩
  obtain ⟨hI1, hT1⟩ := runStateOps_tracksTops ops s0 s1 h0.1 h0.2 hrun
  exact ⟨hT1.1, hT1.2.1, hT1.2.2, fun m v => pushState_popState_restores m v s1 hI1 hT1⟩

/-- Witness for C26: the run `pushState(CULL_FACE, false)`,
`pushState(DEPTH_TEST, false)`, `popState(DEPTH_TEST)` from the controller as
`initStates` leaves it. -/
theorem rasterizerDesc_tracks_stack_tops_witness :
    (runStateOps [.push .CULL_FACE false, .push .DEPTH_TEST false, .pop .DEPTH_TEST]
        (State.initialised ⟨D3D11_CULL_BACK, false⟩)).state.stack .CULL_FACE = [false, true] ∧
    (runStateOps [.push .CULL_FACE false, .push .DEPTH_TEST false, .pop .DEPTH_TEST]
        (State.initialised ⟨D3D11_CULL_BACK, false⟩)).state.rasterizerDesc =
      ⟨D3D11_CULL_NONE, true⟩ ∧
    ((∃ c cs, (runStateOps [.push .CULL_FACE false, .push .DEPTH_TEST false, .pop .DEPTH_TEST]
        (State.initialised ⟨D3D11_CULL_BACK, false⟩)).state.stack .CULL_FACE = c :: cs ∧
      (runStateOps [.push .CULL_FACE false, .push .DEPTH_TEST false, .pop .DEPTH_TEST]
        (State.initialised ⟨D3D11_CULL_BACK, false⟩)).state.rasterizerDesc.CullMode =
        if c then D3D11_CULL_FRONT else D3D11_CULL_NONE) ∧
    (∃ t ts, (runStateOps [.push .CULL_FACE false, .push .DEPTH_TEST false, .pop .DEPTH_TEST]
        (State.initialised ⟨D3D11_CULL_BACK, false⟩)).state.stack .DEPTH_TEST = t :: ts ∧
      (runStateOps [.push .CULL_FACE false, .push .DEPTH_TEST false, .pop .DEPTH_TEST]
        (State.initialised ⟨D3D11_CULL_BACK, false⟩)).state.rasterizerDesc.DepthClipEnable = t) ∧
    (runStateOps [.push .CULL_FACE false, .push .DEPTH_TEST false, .pop .DEPTH_TEST]
        (State.initialised ⟨D3D11_CULL_BACK, false⟩)).state.deviceRasterizer =
      (runStateOps [.push .CULL_FACE false, .push .DEPTH_TEST false, .pop .DEPTH_TEST]
        (State.initialised ⟨D3D11_CULL_BACK, false⟩)).state.rasterizerDesc ∧
    ∀ m v, ∃ s2 s3,
      pushState m v (runStateOps [.push .CULL_FACE false, .push .DEPTH_TEST false,
        .pop .DEPTH_TEST] (State.initialised ⟨D3D11_CULL_BACK, false⟩)).state = .ok s2 ∧
      popState m s2 = .ok s3 ∧
      (∀ m1, s3.stack m1 = (runStateOps [.push .CULL_FACE false, .push .DEPTH_TEST false,
        .pop .DEPTH_TEST] (State.initialised ⟨D3D11_CULL_BACK, false⟩)).state.stack m1) ∧
      s3.rasterizerDesc = (runStateOps [.push .CULL_FACE false, .push .DEPTH_TEST false,
        .pop .DEPTH_TEST] (State.initialised ⟨D3D11_CULL_BACK, false⟩)).state.rasterizerDesc ∧
      s3.deviceRasterizer = (runStateOps [.push .CULL_FACE false, .push .DEPTH_TEST false,
        .pop .DEPTH_TEST] (State.initialised ⟨D3D11_CULL_BACK, false⟩)).state.deviceRasterizer) :=
  ⟨rfl, rfl,
    rasterizerDesc_tracks_stack_tops ⟨D3D11_CULL_BACK, false⟩
      [.push .CULL_FACE false, .push .DEPTH_TEST false, .pop .DEPTH_TEST]
      (State.initialised ⟨D3D11_CULL_BACK, false⟩) _ (Or.inl rfl) rfl⟩

/-! ### The window pool -/

@[simp]
theorem Device.handle_log (d : Device) (c : DeviceCall) (j : Nat) :
    (d.log c).handle j = d.handle j := rfl

@[simp]
theorem Device.handle_logs (d : Device) (l : List DeviceCall) (j : Nat) :
    (d.logs l).handle j = d.handle j := rfl

@[simp]
theorem Device.g_Windows_log (d : Device) (c : DeviceCall) :
    (d.log c).g_Windows = d.g_Windows := rfl

@[simp]
theorem Device.g_Windows_logs (d : Device) (l : List DeviceCall) :
    (d.logs l).g_Windows = d.g_Windows := rfl

@[simp]
theorem Device.trace_log (d : Device) (c : DeviceCall) :
    (d.log c).trace = d.trace ++ [c] := rfl

@[simp]
theorem Device.trace_logs (d : Device) (l : List DeviceCall) :
    (d.logs l).trace = d.trace ++ l := rfl

@[simp]
theorem Device.trace_setHandle (d : Device) (h : Nat) (w : WindowHandle) :
    (d.setHandle h w).trace = d.trace := rfl

@[simp]
theorem Device.keyEvents_setHandle (d : Device) (h : Nat) (w : WindowHandle) :
    (d.setHandle h w).keyEvents = d.keyEvents := rfl

@[simp]
theorem Device.keyEvents_log (d : Device) (c : DeviceCall) :
    (d.log c).keyEvents = d.keyEvents := rfl

@[simp]
theorem Device.keyEvents_logs (d : Device) (l : List DeviceCall) :
    (d.logs l).keyEvents = d.keyEvents := rfl

@[simp]
theorem Device.length_setHandle (d : Device) (h : Nat) (w : WindowHandle) :
    (d.setHandle h w).g_Windows.length = d.g_Windows.length := by
  simp [Device.setHandle]

/-- Reading a slot back after an assignment through its handle. -/
theorem Device.handle_setHandle_self (d : Device) (h : Nat) (w : WindowHandle)
    (hh : h < d.g_Windows.length) : (d.setHandle h w).handle h = w := by
  simp [Device.setHandle, Device.handle, hh]

/-- An assignment through a handle leaves the other slots alone. -/
theorem Device.handle_setHandle_ne (d : Device) (h j : Nat) (w : WindowHandle) (hj : j ≠ h) :
    (d.setHandle h w).handle j = d.handle j := by
  have hj2 : h ≠ j := fun e => hj e.symm
  simp [Device.setHandle, Device.handle, List.getElem?_set_ne hj2]

/-- The scan of `findFreeWindow` returns the index of the first free slot,
counted from `i`, or `-1` when there is none. -/
theorem findFreeWindowLoop_eq (ws : List WindowHandle) :
    ∀ i : Nat, findFreeWindowLoop ws i =
      if ws.findIdx (fun w => w.window == 0) < ws.length
      then ((i + ws.findIdx (fun w => w.window == 0) : Nat) : Int) else -1 := by
  induction ws with
  | nil => intro i; simp [findFreeWindowLoop]
  | cons w ws ih =>
    intro i
    unfold findFreeWindowLoop
    by_cases hw : w.window = 0
    · simp [WindowHandle.operatorNot, hw, List.findIdx_cons]
    · have hb : (w.window == 0) = false := by simpa using hw
      simp only [WindowHandle.operatorNot, hb, if_false, ih, List.findIdx_cons,
        List.length_cons, cond_false, Bool.false_eq_true, Nat.add_lt_add_iff_right]
      split
      · congr 1; omega
      · rfl

/-- The scan finds the slot `i` when it is the first free one. -/
theorem findFreeWindow_first (d : Device) (i : Nat) (hi : i < d.g_Windows.length)
    (hfree : (d.handle i).window = 0) (hocc : ∀ j, j < i → (d.handle j).window ≠ 0) :
    findFreeWindow d = (i : Int) := by
  have hx : List.findIdx (fun w : WindowHandle => w.window == 0) d.g_Windows = i := by
    rw [List.findIdx_eq hi]
    refine ⟨?_, ?_⟩
    · simpa [Device.handle, hi] using hfree
    · intro j hj
      have := hocc j hj
      have hj2 : j < d.g_Windows.length := by omega
      simpa [Device.handle, hj2] using this
  unfold findFreeWindow
  rw [findFreeWindowLoop_eq, hx]
  simp [hi]

/-- The scan returns `-1` when every slot is occupied. -/
theorem findFreeWindow_full (d : Device) (hocc : ∀ w ∈ d.g_Windows, w.window ≠ 0) :
    findFreeWindow d = -1 := by
  have hx : List.findIdx (fun w : WindowHandle => w.window == 0) d.g_Windows =
      d.g_Windows.length := by
    rw [List.findIdx_eq_length]
    intro w hw
    simpa using hocc w hw
  unfold findFreeWindow
  rw [findFreeWindowLoop_eq, hx]
  simp

/-- The count of `getWindowCount` adds the number of occupied slots. -/
theorem getWindowCountLoop_eq (ws : List WindowHandle) :
    ∀ count : Int, getWindowCountLoop ws count =
      count + (ws.countP (fun w => w.window != 0) : Nat) := by
  induction ws with
  | nil => intro count; simp [getWindowCountLoop]
  | cons w ws ih =>
    intro count
    unfold getWindowCountLoop
    rw [ih]
    by_cases hw : w.window = 0
    · simp [WindowHandle.operatorBool, hw]
    · simp [WindowHandle.operatorBool, hw, List.countP_cons]
      omega

/-- The shape of what `createWindow` returns when the scan finds the slot `i`:
the handle of slot `i` exactly when SDL and Direct3D give what they are asked
for, and a device in which only slot `i`, the trace and `bakedFonts` may have
changed, the slot holding the native window SDL returned. -/
theorem createWindow_shape (env : CreateEnv) (width height : Int) (viewport : Ptr) (d : Device)
    (i : Nat) (hfind : findFreeWindow d = (i : Int)) :
    ∃ (w : WindowHandle) (tr : List DeviceCall) (bf : Bool),
      d.createWindow env width height viewport =
        (if env.SDL_CreateWindow ≠ 0 ∧ env.CreateSwapChain ≠ none ∧ env.pBackBuffer ≠ 0
          then some i else none,
         { g_Windows := d.g_Windows.set i w, keyEvents := d.keyEvents, bakedFonts := bf,
           trace := tr }) ∧
      w.window = env.SDL_CreateWindow := by
  have hne : ((i : Int) == -1) = false := by
    simp only [beq_eq_false_iff_ne, ne_eq]
    omega
  unfold Device.createWindow
  simp only [hfind, hne, Bool.false_eq_true, if_false, Int.toNat_ofNat]
  by_cases hw : env.SDL_CreateWindow = 0
  · have hwb : (env.SDL_CreateWindow == 0) = true := by simpa using hw
    simp only [hwb, if_true, hw, ne_eq, not_true_eq_false, false_and, if_false]
    exact ⟨_, _, _, rfl, rfl⟩
  · have hwb : (env.SDL_CreateWindow == 0) = false := by simpa using hw
    simp only [hwb, Bool.false_eq_true, if_false, ne_eq, hw, not_false_eq_true, true_and]
    cases hsc : env.CreateSwapChain with
    | none =>
      simp only [not_true_eq_false, false_and, if_false]
      exact ⟨_, _, _, rfl, rfl⟩
    | some sc =>
      by_cases hb : env.pBackBuffer = 0
      · have hbb : (env.pBackBuffer != 0) = false := by simpa using hb
        simp only [hbb, Bool.false_eq_true, if_false, hb, not_true_eq_false, and_false]
        exact ⟨_, _, _, rfl, rfl⟩
      · have hbb : (env.pBackBuffer != 0) = true := by simpa using hb
        simp only [hbb, if_true, hb, not_false_eq_true, and_true, reduceCtorEq]
        cases hv : (viewport != 0) <;> cases hic : env.icon <;> cases hbf : d.bakedFonts <;>
          simp only [Bool.false_eq_true, if_false, if_true, Device.log, hbf, Bool.not_false,
            Bool.not_true] <;>
          exact ⟨_, _, _, rfl, rfl⟩

/-- What `createWindow` does when the scan finds the slot `i`: the other
slots keep their handles, the pool keeps its size, the call returns the
handle of slot `i` or null, a returned handle has its native window, and the
call returns the handle when SDL and Direct3D give what they are asked for. -/
theorem createWindow_slot (env : CreateEnv) (width height : Int) (viewport : Ptr) (d : Device)
    (i : Nat) (hi : i < d.g_Windows.length) (hfind : findFreeWindow d = (i : Int)) :
    (∀ j, j ≠ i → ((d.createWindow env width height viewport).2).handle j = d.handle j) ∧
    ((d.createWindow env width height viewport).2).g_Windows.length = d.g_Windows.length ∧
    ((d.createWindow env width height viewport).1 = some i ∨
      (d.createWindow env width height viewport).1 = none) ∧
    ((d.createWindow env width height viewport).1 = some i →
      (((d.createWindow env width height viewport).2).handle i).window = env.SDL_CreateWindow ∧
      env.SDL_CreateWindow ≠ 0) ∧
    (env.SDL_CreateWindow ≠ 0 → env.CreateSwapChain ≠ none → env.pBackBuffer ≠ 0 →
      (d.createWindow env width height viewport).1 = some i) := by
  obtain ⟨w, tr, bf, heq, hwin⟩ := createWindow_shape env width height viewport d i hfind
  rw [heq]
  refine ⟨?_, ?_, ?_, ?_, ?_⟩
  · intro j hj
    have hj2 : i ≠ j := fun e => hj e.symm
    simp [Device.handle, List.getElem?_set_ne hj2]
  · simp
  · dsimp only
    split
    · exact Or.inl rfl
    · exact Or.inr rfl
  · dsimp only
    intro h
    split at h
    · rename_i hc
      exact ⟨by simp [Device.handle, hi, hwin], hc.1⟩
    · exact absurd h (by simp)
  · intro h1 h2 h3
    simp [h1, h2, h3]

/-- What `destroyWindow` does: the slot loses its native window, the other
slots and the size of the pool stay, and the trace gets the calls of the
destruction. -/
theorem destroyWindow_spec (d : Device) (h : Nat) (hh : h < d.g_Windows.length) :
    ((d.destroyWindow h).handle h).window = 0 ∧
    (∀ j, j ≠ h → (d.destroyWindow h).handle j = d.handle j) ∧
    (d.destroyWindow h).g_Windows.length = d.g_Windows.length ∧
    (d.destroyWindow h).trace = d.trace ++ destroyWindowCalls h (d.handle h) := by
  unfold Device.destroyWindow
  refine ⟨?_, ?_, ?_, ?_⟩
  · rw [Device.handle_setHandle_self _ _ _ (by simpa using hh)]
  · intro j hj
    rw [Device.handle_setHandle_ne _ _ _ _ hj]
    rfl
  · simp
  · simp

/-- C21: in a pool of 256 slots, a slot counting as occupied exactly when its
native window pointer is not null, `getWindowCount` returns the number of
occupied slots; `createWindow` returns null and leaves the device as it is
when every slot is occupied; when `i` is the lowest free slot, the scan finds
it, `createWindow` changes no other slot, returns the handle of slot `i` or
null, a returned handle has its native window, and the handle is returned
whenever SDL and Direct3D give what they are asked for; `destroyWindow` makes
the slot of its handle free, leaves the other slots alone, and a `createWindow`
call after it returns that slot again when it is the lowest free one. -/
theorem windowPool_slots (env : CreateEnv) (width height : Int) (viewport : Ptr) (d : Device)
    (hlen : d.g_Windows.length = 256) :
    d.getWindowCount = ((d.g_Windows.countP (fun w => w.window != 0) : Nat) : Int) ∧
    ((∀ i, i < 256 → (d.handle i).window ≠ 0) →
      d.createWindow env width height viewport = (none, d)) ∧
    (∀ i, i < 256 → (d.handle i).window = 0 → (∀ j, j < i → (d.handle j).window ≠ 0) →
      findFreeWindow d = (i : Int) ∧
      (∀ j, j ≠ i → ((d.createWindow env width height viewport).2).handle j = d.handle j) ∧
      ((d.createWindow env width height viewport).2).g_Windows.length = 256 ∧
      ((d.createWindow env width height viewport).1 = some i ∨
        (d.createWindow env width height viewport).1 = none) ∧
      ((d.createWindow env width height viewport).1 = some i →
        (((d.createWindow env width height viewport).2).handle i).window =
          env.SDL_CreateWindow ∧ env.SDL_CreateWindow ≠ 0) ∧
      (env.SDL_CreateWindow ≠ 0 → env.CreateSwapChain ≠ none → env.pBackBuffer ≠ 0 →
        (d.createWindow env width height viewport).1 = some i)) ∧
    (∀ h, h < 256 →
      ((d.destroyWindow h).handle h).window = 0 ∧
      (∀ j, j ≠ h → (d.destroyWindow h).handle j = d.handle j) ∧
      (d.destroyWindow h).g_Windows.length = 256 ∧
      ((∀ j, j < h → (d.handle j).window ≠ 0) →
        env.SDL_CreateWindow ≠ 0 → env.CreateSwapChain ≠ none → env.pBackBuffer ≠ 0 →
        ((d.destroyWindow h).createWindow env width height viewport).1 = some h)) := by
  refine ⟨?_, ?_, ?_, ?_⟩
  · unfold Device.getWindowCount
    rw [getWindowCountLoop_eq]
    simp
  · intro hocc
    have hall : ∀ w ∈ d.g_Windows, w.window ≠ 0 := by
      intro w hw
      obtain ⟨i, hi, hget⟩ := List.mem_iff_getElem.mp hw
      have := hocc i (by omega)
      simpa [Device.handle, hi, hget] using this
    unfold Device.createWindow
    simp [findFreeWindow_full d hall]
  · intro i hi hfree hocc
    have hi2 : i < d.g_Windows.length := by omega
    have hfind := findFreeWindow_first d i hi2 hfree hocc
    obtain ⟨h1, h2, h3, h4, h5⟩ := createWindow_slot env width height viewport d i hi2 hfind
    exact ⟨hfind, h1, by rw [h2, hlen], h3, h4, h5⟩
  · intro h hh
    have hh2 : h < d.g_Windows.length := by omega
    obtain ⟨h1, h2, h3, _⟩ := destroyWindow_spec d h hh2
    refine ⟨h1, h2, by rw [h3, hlen], ?_⟩
    intro hocc e1 e2 e3
    have hfind : findFreeWindow (d.destroyWindow h) = (h : Int) :=
      findFreeWindow_first _ h (by omega) h1 (fun j hj => by
        rw [h2 j (by omega)]
        exact hocc j hj)
    exact (createWindow_slot env width height viewport _ h (by omega) hfind).2.2.2.2 e1 e2 e3

/-- Witness for C21: the pool right after process start. -/
theorem windowPool_slots_witness :
    Device.fresh.g_Windows.length = 256 ∧
    (Device.fresh.getWindowCount =
        ((Device.fresh.g_Windows.countP (fun w => w.window != 0) : Nat) : Int) ∧
      ((∀ i, i < 256 → (Device.fresh.handle i).window ≠ 0) →
        Device.fresh.createWindow (CreateEnv.success 10) 800 600 0 = (none, Device.fresh)) ∧
      (∀ i, i < 256 → (Device.fresh.handle i).window = 0 →
        (∀ j, j < i → (Device.fresh.handle j).window ≠ 0) →
        findFreeWindow Device.fresh = (i : Int) ∧
        (∀ j, j ≠ i →
          ((Device.fresh.createWindow (CreateEnv.success 10) 800 600 0).2).handle j =
            Device.fresh.handle j) ∧
        ((Device.fresh.createWindow (CreateEnv.success 10) 800 600 0).2).g_Windows.length = 256 ∧
        ((Device.fresh.createWindow (CreateEnv.success 10) 800 600 0).1 = some i ∨
          (Device.fresh.createWindow (CreateEnv.success 10) 800 600 0).1 = none) ∧
        ((Device.fresh.createWindow (CreateEnv.success 10) 800 600 0).1 = some i →
          (((Device.fresh.createWindow (CreateEnv.success 10) 800 600 0).2).handle i).window =
            (CreateEnv.success 10).SDL_CreateWindow ∧
          (CreateEnv.success 10).SDL_CreateWindow ≠ 0) ∧
        ((CreateEnv.success 10).SDL_CreateWindow ≠ 0 →
          (CreateEnv.success 10).CreateSwapChain ≠ none →
          (CreateEnv.success 10).pBackBuffer ≠ 0 →
          (Device.fresh.createWindow (CreateEnv.success 10) 800 600 0).1 = some i)) ∧
      (∀ h, h < 256 →
        ((Device.fresh.destroyWindow h).handle h).window = 0 ∧
        (∀ j, j ≠ h → (Device.fresh.destroyWindow h).handle j = Device.fresh.handle j) ∧
        (Device.fresh.destroyWindow h).g_Windows.length = 256 ∧
        ((∀ j, j < h → (Device.fresh.handle j).window ≠ 0) →
          (CreateEnv.success 10).SDL_CreateWindow ≠ 0 →
          (CreateEnv.success 10).CreateSwapChain ≠ none →
          (CreateEnv.success 10).pBackBuffer ≠ 0 →
          ((Device.fresh.destroyWindow h).createWindow (CreateEnv.success 10) 800 600 0).1 =
            some h))) :=
  ⟨List.length_replicate 256 _,
    windowPool_slots (CreateEnv.success 10) 800 600 0 Device.fresh (List.length_replicate 256 _)⟩

/-! ### Window visibility -/

set_option maxRecDepth 4000 in
/-- C30: on the window created in slot `0` of a fresh pool,
`setWindowVisibility(h, v)` calls `SDL_ShowWindow` for `v = true` and
`SDL_HideWindow` for `v = false`, leaves the close-pending flag, the
mouse-captured flag and the size of the handle as they are, and stores `v`
in `hidden`, so that `isWindowVisible(h)` returns the negation of `v`. -/
theorem setWindowVisibility_then_isWindowVisible (v : Bool) :
    (Device.demo.setWindowVisibility 0 v).isWindowVisible 0 = !v ∧
    (Device.demo.setWindowVisibility 0 v).trace =
      Device.demo.trace ++ [if v then .SDL_ShowWindow 0 else .SDL_HideWindow 0] ∧
    ((Device.demo.setWindowVisibility 0 v).handle 0).shouldClose =
      (Device.demo.handle 0).shouldClose ∧
    ((Device.demo.setWindowVisibility 0 v).handle 0).mouseCaptured =
      (Device.demo.handle 0).mouseCaptured ∧
    ((Device.demo.setWindowVisibility 0 v).handle 0).width = (Device.demo.handle 0).width ∧
    ((Device.demo.setWindowVisibility 0 v).handle 0).height = (Device.demo.handle 0).height := by
  cases v <;> exact ⟨rfl, rfl, rfl, rfl, rfl, rfl⟩

/-! ### Queued destruction of windows -/

/-- Steps that destroy nothing compose. -/
theorem Device.Dispatches.trans {d d1 d2 : Device} (h1 : d.Dispatches d1)
    (h2 : d1.Dispatches d2) : d.Dispatches d2 := by
  obtain ⟨hl1, hw1, seg1, ht1, hs1⟩ := h1
  obtain ⟨hl2, hw2, seg2, ht2, hs2⟩ := h2
  refine ⟨by rw [hl2, hl1], fun j => by rw [hw2, hw1], seg1 ++ seg2, ?_, ?_⟩
  · rw [ht2, ht1, List.append_assoc]
  · intro c hc
    rcases List.mem_append.mp hc with hc | hc
    · exact hs1 c hc
    · refine ⟨(hs2 c hc).1, fun i hi => ?_⟩
      rw [← hw1]
      exact (hs2 c hc).2 i hi

/-- Logging calls that are no destruction and are made for existing windows
destroys nothing. -/
theorem Device.Dispatches.logs (d : Device) (l : List DeviceCall)
    (hl : ∀ c ∈ l, c.isDestroy = false ∧ ∀ i, c.slot? = some i → (d.handle i).window ≠ 0) :
    d.Dispatches (d.logs l) :=
  ⟨rfl, fun _ => rfl, l, rfl, hl⟩

/-- An assignment through a handle that keeps the native window destroys
nothing. -/
theorem Device.Dispatches.setHandle (d : Device) (h : Nat) (w : WindowHandle)
    (hw : w.window = (d.handle h).window) : d.Dispatches (d.setHandle h w) := by
  refine ⟨by simp, ?_, [], by simp, by simp⟩
  intro j
  by_cases hj : j = h
  · subst hj
    by_cases hlt : j < d.g_Windows.length
    · rw [Device.handle_setHandle_self _ _ _ hlt, hw]
    · simp [Device.setHandle, Device.handle, List.set_eq_of_length_le (Nat.le_of_not_lt hlt)]
  · rw [Device.handle_setHandle_ne _ _ _ _ hj]

/-- Logging one call that is no destruction and is made for an existing
window, or for none, destroys nothing. -/
theorem Device.Dispatches.log (d : Device) (c : DeviceCall) (hc : c.isDestroy = false)
    (hs : ∀ i, c.slot? = some i → (d.handle i).window ≠ 0) : d.Dispatches (d.log c) :=
  ⟨rfl, fun _ => rfl, [c], rfl, fun c1 h1 => by
    rw [List.mem_singleton.mp h1]
    exact ⟨hc, hs⟩⟩

/-- A member call through `getSettingsLoader()` goes through when a loader
is installed, and logs nothing. -/
theorem withSettingsLoader_eq (e : Engine) (k : Engine → Run) (h : e.settingsLoader ≠ 0) :
    e.withSettingsLoader k = k e := by
  have hb : (e.settingsLoader == 0) = false := by simpa using h
  simp [Engine.withSettingsLoader, Engine.getSettingsLoader, deref, hb, h]

/-- The first part of `init` returns when GLFW, the window and OpenGL come
up; it defines no preprocessor symbol. -/
theorem initWindow_returns (s : Settings) (env : InitEnv) (e : Engine)
    (hl : e.settingsLoader ≠ 0) (h1 : env.glfwInit = true) (h2 : env.glfwCreateWindow ≠ 0)
    (h3 : env.gladLoadGL = true) :
    ∃ e1, e.initWindow s env = .ok e1 ∧ e1.settingsLoader = e.settingsLoader ∧
      e1.soundManager = e.soundManager ∧ e1.initFunctions = e.initFunctions ∧
      e1.actions.filter Action.isPreprocessorSymbol =
        e.actions.filter Action.isPreprocessorSymbol := by
  have h2b : (env.glfwCreateWindow == 0) = false := by simpa using h2
  unfold Engine.initWindow
  cases hf : Engine.fullscreen s <;> cases hm : Engine.startMaximized s <;>
    cases hi : s.hasValue "engine" "iconPath" <;>
    simp [withSettingsLoader_eq, hl, h1, h2b, h3, Engine.act, Engine.acts,
      Engine.logMessage, Run.andThen, Action.isPreprocessorSymbol, List.filter_append]

/-- The graphics part of `init` returns; it defines no preprocessor symbol. -/
theorem initGraphics_returns (s : Settings) (env : InitEnv) (e : Engine)
    (hl : e.settingsLoader ≠ 0) :
    ∃ e1, e.initGraphics s env = .ok e1 ∧ e1.settingsLoader = e.settingsLoader ∧
      e1.soundManager = e.soundManager ∧ e1.initFunctions = e.initFunctions ∧
      e1.actions.filter Action.isPreprocessorSymbol =
        e.actions.filter Action.isPreprocessorSymbol := by
  unfold Engine.initGraphics
  cases hr : (env.glfwRawMouseMotionSupported && Engine.rawMouseMotion s) <;>
    simp [withSettingsLoader_eq, hl, hr, Engine.act, Engine.acts, Engine.logMessage,
      Action.isPreprocessorSymbol, List.filter_append]

/-- The audio part of `init` returns when a sound manager is there after the
test of `audio.openal`; it defines no preprocessor symbol. -/
theorem initAudio_returns (s : Settings) (env : InitEnv) (e : Engine)
    (hl : e.settingsLoader ≠ 0)
    (hs : (if Engine.openalEnabled s then env.newALSoundManager else e.soundManager) ≠ 0) :
    ∃ e1, e.initAudio s env = .ok e1 ∧ e1.settingsLoader = e.settingsLoader ∧
      e1.initFunctions = e.initFunctions ∧
      e1.actions.filter Action.isPreprocessorSymbol =
        e.actions.filter Action.isPreprocessorSymbol := by
  unfold Engine.initAudio
  cases ho : Engine.openalEnabled s
  · have hs2 : e.soundManager ≠ 0 := by simpa [ho] using hs
    simp [withSettingsLoader_eq, hl, deref, hs2, Engine.act, Action.isPreprocessorSymbol,
      List.filter_append]
  · have hs2 : env.newALSoundManager ≠ 0 := by simpa [ho] using hs
    simp [withSettingsLoader_eq, hl, deref, hs2, Engine.act, Engine.setSoundManager,
      Action.isPreprocessorSymbol, List.filter_append]

/-- What the three light blocks of `init` do: they return, having defined
`MAX_POINT_LIGHTS` and `MAX_DIRECTIONAL_LIGHTS` when `engine.maxPointLights` is
set and `MAX_SPOT_LIGHTS` when `engine.maxSpotLights` is set, each with what
the read of its value key left in `maxLights`. -/
theorem initLights_eq (s : Settings) (env : InitEnv) (e : Engine) (hl : e.settingsLoader ≠ 0) :
    e.initLights s env = .ok (e.acts
      ((if s.hasValue "engine" "maxPointLights" then
          [Action.init (.addPreprocessorSymbol "MAX_POINT_LIGHTS"
            (s.getInt "engine" "maxPointLights" (env.maxLights 0)))] else []) ++
        (if s.hasValue "engine" "maxPointLights" then
          [Action.init (.addPreprocessorSymbol "MAX_DIRECTIONAL_LIGHTS"
            (s.getInt "engine" "maxDirectionalLights" (env.maxLights 1)))] else []) ++
        (if s.hasValue "engine" "maxSpotLights" then
          [Action.init (.addPreprocessorSymbol "MAX_SPOT_LIGHTS"
            (s.getInt "engine" "maxSpotLights" (env.maxLights 2)))] else []))) := by
  unfold Engine.initLights
  cases hp : s.hasValue "engine" "maxPointLights" <;>
    cases hsp : s.hasValue "engine" "maxSpotLights" <;>
    simp [withSettingsLoader_eq, hl, Engine.act, Engine.acts, Run.andThen]

/-- The physics part of `init` returns; it defines no preprocessor symbol. -/
theorem initPhysics_returns (s : Settings) (env : InitEnv) (e : Engine)
    (hl : e.settingsLoader ≠ 0) :
    ∃ e1, e.initPhysics s env = .ok e1 ∧ e1.initFunctions = e.initFunctions ∧
      e1.actions.filter Action.isPreprocessorSymbol =
        e.actions.filter Action.isPreprocessorSymbol := by
  unfold Engine.initPhysics
  cases hb : Engine.bulletEnabled s <;>
    simp [withSettingsLoader_eq, hl, Engine.act, Engine.setPhysicsProvider,
      Action.isPreprocessorSymbol, List.filter_append]

/-- The registered functions define no preprocessor symbol. -/
theorem callRegisteredFunctions_symbols (funcs : List Nat) (e : Engine) :
    (callRegisteredFunctions funcs e).actions.filter Action.isPreprocessorSymbol =
      e.actions.filter Action.isPreprocessorSymbol ∧
    (callRegisteredFunctions funcs e).angelscript = e.angelscript := by
  rw [callRegisteredFunctions_eq]
  refine ⟨?_, rfl⟩
  simp only [Engine.acts, List.filter_append]
  have : (funcs.map Action.call).filter Action.isPreprocessorSymbol = [] := by
    rw [List.filter_eq_nil_iff]
    intro a ha
    obtain ⟨f, _, hf⟩ := List.mem_map.mp ha
    subst hf
    simp [Action.isPreprocessorSymbol]
  rw [this, List.append_nil]

/-- The end of `init` returns when the scripting provider and the scene root
are constructed; it defines no preprocessor symbol. -/
theorem initScene_returns (env : InitEnv) (e : Engine)
    (ha : env.newAngelscriptProvider ≠ 0) (hr : env.newRoot ≠ 0) :
    ∃ e1, e.initScene env = .ok e1 ∧
      e1.actions.filter Action.isPreprocessorSymbol =
        e.actions.filter Action.isPreprocessorSymbol := by
  have hab : (env.newAngelscriptProvider != 0) = true := by simpa using ha
  have hrb : (env.newRoot != 0) = true := by simpa using hr
  unfold Engine.initScene
  simp only [deref, hab, hrb, if_true, Engine.act, Engine.acts,
    (callRegisteredFunctions_symbols _ _).2]
  refine ⟨_, rfl, ?_⟩
  simp [(callRegisteredFunctions_symbols _ _).1, List.filter_append,
    Action.isPreprocessorSymbol]

/-- C24: when a settings loader is installed, GLFW, the window and OpenGL come
up, a sound manager is there after the test of `audio.openal` and the
scripting provider and the scene root are constructed, `init` returns, and
the preprocessor symbols it has defined are, in order: `MAX_POINT_LIGHTS` if
and only if `engine.maxPointLights` is set, with what the read of
`engine.maxPointLights` gives; `MAX_DIRECTIONAL_LIGHTS` if and only if
`engine.maxPointLights` is set (`engine.maxDirectionalLights` is not tested),
with what the read of `engine.maxDirectionalLights` gives; `MAX_SPOT_LIGHTS` if
and only if `engine.maxSpotLights` is set, with what the read of
`engine.maxSpotLights` gives.  The read of a key holding the integer `v`
gives `v`. -/
theorem init_light_symbols (s : Settings) (env : InitEnv) (e : Engine)
    (hl : e.settingsLoader ≠ 0) (h1 : env.glfwInit = true) (h2 : env.glfwCreateWindow ≠ 0)
    (h3 : env.gladLoadGL = true)
    (hs : (if Engine.openalEnabled s then env.newALSoundManager else e.soundManager) ≠ 0)
    (ha : env.newAngelscriptProvider ≠ 0) (hr : env.newRoot ≠ 0) :
    (∃ e1, e.init s env = .ok e1 ∧
      e1.actions.filter Action.isPreprocessorSymbol =
        e.actions.filter Action.isPreprocessorSymbol ++
          ((if s.hasValue "engine" "maxPointLights" then
              [Action.init (.addPreprocessorSymbol "MAX_POINT_LIGHTS"
                (s.getInt "engine" "maxPointLights" (env.maxLights 0)))] else []) ++
            (if s.hasValue "engine" "maxPointLights" then
              [Action.init (.addPreprocessorSymbol "MAX_DIRECTIONAL_LIGHTS"
                (s.getInt "engine" "maxDirectionalLights" (env.maxLights 1)))] else []) ++
            (if s.hasValue "engine" "maxSpotLights" then
              [Action.init (.addPreprocessorSymbol "MAX_SPOT_LIGHTS"
                (s.getInt "engine" "maxSpotLights" (env.maxLights 2)))] else []))) ∧
    (∀ (name : String) (v out : Int), s.lookup ("engine", name) = some (.int v) →
      s.hasValue "engine" name = true ∧ s.getInt "engine" name out = v) := by
  refine ⟨?_, ?_⟩
  · obtain ⟨e1, r1, l1, s1, _, a1⟩ := initWindow_returns s env e hl h1 h2 h3
    obtain ⟨e2, r2, l2, s2, _, a2⟩ := initGraphics_returns s env e1 (by rw [l1]; exact hl)
    obtain ⟨e3, r3, l3, _, a3⟩ := initAudio_returns s env e2 (by rw [l2, l1]; exact hl)
      (by rw [s2, s1]; exact hs)
    have hl3 : e3.settingsLoader ≠ 0 := by rw [l3, l2, l1]; exact hl
    have r4 := initLights_eq s env e3 hl3
    generalize he4 : e3.acts
      ((if s.hasValue "engine" "maxPointLights" then
          [Action.init (.addPreprocessorSymbol "MAX_POINT_LIGHTS"
            (s.getInt "engine" "maxPointLights" (env.maxLights 0)))] else []) ++
        (if s.hasValue "engine" "maxPointLights" then
          [Action.init (.addPreprocessorSymbol "MAX_DIRECTIONAL_LIGHTS"
            (s.getInt "engine" "maxDirectionalLights" (env.maxLights 1)))] else []) ++
        (if s.hasValue "engine" "maxSpotLights" then
          [Action.init (.addPreprocessorSymbol "MAX_SPOT_LIGHTS"
            (s.getInt "engine" "maxSpotLights" (env.maxLights 2)))] else [])) = e4 at r4
    have hl4 : e4.settingsLoader ≠ 0 := by rw [← he4]; exact hl3
    obtain ⟨e5, r5, _, a5⟩ := initPhysics_returns s env e4 hl4
    obtain ⟨e6, r6, a6⟩ := initScene_returns env e5 ha hr
    refine ⟨e6, ?_, ?_⟩
    · unfold Engine.init
      simp only [r1, r2, r3, r4, r5, r6, Run.andThen]
    · rw [a6, a5, ← he4]
      simp only [Engine.acts, List.filter_append, a3, a2, a1]
      cases s.hasValue "engine" "maxPointLights" <;> cases s.hasValue "engine" "maxSpotLights" <;>
        simp [Action.isPreprocessorSymbol]
  · intro name v out hv
    simp [Settings.hasValue, Settings.getInt, hv]

/-- Witness for C24: a store that sets `engine.maxPointLights` to `64` and
`engine.maxSpotLights` to `4` and does not set `engine.maxDirectionalLights`:
`MAX_DIRECTIONAL_LIGHTS` is defined all the same, with what the uninitialised
local holds. -/
theorem init_light_symbols_witness :
    (∃ e1, (Engine.preInit 6 Engine.start).init
        [(("engine", "maxPointLights"), .int 64), (("engine", "maxSpotLights"), .int 4)]
        InitEnv.demo = .ok e1 ∧
      e1.actions.filter Action.isPreprocessorSymbol =
        [Action.init (.addPreprocessorSymbol "MAX_POINT_LIGHTS" 64),
          .init (.addPreprocessorSymbol "MAX_DIRECTIONAL_LIGHTS" (InitEnv.demo.maxLights 1)),
          .init (.addPreprocessorSymbol "MAX_SPOT_LIGHTS" 4)]) ∧
    ((∃ e1, (Engine.preInit 6 Engine.start).init
        [(("engine", "maxPointLights"), .int 64), (("engine", "maxSpotLights"), .int 4)]
        InitEnv.demo = .ok e1 ∧
      e1.actions.filter Action.isPreprocessorSymbol =
        (Engine.preInit 6 Engine.start).actions.filter Action.isPreprocessorSymbol ++
          ((if Settings.hasValue
                [(("engine", "maxPointLights"), .int 64), (("engine", "maxSpotLights"), .int 4)]
                "engine" "maxPointLights" then
              [Action.init (.addPreprocessorSymbol "MAX_POINT_LIGHTS"
                (Settings.getInt
                  [(("engine", "maxPointLights"), .int 64), (("engine", "maxSpotLights"), .int 4)]
                  "engine" "maxPointLights" (InitEnv.demo.maxLights 0)))] else []) ++
            (if Settings.hasValue
                [(("engine", "maxPointLights"), .int 64), (("engine", "maxSpotLights"), .int 4)]
                "engine" "maxPointLights" then
              [Action.init (.addPreprocessorSymbol "MAX_DIRECTIONAL_LIGHTS"
                (Settings.getInt
                  [(("engine", "maxPointLights"), .int 64), (("engine", "maxSpotLights"), .int 4)]
                  "engine" "maxDirectionalLights" (InitEnv.demo.maxLights 1)))] else []) ++
            (if Settings.hasValue
                [(("engine", "maxPointLights"), .int 64), (("engine", "maxSpotLights"), .int 4)]
                "engine" "maxSpotLights" then
              [Action.init (.addPreprocessorSymbol "MAX_SPOT_LIGHTS"
                (Settings.getInt
                  [(("engine", "maxPointLights"), .int 64), (("engine", "maxSpotLights"), .int 4)]
                  "engine" "maxSpotLights" (InitEnv.demo.maxLights 2)))] else []))) ∧
    (∀ (name : String) (v out : Int),
      List.lookup ("engine", name)
        [(("engine", "maxPointLights"), SettingValue.int 64),
          (("engine", "maxSpotLights"), .int 4)] = some (.int v) →
      Settings.hasValue
        [(("engine", "maxPointLights"), .int 64), (("engine", "maxSpotLights"), .int 4)]
        "engine" name = true ∧
      Settings.getInt
        [(("engine", "maxPointLights"), .int 64), (("engine", "maxSpotLights"), .int 4)]
        "engine" name out = v)) :=
  ⟨⟨_, rfl, rfl⟩,
    init_light_symbols
      [(("engine", "maxPointLights"), .int 64), (("engine", "maxSpotLights"), .int 4)]
      InitEnv.demo (Engine.preInit 6 Engine.start) (by decide) rfl (by decide) rfl (by decide)
      (by decide) (by decide)⟩

/-- C23: with `audio.openal` set to `false` and no sound manager installed,
`init` runs up to the ImGui set-up, constructs no sound manager and stops at
the call `Engine::soundManager->init()` through the null pointer.  With
`physics.bullet` set to `false`, `init` returns without a physics provider;
`run` then stops in its first loop iteration at the call of `updatePhysics`
through the null pointer, before anything of the frame is done, and `stop`
stops at the call `Engine::physicsProvider->stop()` through the null pointer,
right after the scene root is deleted. -/
theorem init_run_stop_dereference_absent_subsystem :
    (∃ e, (Engine.preInit 6 Engine.start).init [(("audio", "openal"), .bool false)]
        InitEnv.demo = .nullDereference e ∧
      e.soundManager = 0 ∧
      e.actions.filter (fun a => a == .init .newALSoundManager) = [] ∧
      e.actions.getLast? = some (.init .ImGui_ImplOpenGL3_Init)) ∧
    (∃ e, (Engine.preInit 6 Engine.start).init [(("physics", "bullet"), .bool false)]
        InitEnv.demo = .ok e ∧
      e.physicsProvider = 0 ∧
      e.actions.filter (fun a => a == .init .newBulletPhysicsProvider) = [] ∧
      (∃ e1, e.run Env.demo 3 = .nullDereference e1 ∧
        e1.actions = e.actions ++ [.glfwGetTime (Env.demo.glfwGetTime 0)]) ∧
      (∃ e2, e.stop Env.demo 0 = .nullDereference e2 ∧
        e2.actions = e.actions ++ [.angelscriptStop, .soundManagerStop, .deleteRoot])) :=
  ⟨⟨_, rfl, rfl, by decide, by decide⟩,
    ⟨_, rfl, rfl, by decide, ⟨_, rfl, rfl⟩, ⟨_, rfl, rfl⟩⟩⟩

end chira
